import Mathlib

/-!
# Web Automation Studio: code generators and emitted run-time helpers

A shallow embedding of the script generators of `src/components/CodeModal.jsx`
(the generator mounted by `App.jsx`) and `src/components/CodeModal_V2.jsx`, of the
step templates and the store operations of `src/store/workflowStore.js`, and of
the helper functions
`formatDate` / `resolveTemplate` (JavaScript) and `format_date` /
`resolve_template` (Python) whose source text the generators emit.

## Conventions of the embedding

* JavaScript values that can occur in a step configuration are values of `JsVal`.
  `JsVal.num n` is the JavaScript number with the integer value `n`; its decimal
  rendering is the one JavaScript prints for integers below `10^21`.  Numbers
  with a fractional part are not values of the model.  `JsVal.obj fields` lists
  the own properties of a plain object in enumeration order, with distinct keys.
* A JavaScript function that can throw is a function into `Except JsError`.
  `JsError.typeError` is a thrown `TypeError`.  `JsError.unmodelled` marks an
  input on which JavaScript does return a value but the embedding does not
  compute it (number coercion of strings, arrays and objects, upper-casing of
  non-ASCII text); no theorem below relies on the value at such an input.
* The wall clock read by `new Date()` is a parameter: `now` is the ISO timestamp
  at generation time, `Clock` the readings at the run time of an emitted script.
-/

namespace WebAutomationStudio

/-! ## JavaScript values -/

/-- JavaScript values occurring in step configurations and variable stores. -/
inductive JsVal where
  | undefined
  | null
  | bool (b : Bool)
  | num (n : Int)
  | nan
  | str (s : String)
  | arr (items : List JsVal)
  | obj (fields : List (String × JsVal))
  deriving Inhabited

/-- Exceptions thrown by the embedded JavaScript, and the marker for inputs
outside the computed fragment. -/
inductive JsError where
  | typeError (msg : String)
  | unmodelled (what : String)
  deriving DecidableEq, Repr

/-- `Array.prototype.join` on texts: the items separated by `sep`. -/
def jsJoin (sep : String) : List String → String
  | [] => ""
  | [x] => x
  | x :: y :: rest => x ++ sep ++ jsJoin sep (y :: rest)

namespace JsVal

/-- Own-property lookup in a field list. -/
def lookup : List (String × JsVal) → String → Option JsVal
  | [], _ => none
  | (k, v) :: rest, key => if k = key then some v else lookup rest key

/-- ToBoolean: `undefined`, `null`, `false`, `0`, `NaN` and `''` are falsy. -/
def truthy : JsVal → Bool
  | undefined => false
  | null => false
  | bool b => b
  | num n => n != 0
  | nan => false
  | str s => s != ""
  | arr _ => true
  | obj _ => true

/-- Whether a value is `null` or `undefined`. -/
def isNullish : JsVal → Bool
  | undefined => true
  | null => true
  | _ => false

/-- The operator `a || b`. -/
def or (a b : JsVal) : JsVal := if a.truthy then a else b

/-- The operator `a ?? b`. -/
def nullish (a b : JsVal) : JsVal := if a.isNullish then b else a

/-- Property read `v.key` on a receiver that is neither `null` nor `undefined`:
own property of a plain object, `undefined` on primitives and arrays (none of
the property names read by the generators exists on a prototype). -/
def field (v : JsVal) (key : String) : JsVal :=
  match v with
  | obj fields => (lookup fields key).getD undefined
  | _ => undefined

/-- Property read `v.key`: throws on `null` and `undefined`. -/
def get (v : JsVal) (key : String) : Except JsError JsVal :=
  if v.isNullish then
    .error (.typeError ("Cannot read properties of " ++ (if v matches null then "null" else "undefined")
      ++ " (reading '" ++ key ++ "')"))
  else .ok (v.field key)

/-- Optional chaining `v?.key`. -/
def optField (v : JsVal) (key : String) : JsVal :=
  if v.isNullish then undefined else v.field key

/-- Strict equality `a === b`; arrays and objects compare by identity and so
never equal a literal. -/
def strictEq : JsVal → JsVal → Bool
  | undefined, undefined => true
  | null, null => true
  | bool a, bool b => a == b
  | num a, num b => a == b
  | str a, str b => a == b
  | _, _ => false

mutual
/-- ToString, as applied by template literals, `String(v)` and `'...' + v`. -/
def toStr : JsVal → String
  | undefined => "undefined"
  | null => "null"
  | bool b => if b then "true" else "false"
  | num n => toString n
  | nan => "NaN"
  | str s => s
  | arr items => jsJoin "," (toStrItems items)
  | obj _ => "[object Object]"
/-- Elements of an array as joined by `Array.prototype.join`. -/
def toStrItems : List JsVal → List String
  | [] => []
  | v :: vs =>
    (match v with
      | undefined => ""
      | null => ""
      | w => toStr w) :: toStrItems vs
end

/-- `Array.isArray(v)`. -/
def isArray : JsVal → Bool
  | arr _ => true
  | _ => false

end JsVal

/-- Rendering of a boolean in a template literal. -/
def boolStr (b : Bool) : String := if b then "true" else "false"

/-! ## String helpers -/

/-- Replace every occurrence of the character `c` in `s` by `r`: the effect of
`s.replace(/c/g, r)` for a one-character pattern and a replacement without `$`. -/
def strReplaceAll (s : String) (c : Char) (r : String) : String :=
  String.mk (s.data.flatMap fun d => if d = c then r.data else [d])

/-- The call `v.replace(/c/g, r)`: only strings have a `replace` method. -/
def jsReplaceAll (v : JsVal) (c : Char) (r : String) : Except JsError String :=
  match v with
  | .str s => .ok (strReplaceAll s c r)
  | .undefined => .error (.typeError "Cannot read properties of undefined (reading 'replace')")
  | .null => .error (.typeError "Cannot read properties of null (reading 'replace')")
  | _ => .error (.typeError "replace is not a function")

/-- The call `v?.replace(/c/g, r)`. -/
def jsOptReplaceAll (v : JsVal) (c : Char) (r : String) : Except JsError JsVal :=
  if v.isNullish then .ok .undefined else (jsReplaceAll v c r).map .str

/-- The expression `v.split(sep)[0]`: the text before the first separator. -/
def jsSplitHead (v : JsVal) (sep : Char) : Except JsError String :=
  match v with
  | .str s => .ok (String.mk (s.data.takeWhile fun d => d != sep))
  | .undefined => .error (.typeError "Cannot read properties of undefined (reading 'split')")
  | .null => .error (.typeError "Cannot read properties of null (reading 'split')")
  | _ => .error (.typeError "split is not a function")

/-- The call `v.toUpperCase()`, computed for ASCII text. -/
def jsToUpperCase (v : JsVal) : Except JsError String :=
  match v with
  | .str s =>
    if s.data.all (fun d => d.val < 128) then .ok (String.mk (s.data.map Char.toUpper))
    else .error (.unmodelled "toUpperCase of non-ASCII text")
  | .undefined => .error (.typeError "Cannot read properties of undefined (reading 'toUpperCase')")
  | .null => .error (.typeError "Cannot read properties of null (reading 'toUpperCase')")
  | _ => .error (.typeError "toUpperCase is not a function")

/-- White space and line terminators removed by `String.prototype.trim`. -/
def isJsWhitespace (c : Char) : Bool :=
  c.val = 0x09 || c.val = 0x0A || c.val = 0x0B || c.val = 0x0C || c.val = 0x0D ||
  c.val = 0x20 || c.val = 0xA0 || c.val = 0x1680 || (0x2000 ≤ c.val && c.val ≤ 0x200A) ||
  c.val = 0x2028 || c.val = 0x2029 || c.val = 0x202F || c.val = 0x205F ||
  c.val = 0x3000 || c.val = 0xFEFF

/-- The call `s.trim()`. -/
def jsTrim (s : String) : String :=
  String.mk ((s.data.dropWhile isJsWhitespace).reverse.dropWhile isJsWhitespace).reverse

/-- Split a character list at every occurrence of `sep` (`s.split(sep)`). -/
def splitOnChar (sep : Char) : List Char → List (List Char)
  | [] => [[]]
  | c :: cs =>
    match splitOnChar sep cs with
    | [] => [[c]]
    | seg :: segs => if c = sep then [] :: seg :: segs else (c :: seg) :: segs

/-! ## JSON.stringify -/

/-- Lower-case hexadecimal digit. -/
def hexDigit (n : Nat) : Char :=
  if n < 10 then Char.ofNat (48 + n) else Char.ofNat (87 + n)

/-- QuoteJSONString on one character. -/
def jsonEscapeChar (c : Char) : List Char :=
  if c = '"' then ['\\', '"']
  else if c = '\\' then ['\\', '\\']
  else if c.val = 0x08 then ['\\', 'b']
  else if c.val = 0x09 then ['\\', 't']
  else if c.val = 0x0A then ['\\', 'n']
  else if c.val = 0x0C then ['\\', 'f']
  else if c.val = 0x0D then ['\\', 'r']
  else if c.val < 0x20 then
    ['\\', 'u', '0', '0', hexDigit (c.val.toNat / 16), hexDigit (c.val.toNat % 16)]
  else [c]

/-- QuoteJSONString: the JSON text of a string. -/
def jsonQuote (s : String) : String :=
  String.mk ('"' :: (s.data.flatMap jsonEscapeChar ++ ['"']))

mutual
/-- The value of `JSON.stringify(v)` with `none` for `undefined`. -/
def jsonText : JsVal → Option String
  | .undefined => none
  | .null => some "null"
  | .bool b => some (boolStr b)
  | .num n => some (toString n)
  | .nan => some "null"
  | .str s => some (jsonQuote s)
  | .arr items => some ("[" ++ jsJoin "," (jsonItems items) ++ "]")
  | .obj fields => some ("\x7b" ++ jsJoin "," (jsonFields fields) ++ "\x7d")
/-- Array elements: `undefined` is written `null`. -/
def jsonItems : List JsVal → List String
  | [] => []
  | v :: vs => (jsonText v).getD "null" :: jsonItems vs
/-- Object members: a member whose value is `undefined` is omitted. -/
def jsonFields : List (String × JsVal) → List String
  | [] => []
  | (k, v) :: rest =>
    match jsonText v with
    | none => jsonFields rest
    | some t => (jsonQuote k ++ ":" ++ t) :: jsonFields rest
end

/-- `JSON.stringify(v)` as a JavaScript value. -/
def jsonStringify (v : JsVal) : JsVal :=
  match jsonText v with
  | none => .undefined
  | some t => .str t

/-! ## Numbers -/

/-- ToNumber on the values the embedding computes it for: `none` is `NaN`. -/
def toNumber : JsVal → Except JsError (Option Int)
  | .undefined => .ok none
  | .null => .ok (some 0)
  | .bool b => .ok (some (if b then 1 else 0))
  | .num n => .ok (some n)
  | .nan => .ok none
  | .str _ => .error (.unmodelled "ToNumber of a string")
  | .arr _ => .error (.unmodelled "ToNumber of an array")
  | .obj _ => .error (.unmodelled "ToNumber of an object")

/-- A number as a JavaScript value. -/
def ofNumber : Option Int → JsVal
  | none => .nan
  | some n => .num n

/-- The operator `a - b`. -/
def jsSub (a b : JsVal) : Except JsError JsVal := do
  let x ← toNumber a
  let y ← toNumber b
  pure (ofNumber (do let m ← x; let n ← y; pure (m - n)))

/-- Unary minus `-a`. -/
def jsNeg (a : JsVal) : Except JsError JsVal := do
  let x ← toNumber a
  pure (ofNumber (x.map fun n => -n))

/-- `Math.max(a, b)`. -/
def mathMax (a b : JsVal) : Except JsError JsVal := do
  let x ← toNumber a
  let y ← toNumber b
  pure (ofNumber (do let m ← x; let n ← y; pure (max m n)))

/-- `Math.floor(a / d)` for a positive integer literal `d`. -/
def mathFloorDiv (a : JsVal) (d : Nat) : Except JsError JsVal := do
  let x ← toNumber a
  pure (ofNumber (x.map fun n => n / (d : Int)))

/-- Decimal text of `n / 1000` as JavaScript prints it: integer part and up to
three fraction digits without trailing zeros. -/
def showThousandths (n : Int) : String :=
  let a := n.natAbs
  let q := a / 1000
  let r := a % 1000
  let frac :=
    if r = 0 then ""
    else if r % 100 = 0 then "." ++ toString (r / 100)
    else if r % 10 = 0 then "." ++ (if r < 100 then "0" else "") ++ toString (r / 10)
    else "." ++ (if r < 10 then "00" else if r < 100 then "0" else "") ++ toString r
  (if n < 0 then "-" else "") ++ toString q ++ frac

/-- Text of `${a / 1000}`. -/
def jsDiv1000Str (a : JsVal) : Except JsError String := do
  let x ← toNumber a
  match x with
  | none => pure "NaN"
  | some n => pure (showThousandths n)

/-! ## Steps and workflows -/

/-- One configured automation step of the workflow list (`workflowStore.js`).
`type` is a string, as for every step created by `addStep`; `name` and `icon` are
any value: the step `addStep('__proto__')` creates has neither. -/
structure Step where
  id : String
  type : String
  name : JsVal
  icon : JsVal
  config : JsVal
  enabled : Bool
  order : Int
  createdAt : String
  updatedAt : String

/-- The template literal that the generators map over the workflow,
`${marker}${i + 1}: ${step.name}${sep}${emit(step)}`, where `marker` is the
indented comment opener before the step number and `sep` the line break and
indentation before the fragment. -/
def stepBlock (marker sep : String) (emit : Step → Except JsError String) (i : Nat)
    (step : Step) : Except JsError String := do
  let code ← emit step
  pure (marker ++ toString (i + 1) ++ ": " ++ step.name.toStr ++ sep ++ code)

/-- Elements of `workflow.map((step, i) => block(i, step))`, computed left to
right starting at index `i`; the first exception ends the evaluation. -/
def mapBlocks (block : Nat → Step → Except JsError String) :
    Nat → List Step → Except JsError (List String)
  | _, [] => pure []
  | i, step :: rest => do
    let b ← block i step
    let bs ← mapBlocks block (i + 1) rest
    pure (b :: bs)

/-- The expression `workflow.map((step, i) => block(i, step)).join('\n\n')`. -/
def joinBlocks (block : Nat → Step → Except JsError String) (workflow : List Step) :
    Except JsError String := do
  let blocks ← mapBlocks block 0 workflow
  pure (jsJoin "\n\n" blocks)

/-! ## Step templates (`workflowStore.js`) -/

/-- Display metadata and default configuration of one step type. -/
structure ActionTemplate where
  name : String
  icon : String
  config : JsVal

/-- The table `actionTemplates` of `workflowStore.js`, in source order. -/
def actionTemplates : List (String × ActionTemplate) :=
  [ ("navigate", ⟨"Navigate to URL", "🌐",
      .obj [("url", .str ""), ("waitForLoad", .bool true), ("timeout", .num 30000)]⟩),
    ("wait-time", ⟨"Wait Fixed Time", "⏰",
      .obj [("duration", .num 2000), ("randomDelay", .bool false), ("minDelay", .num 1000), ("maxDelay", .num 3000)]⟩),
    ("wait-element", ⟨"Wait for Element", "👀",
      .obj [("selector", .str ""), ("timeout", .num 30000), ("condition", .str "visible")]⟩),
    ("wait-disappear", ⟨"Wait Until Disappears", "👻",
      .obj [("selector", .str ""), ("timeout", .num 30000)]⟩),
    ("wait-text", ⟨"Wait for Text Content", "📝",
      .obj [("selector", .str ""), ("expectedText", .str ""), ("timeout", .num 30000), ("exact", .bool false)]⟩),
    ("wait-clickable", ⟨"Wait Until Clickable", "🖱️",
      .obj [("selector", .str ""), ("timeout", .num 30000)]⟩),
    ("wait-page-load", ⟨"Wait for Page Load", "🔄",
      .obj [("timeout", .num 30000), ("waitFor", .str "networkidle")]⟩),
    ("click", ⟨"Click Element", "🖱️",
      .obj [("selector", .str ""), ("timeout", .num 10000), ("waitForElement", .bool true), ("scrollToElement", .bool true)]⟩),
    ("double-click", ⟨"Double Click", "⚡",
      .obj [("selector", .str ""), ("timeout", .num 10000), ("delay", .num 100)]⟩),
    ("right-click", ⟨"Right Click", "🖱️",
      .obj [("selector", .str ""), ("timeout", .num 10000)]⟩),
    ("hover", ⟨"Hover Over Element", "👋",
      .obj [("selector", .str ""), ("timeout", .num 10000), ("duration", .num 1000)]⟩),
    ("scroll", ⟨"Scroll Page", "⬆️",
      .obj [("direction", .str "down"), ("amount", .num 500), ("smooth", .bool true), ("element", .str "page")]⟩),
    ("type", ⟨"Type Text", "⌨️",
      .obj [("selector", .str ""), ("text", .str ""), ("speed", .num 50), ("clearFirst", .bool false)]⟩),
    ("clear-type", ⟨"Clear & Type", "🧹",
      .obj [("selector", .str ""), ("text", .str ""), ("speed", .num 50)]⟩),
    ("select-dropdown", ⟨"Select from Dropdown", "📋",
      .obj [("selector", .str ""), ("value", .str ""), ("byValue", .bool true), ("searchable", .bool false)]⟩),
    ("upload-file", ⟨"Upload File", "📤",
      .obj [("selector", .str ""), ("filePath", .str ""), ("multiple", .bool false)]⟩),
    ("press-key", ⟨"Press Key", "⌨️",
      .obj [("key", .str "Enter"), ("modifiers", .arr [])]⟩),
    ("check-checkbox", ⟨"Check/Uncheck Box", "☑️",
      .obj [("selector", .str ""), ("action", .str "check")]⟩),
    ("radio-select", ⟨"Select Radio Button", "🔘",
      .obj [("selector", .str ""), ("value", .str "")]⟩),
    ("download-trigger", ⟨"Trigger Download", "📥",
      .obj [("downloadPath", .str "./downloads"), ("selector", .str ""), ("timeout", .num 60000)]⟩),
    ("download-verify", ⟨"Verify Download", "✅",
      .obj [("downloadPath", .str "./downloads"), ("fileName", .str ""), ("timeout", .num 60000), ("fileSize", .num 0), ("checkContent", .bool false)]⟩),
    ("file-monitor", ⟨"Monitor File Changes", "🔍",
      .obj [("folderPath", .str "./downloads"), ("pattern", .str "*"), ("timeout", .num 60000), ("action", .str "newest")]⟩),
    ("cloud-upload", ⟨"Upload to Cloud", "☁️",
      .obj [("provider", .str "onedrive"), ("localPath", .str ""), ("remotePath", .str ""), ("overwrite", .bool false)]⟩),
    ("extract-text", ⟨"Extract Text", "📝",
      .obj [("selector", .str ""), ("attribute", .str "text"), ("saveAs", .str "variable1")]⟩),
    ("extract-table", ⟨"Extract Table Data", "📊",
      .obj [("selector", .str "table"), ("includeHeaders", .bool true), ("saveAs", .str "tableData")]⟩),
    ("extract-links", ⟨"Extract Links", "🔗",
      .obj [("selector", .str "a"), ("attribute", .str "href"), ("saveAs", .str "links")]⟩),
    ("screenshot", ⟨"Take Screenshot", "📸",
      .obj [("fileName", .str "screenshot_\x7btimestamp\x7d.png"), ("fullPage", .bool true), ("selector", .str "")]⟩),
    ("condition", ⟨"If Condition", "❓",
      .obj [("type", .str "elementExists"), ("selector", .str ""), ("value", .str ""), ("operator", .str "equals"), ("thenAction", .str "continue"), ("elseAction", .str "skip")]⟩),
    ("loop", ⟨"Loop Actions", "🔁",
      .obj [("type", .str "count"), ("count", .num 1), ("maxIterations", .num 100), ("breakCondition", .str "")]⟩),
    ("try-catch", ⟨"Error Handling", "🛡️",
      .obj [("continueOnError", .bool true), ("logErrors", .bool true), ("fallbackAction", .str "skip")]⟩),
    ("refresh", ⟨"Refresh Page", "🔄",
      .obj [("timeout", .num 10000)]⟩),
    ("back", ⟨"Go Back", "⬅️",
      .obj [("timeout", .num 5000)]⟩),
    ("forward", ⟨"Go Forward", "➡️",
      .obj [("timeout", .num 5000)]⟩),
    ("javascript", ⟨"Execute JavaScript", "🔧",
      .obj [("code", .str ""), ("returnValue", .bool false), ("saveAs", .str "jsResult")]⟩),
    ("api-call", ⟨"API Request", "🌐",
      .obj [("url", .str ""), ("method", .str "GET"), ("headers", .obj []), ("body", .str ""), ("saveAs", .str "apiResponse")]⟩),
    ("notification", ⟨"Send Notification", "🔔",
      .obj [("title", .str ""), ("message", .str ""), ("type", .str "info")]⟩),
    ("new-tab", ⟨"Open New Tab", "📑",
      .obj [("url", .str ""), ("switchToTab", .bool true), ("timeout", .num 10000)]⟩),
    ("wait-download", ⟨"Wait for Download", "📥",
      .obj [("downloadPath", .str "./downloads"), ("timeout", .num 60000), ("fileName", .str ""), ("exactMatch", .bool false)]⟩),
    ("focus", ⟨"Focus Element", "🎯",
      .obj [("selector", .str ""), ("timeout", .num 10000), ("scrollIntoView", .bool true)]⟩),
    ("file-rename", ⟨"Rename File", "📝",
      .obj [("currentPath", .str ""), ("newPath", .str ""), ("overwrite", .bool false)]⟩),
    ("file-move", ⟨"Move File", "🚚",
      .obj [("sourcePath", .str ""), ("destinationPath", .str ""), ("createDirectories", .bool true), ("overwrite", .bool false)]⟩),
    ("extract-images", ⟨"Extract Images", "🖼️",
      .obj [("selector", .str "img"), ("attribute", .str "src"), ("saveAs", .str "images"), ("downloadImages", .bool false), ("downloadPath", .str "./images")]⟩),
    ("pdf-generate", ⟨"Generate PDF", "📄",
      .obj [("fileName", .str "document_\x7btimestamp\x7d.pdf"), ("fullPage", .bool true), ("quality", .num 80), ("landscape", .bool false), ("margins", .obj [("top", .str "20px"), ("right", .str "20px"), ("bottom", .str "20px"), ("left", .str "20px")])]⟩),
    ("break", ⟨"Break Loop", "🛑",
      .obj [("condition", .str ""), ("immediate", .bool true)]⟩),
    ("variable-set", ⟨"Set Variable", "📌",
      .obj [("name", .str ""), ("value", .str ""), ("type", .str "string")]⟩),
    ("variable-get", ⟨"Get Variable", "📌",
      .obj [("name", .str ""), ("saveAs", .str ""), ("defaultValue", .str "")]⟩),
    ("database", ⟨"Database Query", "💾",
      .obj [("connectionString", .str ""), ("query", .str ""), ("parameters", .obj []), ("saveAs", .str "dbResult")]⟩),
    ("email", ⟨"Send Email", "📧",
      .obj [("to", .str ""), ("subject", .str ""), ("message", .str ""), ("attachments", .str ""), ("provider", .str "smtp"), ("smtpSettings", .obj [])]⟩) ]

/-! ## `CodeModal.jsx`: the generator mounted by the application -/

namespace CodeModal

/-- Puppeteer fragment of one step (`generateStepCode`). -/
def generateStepCode (step : Step) : Except JsError String := do
  match step.type with
  | "navigate" => do
      let t1 ← step.config.get "url"
      let t2 ← step.config.get "url"
      pure (
        "console.log('🌐 Navigating to: " ++ t1.toStr ++ "');\n" ++
        "      await this.page.goto('" ++ t2.toStr ++ "', \x7b waitUntil: 'networkidle2' \x7d);")
  | "wait-time" => do
      let t1 ← step.config.get "duration"
      let t2 ← step.config.get "duration"
      pure (
        "console.log('⏰ Waiting " ++ t1.toStr ++ "ms');\n" ++
        "      await new Promise(r => setTimeout(r, " ++ t2.toStr ++ "));")
  | "click" => do
      let t1 ← step.config.get "selector"
      let t2 ← step.config.get "selector"
      let t3 ← step.config.get "selector"
      pure (
        "console.log('🖱️ Clicking: " ++ t1.toStr ++ "');\n" ++
        "      await this.page.waitForSelector('" ++ t2.toStr ++ "');\n" ++
        "      await this.page.click('" ++ t3.toStr ++ "');")
  | "type" => do
      let t1 ← step.config.get "selector"
      let t2 ← step.config.get "selector"
      let t3 ← step.config.get "clearFirst"
      let t5 ← (if t3.truthy then (do let t4 ← step.config.get "selector"; pure ("await this.page.evaluate(sel => document.querySelector(sel).value = '', '" ++ t4.toStr ++ "');")) else pure (""))
      let t6 ← step.config.get "selector"
      let t7 ← step.config.get "text"
      pure (
        "console.log('⌨️ Typing into: " ++ t1.toStr ++ "');\n" ++
        "      await this.page.waitForSelector('" ++ t2.toStr ++ "');\n" ++
        "      " ++ t5 ++ "\n" ++
        "      await this.page.type('" ++ t6.toStr ++ "', '" ++ t7.toStr ++ "');")
  | "wait-text" => do
      let t1 ← step.config.get "expectedText"
      let t2 ← step.config.get "selector"
      let t3 ← step.config.get "timeout"
      let t4 ← step.config.get "selector"
      let t5 ← step.config.get "expectedText"
      let t6 ← step.config.get "exact"
      pure (
        "console.log('⏳ Waiting for text: \"" ++ t1.toStr ++ "\" in " ++ t2.toStr ++ "');\n" ++
        "      await this.page.waitForFunction(\n" ++
        "        (selector, text, exact) => \x7b\n" ++
        "          const element = document.querySelector(selector);\n" ++
        "          if (!element) return false;\n" ++
        "          const content = element.textContent;\n" ++
        "          return exact ? content === text : content.includes(text);\n" ++
        "        \x7d,\n" ++
        "        \x7b timeout: " ++ (JsVal.or t3 (JsVal.num 30000)).toStr ++ " \x7d,\n" ++
        "        '" ++ t4.toStr ++ "',\n" ++
        "        '" ++ t5.toStr ++ "',\n" ++
        "        " ++ t6.toStr ++ "\n" ++
        "      );")
  | "wait-clickable" => do
      let t1 ← step.config.get "selector"
      let t2 ← step.config.get "selector"
      let t3 ← step.config.get "timeout"
      pure (
        "console.log('⏳ Waiting for element to be clickable: " ++ t1.toStr ++ "');\n" ++
        "      await this.page.waitForSelector('" ++ t2.toStr ++ "', \x7b visible: true, timeout: " ++ (JsVal.or t3 (JsVal.num 30000)).toStr ++ " \x7d);")
  | "wait-disappear" => do
      let t1 ← step.config.get "selector"
      let t2 ← step.config.get "selector"
      let t3 ← step.config.get "timeout"
      pure (
        "console.log('⏳ Waiting for element to disappear: " ++ t1.toStr ++ "');\n" ++
        "      await this.page.waitForSelector('" ++ t2.toStr ++ "', \x7b hidden: true, timeout: " ++ (JsVal.or t3 (JsVal.num 30000)).toStr ++ " \x7d);")
  | "download-verify" => do
      let t1 ← step.config.get "downloadPath"
      let t2 ← step.config.get "fileName"
      pure (
        "console.log('📥 Verifying download...');\n" ++
        "      await waitForDownload('" ++ t1.toStr ++ "', '" ++ t2.toStr ++ "');")
  | "refresh" =>
      pure (
        "console.log('🔄 Refreshing page');\n" ++
        "      await this.page.reload(\x7b waitUntil: 'networkidle2' \x7d);")
  | "back" =>
      pure (
        "console.log('◀️ Going back');\n" ++
        "      await this.page.goBack();")
  | "forward" =>
      pure (
        "console.log('▶️ Going forward');\n" ++
        "      await this.page.goForward();")
  | "wait-page-load" => do
      let t1 ← step.config.get "waitFor"
      let t2 ← step.config.get "timeout"
      pure (
        "console.log('⏳ Waiting for page to load...');\n" ++
        "      await this.page.waitForNavigation(\x7b waitUntil: '" ++ (JsVal.or t1 (JsVal.str "networkidle2")).toStr ++ "', timeout: " ++ (JsVal.or t2 (JsVal.num 30000)).toStr ++ " \x7d);")
  | "wait-download" => do
      let t1 ← step.config.get "downloadPath"
      let t2 ← jsReplaceAll t1 '\\' "\\\\"
      let t3 ← step.config.get "fileName"
      let t4 ← step.config.get "timeout"
      let t5 ← step.config.get "exactMatch"
      pure (
        "console.log('⏳ Waiting for download...');\n" ++
        "      await waitForDownload(\n" ++
        "        '" ++ t2 ++ "',\n" ++
        "        '" ++ t3.toStr ++ "',\n" ++
        "        " ++ (JsVal.or t4 (JsVal.num 60000)).toStr ++ ",\n" ++
        "        " ++ (JsVal.or t5 (JsVal.bool false)).toStr ++ "\n" ++
        "      );")
  | "new-tab" => do
      let t1 ← step.config.get "url"
      let t2 ← step.config.get "url"
      let t3 ← step.config.get "switchToTab"
      pure (
        "console.log('Opening new tab');\n" ++
        "      const newPage = await this.browser.newPage();\n" ++
        "      if ('" ++ t1.toStr ++ "') \x7b\n" ++
        "        await newPage.goto('" ++ t2.toStr ++ "');\n" ++
        "      \x7d\n" ++
        "      if (" ++ t3.toStr ++ ") \x7b\n" ++
        "        this.page = newPage;\n" ++
        "      \x7d")
  | "clear-type" => do
      let t1 ← step.config.get "selector"
      let t2 ← step.config.get "selector"
      let t3 ← step.config.get "selector"
      let t4 ← step.config.get "selector"
      let t5 ← step.config.get "text"
      pure (
        "console.log('⌨️ Clearing and typing into: " ++ t1.toStr ++ "');\n" ++
        "      await this.page.waitForSelector('" ++ t2.toStr ++ "');\n" ++
        "      await this.page.evaluate(sel => document.querySelector(sel).value = '', '" ++ t3.toStr ++ "');\n" ++
        "      await this.page.type('" ++ t4.toStr ++ "', '" ++ t5.toStr ++ "');")
  | "select-dropdown" => do
      let t1 ← step.config.get "selector"
      let t2 ← step.config.get "selector"
      let t3 ← step.config.get "selector"
      let t4 ← step.config.get "value"
      pure (
        "console.log('Selecting from dropdown: " ++ t1.toStr ++ "');\n" ++
        "      await this.page.waitForSelector('" ++ t2.toStr ++ "');\n" ++
        "      await this.page.select('" ++ t3.toStr ++ "', '" ++ t4.toStr ++ "');")
  | "upload-file" => do
      let t1 ← step.config.get "filePath"
      let t2 ← step.config.get "selector"
      let t3 ← step.config.get "filePath"
      pure (
        "console.log('Uploading file: " ++ t1.toStr ++ "');\n" ++
        "      const elementHandle = await this.page.$('" ++ t2.toStr ++ "');\n" ++
        "      await elementHandle.uploadFile('" ++ t3.toStr ++ "');")
  | "press-key" => do
      let t1 ← step.config.get "key"
      let t2 ← step.config.get "key"
      pure (
        "console.log('Pressing key: " ++ t1.toStr ++ "');\n" ++
        "      await this.page.keyboard.press('" ++ t2.toStr ++ "');")
  | "check-checkbox" => do
      let t1 ← step.config.get "action"
      let t2 ← step.config.get "selector"
      let t3 ← step.config.get "selector"
      let t4 ← step.config.get "selector"
      let t5 ← step.config.get "action"
      let t6 ← step.config.get "action"
      let t7 ← step.config.get "action"
      pure (
        "console.log('" ++ t1.toStr ++ " checkbox: " ++ t2.toStr ++ "');\n" ++
        "      await this.page.waitForSelector('" ++ t3.toStr ++ "');\n" ++
        "      const checkbox = await this.page.$('" ++ t4.toStr ++ "');\n" ++
        "      const isChecked = await (await checkbox.getProperty('checked')).jsonValue();\n" ++
        "      if ('" ++ t5.toStr ++ "' === 'check' && !isChecked) \x7b\n" ++
        "        await checkbox.click();\n" ++
        "      \x7d else if ('" ++ t6.toStr ++ "' === 'uncheck' && isChecked) \x7b\n" ++
        "        await checkbox.click();\n" ++
        "      \x7d else if ('" ++ t7.toStr ++ "' === 'toggle') \x7b\n" ++
        "        await checkbox.click();\n" ++
        "      \x7d")
  | "radio-select" => do
      let t1 ← step.config.get "selector"
      let t2 ← step.config.get "value"
      let t3 ← step.config.get "selector"
      let t4 ← step.config.get "value"
      pure (
        "console.log('Selecting radio button: " ++ t1.toStr ++ " with value " ++ t2.toStr ++ "');\n" ++
        "        await this.page.evaluate((selector, value) => \x7b\n" ++
        "          const radioButtons = document.querySelectorAll(selector);\n" ++
        "          for (const radio of radioButtons) \x7b\n" ++
        "            if (radio.value === value) \x7b\n" ++
        "              radio.click();\n" ++
        "              break;\n" ++
        "            \x7d\n" ++
        "          \x7d\n" ++
        "        \x7d, '" ++ t3.toStr ++ "', '" ++ t4.toStr ++ "');")
  | "download-trigger" => do
      let t1 ← step.config.get "selector"
      let t2 ← step.config.get "selector"
      let t3 ← step.config.get "selector"
      pure (
        "console.log('Triggering download from: " ++ t1.toStr ++ "');\n" ++
        "      await this.page.waitForSelector('" ++ t2.toStr ++ "');\n" ++
        "      await this.page.click('" ++ t3.toStr ++ "');")
  | "file-monitor" => do
      let t1 ← step.config.get "folderPath"
      pure (
        "console.log('Monitoring file changes in: " ++ t1.toStr ++ "');\n" ++
        "      // This is a placeholder. File monitoring logic needs to be implemented.\n" ++
        "      // You might need to use a library like 'chokidar' for this.\n" ++
        "      console.log('File monitoring not implemented yet.');")
  | "cloud-upload" => do
      let t1 ← step.config.get "localPath"
      pure (
        "console.log('Uploading to cloud: " ++ t1.toStr ++ "');\n" ++
        "      // This is a placeholder. Cloud upload logic needs to be implemented.\n" ++
        "      console.log('Cloud upload not implemented yet.');")
  | "file-rename" => do
      let t1 ← step.config.get "currentPath"
      let t2 ← step.config.get "newPath"
      let t3 ← step.config.get "currentPath"
      let t4 ← step.config.get "newPath"
      pure (
        "console.log('Renaming file from " ++ t1.toStr ++ " to " ++ t2.toStr ++ "');\n" ++
        "      fs.renameSync('" ++ t3.toStr ++ "', '" ++ t4.toStr ++ "');")
  | "file-move" => do
      let t1 ← step.config.get "sourcePath"
      let t2 ← step.config.get "destinationPath"
      let t3 ← step.config.get "sourcePath"
      let t4 ← step.config.get "destinationPath"
      pure (
        "console.log('Moving file from " ++ t1.toStr ++ " to " ++ t2.toStr ++ "');\n" ++
        "      fs.renameSync('" ++ t3.toStr ++ "', '" ++ t4.toStr ++ "');")
  | "extract-table" => do
      let t1 ← step.config.get "selector"
      let t2 ← step.config.get "saveAs"
      let t3 ← step.config.get "selector"
      pure (
        "console.log('Extracting table data from: " ++ t1.toStr ++ "');\n" ++
        "      const " ++ t2.toStr ++ " = await this.page.evaluate((selector) => \x7b\n" ++
        "        const table = document.querySelector(selector);\n" ++
        "        if (!table) return null;\n" ++
        "        const rows = Array.from(table.querySelectorAll('tr'));\n" ++
        "        return rows.map(row => \x7b\n" ++
        "          const columns = Array.from(row.querySelectorAll('th, td'));\n" ++
        "          return columns.map(column => column.innerText);\n" ++
        "        \x7d);\n" ++
        "      \x7d, '" ++ t3.toStr ++ "');")
  | "extract-links" => do
      let t1 ← step.config.get "selector"
      let t2 ← step.config.get "saveAs"
      let t3 ← step.config.get "selector"
      let t4 ← step.config.get "attribute"
      pure (
        "console.log('Extracting links from: " ++ t1.toStr ++ "');\n" ++
        "      const " ++ t2.toStr ++ " = await this.page.evaluate((selector, attribute) => \x7b\n" ++
        "        const links = Array.from(document.querySelectorAll(selector));\n" ++
        "        return links.map(link => link[attribute]);\n" ++
        "      \x7d, '" ++ t3.toStr ++ "', '" ++ t4.toStr ++ "');")
  | "screenshot" => do
      let t1 ← step.config.get "fileName"
      let t2 ← step.config.get "fileName"
      let t3 ← step.config.get "fullPage"
      pure (
        "console.log('Taking screenshot: " ++ t1.toStr ++ "');\n" ++
        "      await this.page.screenshot(\x7b path: '" ++ t2.toStr ++ "', fullPage: " ++ t3.toStr ++ " \x7d);")
  | "extract-images" => do
      let t1 ← step.config.get "selector"
      let t2 ← step.config.get "saveAs"
      let t3 ← step.config.get "selector"
      let t4 ← step.config.get "attribute"
      pure (
        "console.log('Extracting images from: " ++ t1.toStr ++ "');\n" ++
        "      const " ++ t2.toStr ++ " = await this.page.evaluate((selector, attribute) => \x7b\n" ++
        "        const images = Array.from(document.querySelectorAll(selector));\n" ++
        "        return images.map(img => img[attribute]);\n" ++
        "      \x7d, '" ++ t3.toStr ++ "', '" ++ t4.toStr ++ "');")
  | "pdf-generate" => do
      let t1 ← step.config.get "fileName"
      let t2 ← step.config.get "fileName"
      pure (
        "console.log('Generating PDF: " ++ t1.toStr ++ "');\n" ++
        "      await this.page.pdf(\x7b path: '" ++ t2.toStr ++ "', format: 'A4' \x7d);")
  | "double-click" => do
      let t1 ← step.config.get "selector"
      let t2 ← step.config.get "selector"
      let t3 ← step.config.get "selector"
      pure (
        "console.log('Double clicking: " ++ t1.toStr ++ "');\n" ++
        "      await this.page.waitForSelector('" ++ t2.toStr ++ "');\n" ++
        "      await this.page.click('" ++ t3.toStr ++ "', \x7b clickCount: 2 \x7d);")
  | "right-click" => do
      let t1 ← step.config.get "selector"
      let t2 ← step.config.get "selector"
      let t3 ← step.config.get "selector"
      pure (
        "console.log('Right clicking: " ++ t1.toStr ++ "');\n" ++
        "      await this.page.waitForSelector('" ++ t2.toStr ++ "');\n" ++
        "      await this.page.click('" ++ t3.toStr ++ "', \x7b button: 'right' \x7d);")
  | "hover" => do
      let t1 ← step.config.get "selector"
      let t2 ← step.config.get "selector"
      let t3 ← step.config.get "selector"
      pure (
        "console.log('Hovering over: " ++ t1.toStr ++ "');\n" ++
        "      await this.page.waitForSelector('" ++ t2.toStr ++ "');\n" ++
        "      await this.page.hover('" ++ t3.toStr ++ "');")
  | "scroll" => do
      let t1 ← step.config.get "direction"
      let t2 ← step.config.get "amount"
      let t3 ← step.config.get "direction"
      let t4 ← step.config.get "amount"
      pure (
        "console.log('Scrolling " ++ t1.toStr ++ " by " ++ t2.toStr ++ "');\n" ++
        "      await this.page.evaluate((direction, amount) => \x7b\n" ++
        "        if (direction === 'down') \x7b\n" ++
        "          window.scrollBy(0, amount);\n" ++
        "        \x7d else if (direction === 'up') \x7b\n" ++
        "          window.scrollBy(0, -amount);\n" ++
        "        \x7d\n" ++
        "      \x7d, '" ++ t3.toStr ++ "', " ++ t4.toStr ++ ");")
  | "focus" => do
      let t1 ← step.config.get "selector"
      let t2 ← step.config.get "selector"
      let t3 ← step.config.get "selector"
      pure (
        "console.log('Focusing on: " ++ t1.toStr ++ "');\n" ++
        "      await this.page.waitForSelector('" ++ t2.toStr ++ "');\n" ++
        "      await this.page.focus('" ++ t3.toStr ++ "');")
  | "condition" => do
      let t1 ← step.config.get "type"
      pure (
        "console.log('Evaluating condition: " ++ t1.toStr ++ "');\n" ++
        "      // This is a placeholder. Conditional logic needs to be implemented.\n" ++
        "      console.log('Conditional logic not implemented yet.');")
  | "loop" => do
      let t1 ← step.config.get "type"
      pure (
        "console.log('Starting loop: " ++ t1.toStr ++ "');\n" ++
        "      // This is a placeholder. Loop logic needs to be implemented.\n" ++
        "      console.log('Loop logic not implemented yet.');")
  | "try-catch" =>
      pure (
        "console.log('Starting try-catch block');\n" ++
        "      // This is a placeholder. Try-catch logic needs to be implemented.\n" ++
        "      console.log('Try-catch logic not implemented yet.');")
  | "break" =>
      pure (
        "console.log('Breaking loop');\n" ++
        "      break;")
  | "variable-set" => do
      let t1 ← step.config.get "name"
      let t2 ← step.config.get "name"
      let t3 ← step.config.get "value"
      pure (
        "console.log('Setting variable: " ++ t1.toStr ++ "');\n" ++
        "      const " ++ t2.toStr ++ " = '" ++ t3.toStr ++ "';")
  | "variable-get" => do
      let t1 ← step.config.get "name"
      pure (
        "console.log('Getting variable: " ++ t1.toStr ++ "');\n" ++
        "      // This is a placeholder. Variable getting logic needs to be implemented.\n" ++
        "      console.log('Variable getting not implemented yet.');")
  | "javascript" => do
      let t1 ← step.config.get "code"
      pure (
        "console.log('Executing JavaScript');\n" ++
        "      await this.page.evaluate(() => \x7b\n" ++
        "        " ++ t1.toStr ++ "\n" ++
        "      \x7d);")
  | "api-call" => do
      let t1 ← step.config.get "url"
      pure (
        "console.log('Making API call to: " ++ t1.toStr ++ "');\n" ++
        "      // This is a placeholder. API call logic needs to be implemented.\n" ++
        "      console.log('API call logic not implemented yet.');")
  | "database" =>
      pure (
        "console.log('Executing database query');\n" ++
        "      // This is a placeholder. Database logic needs to be implemented.\n" ++
        "      console.log('Database logic not implemented yet.');")
  | "email" => do
      let t1 ← step.config.get "to"
      pure (
        "console.log('Sending email to: " ++ t1.toStr ++ "');\n" ++
        "      // This is a placeholder. Email sending logic needs to be implemented.\n" ++
        "      console.log('Email sending not implemented yet.');")
  | "send-notification" => do
      let t1 ← step.config.get "title"
      pure (
        "console.log('Sending notification: " ++ t1.toStr ++ "');\n" ++
        "      // This is a placeholder. Notification logic needs to be implemented.\n" ++
        "      console.log('Notification logic not implemented yet.');")
  | _ =>
      pure ("console.log('⚠️ Step " ++ step.type ++ " - implement as needed');")

/-- Selenium fragment of one step. -/
def generateSeleniumStepCode (step : Step) : Except JsError String := do
  match step.type with
  | "navigate" => do
      let t1 ← step.config.get "url"
      let t2 ← step.config.get "url"
      pure (
        "print(\"🌐 Navigating to: " ++ t1.toStr ++ "\")\n" ++
        "            self.driver.get(\"" ++ t2.toStr ++ "\")")
  | "click" => do
      let t1 ← step.config.get "selector"
      let t2 ← step.config.get "selector"
      pure (
        "print(\"🖱️ Clicking: " ++ t1.toStr ++ "\")\n" ++
        "            element = self.wait.until(EC.element_to_be_clickable((By.CSS_SELECTOR, \"" ++ t2.toStr ++ "\")))\n" ++
        "            element.click()")
  | "type" => do
      let t1 ← step.config.get "selector"
      let t2 ← step.config.get "selector"
      let t3 ← step.config.get "clearFirst"
      let t4 ← step.config.get "text"
      pure (
        "print(\"⌨️ Typing into: " ++ t1.toStr ++ "\")\n" ++
        "            element = self.wait.until(EC.presence_of_element_located((By.CSS_SELECTOR, \"" ++ t2.toStr ++ "\")))\n" ++
        "            " ++ (if t3.truthy then "element.clear()" else "") ++ "\n" ++
        "            element.send_keys(\"" ++ t4.toStr ++ "\")")
  | "refresh" =>
      pure (
        "print(\"🔄 Refreshing page\")\n" ++
        "            self.driver.refresh()")
  | "back" =>
      pure (
        "print(\"◀️ Going back\")\n" ++
        "            self.driver.back()")
  | "forward" =>
      pure (
        "print(\"▶️ Going forward\")\n" ++
        "            self.driver.forward()")
  | "new-tab" => do
      let t1 ← step.config.get "url"
      let t2 ← step.config.get "switchToTab"
      pure (
        "print(\"Opening new tab\")\n" ++
        "            self.driver.execute_script(\"window.open('" ++ t1.toStr ++ "');\")\n" ++
        "            if " ++ t2.toStr ++ ":\n" ++
        "                self.driver.switch_to.window(self.driver.window_handles[-1])")
  | "double-click" => do
      let t1 ← step.config.get "selector"
      let t2 ← step.config.get "selector"
      pure (
        "print(\"🖱️ Double clicking: " ++ t1.toStr ++ "\")\n" ++
        "            element = self.wait.until(EC.element_to_be_clickable((By.CSS_SELECTOR, \"" ++ t2.toStr ++ "\")))\n" ++
        "            webdriver.ActionChains(self.driver).double_click(element).perform()")
  | "right-click" => do
      let t1 ← step.config.get "selector"
      let t2 ← step.config.get "selector"
      pure (
        "print(\"🖱️ Right clicking: " ++ t1.toStr ++ "\")\n" ++
        "            element = self.wait.until(EC.element_to_be_clickable((By.CSS_SELECTOR, \"" ++ t2.toStr ++ "\")))\n" ++
        "            webdriver.ActionChains(self.driver).context_click(element).perform()")
  | "hover" => do
      let t1 ← step.config.get "selector"
      let t2 ← step.config.get "selector"
      pure (
        "print(\"🖱️ Hovering over: " ++ t1.toStr ++ "\")\n" ++
        "            element = self.wait.until(EC.presence_of_element_located((By.CSS_SELECTOR, \"" ++ t2.toStr ++ "\")))\n" ++
        "            webdriver.ActionChains(self.driver).move_to_element(element).perform()")
  | "scroll" => do
      let t1 ← step.config.get "direction"
      let t2 ← step.config.get "amount"
      let t3 ← step.config.get "direction"
      let t9 ← (if (JsVal.strictEq t3 (JsVal.str "left")) then (do let t4 ← step.config.get "amount"; let t5 ← jsNeg t4; pure (t5)) else (do let t6 ← step.config.get "direction"; let t8 ← (if (JsVal.strictEq t6 (JsVal.str "right")) then (do let t7 ← step.config.get "amount"; pure (t7)) else pure (JsVal.num 0)); pure (t8)))
      let t10 ← step.config.get "direction"
      let t16 ← (if (JsVal.strictEq t10 (JsVal.str "up")) then (do let t11 ← step.config.get "amount"; let t12 ← jsNeg t11; pure (t12)) else (do let t13 ← step.config.get "direction"; let t15 ← (if (JsVal.strictEq t13 (JsVal.str "down")) then (do let t14 ← step.config.get "amount"; pure (t14)) else pure (JsVal.num 0)); pure (t15)))
      pure (
        "print(\"📜 Scrolling " ++ t1.toStr ++ " by " ++ t2.toStr ++ "px\")\n" ++
        "            self.driver.execute_script(\"window.scrollBy(" ++ t9.toStr ++ ", " ++ t16.toStr ++ ")\")")
  | "focus" => do
      let t1 ← step.config.get "selector"
      let t2 ← step.config.get "selector"
      pure (
        "print(\"🎯 Focusing on: " ++ t1.toStr ++ "\")\n" ++
        "            element = self.wait.until(EC.presence_of_element_located((By.CSS_SELECTOR, \"" ++ t2.toStr ++ "\")))\n" ++
        "            self.driver.execute_script(\"arguments[0].focus();\", element)")
  | "clear-type" => do
      let t1 ← step.config.get "text"
      let t2 ← step.config.get "selector"
      let t3 ← step.config.get "selector"
      let t4 ← step.config.get "text"
      pure (
        "print(\"⌨️ Clearing and typing '" ++ t1.toStr ++ "' into: " ++ t2.toStr ++ "\")\n" ++
        "            element = self.wait.until(EC.presence_of_element_located((By.CSS_SELECTOR, \"" ++ t3.toStr ++ "\")))\n" ++
        "            element.clear()\n" ++
        "            element.send_keys(\"" ++ t4.toStr ++ "\")")
  | "select-dropdown" => do
      let t1 ← step.config.get "value"
      let t2 ← step.config.get "selector"
      let t3 ← step.config.get "selector"
      let t4 ← step.config.get "byValue"
      let t5 ← step.config.get "value"
      let t6 ← step.config.get "value"
      pure (
        "print(\"⏬ Selecting '" ++ t1.toStr ++ "' from dropdown: " ++ t2.toStr ++ "\")\n" ++
        "            element = self.wait.until(EC.presence_of_element_located((By.CSS_SELECTOR, \"" ++ t3.toStr ++ "\")))\n" ++
        "            select = Select(element)\n" ++
        "            if " ++ t4.toStr ++ ":\n" ++
        "                select.select_by_value(\"" ++ t5.toStr ++ "\")\n" ++
        "            else:\n" ++
        "                select.select_by_visible_text(\"" ++ t6.toStr ++ "\")")
  | "upload-file" => do
      let t1 ← step.config.get "filePath"
      let t2 ← step.config.get "selector"
      let t3 ← step.config.get "selector"
      let t4 ← step.config.get "filePath"
      pure (
        "print(\"⬆️ Uploading file '" ++ t1.toStr ++ "' to: " ++ t2.toStr ++ "\")\n" ++
        "            element = self.wait.until(EC.presence_of_element_located((By.CSS_SELECTOR, \"" ++ t3.toStr ++ "\")))\n" ++
        "            element.send_keys(os.path.abspath(\"" ++ t4.toStr ++ "\"))")
  | "press-key" => do
      let t1 ← step.config.get "key"
      let t2 ← step.config.get "key"
      let t3 ← jsToUpperCase t2
      pure (
        "print(\"🎹 Pressing key: " ++ t1.toStr ++ "\")\n" ++
        "            ActionChains(self.driver).send_keys(Keys." ++ t3 ++ ").perform()")
  | "check-checkbox" => do
      let t1 ← step.config.get "selector"
      let t2 ← step.config.get "action"
      let t3 ← step.config.get "selector"
      let t4 ← step.config.get "action"
      pure (
        "print(\"☑️ Setting checkbox " ++ t1.toStr ++ " to: " ++ t2.toStr ++ "\")\n" ++
        "            element = self.wait.until(EC.presence_of_element_located((By.CSS_SELECTOR, \"" ++ t3.toStr ++ "\")))\n" ++
        "            is_checked = element.is_selected()\n" ++
        "            action = \"" ++ t4.toStr ++ "\"\n" ++
        "            if action == \"check\" and not is_checked:\n" ++
        "                element.click()\n" ++
        "            elif action == \"uncheck\" and is_checked:\n" ++
        "                element.click()\n" ++
        "            elif action == \"toggle\":\n" ++
        "                element.click()")
  | "radio-select" => do
      let t1 ← step.config.get "selector"
      let t2 ← step.config.get "value"
      let t3 ← step.config.get "selector"
      let t4 ← step.config.get "value"
      pure (
        "print(\"🔘 Selecting radio button " ++ t1.toStr ++ " with value: " ++ t2.toStr ++ "\")\n" ++
        "            radios = self.driver.find_elements(By.CSS_SELECTOR, \"" ++ t3.toStr ++ "\")\n" ++
        "            for radio in radios:\n" ++
        "                if radio.get_attribute(\"value\") == \"" ++ t4.toStr ++ "\":\n" ++
        "                    radio.click()\n" ++
        "                    break")
  | "download-trigger" => do
      let t1 ← step.config.get "selector"
      let t2 ← step.config.get "selector"
      pure (
        "print(\"🔽 Triggering download from: " ++ t1.toStr ++ "\")\n" ++
        "            element = self.wait.until(EC.element_to_be_clickable((By.CSS_SELECTOR, \"" ++ t2.toStr ++ "\")))\n" ++
        "            element.click()")
  | "download-verify" => do
      let t1 ← step.config.get "fileName"
      let t2 ← step.config.get "downloadPath"
      let t3 ← step.config.get "fileName"
      let t4 ← step.config.get "timeout"
      let t5 ← jsDiv1000Str t4
      pure (
        "print(\"📥 Verifying download: " ++ t1.toStr ++ "\")\n" ++
        "            wait_for_download(os.path.abspath('" ++ t2.toStr ++ "'), '" ++ t3.toStr ++ "', " ++ t5 ++ ")")
  | "cloud-upload" => do
      let t1 ← step.config.get "localPath"
      pure (
        "print(\"☁️ Uploading to cloud: " ++ t1.toStr ++ "\")\n" ++
        "            # This is a placeholder. Cloud upload logic needs to be implemented.\n" ++
        "            print(\"⚠️ Step cloud-upload - implement as needed\")")
  | "file-rename" => do
      let t1 ← step.config.get "currentPath"
      let t2 ← step.config.get "newPath"
      let t3 ← step.config.get "currentPath"
      let t4 ← step.config.get "newPath"
      pure (
        "print(\"✍️ Renaming file from " ++ t1.toStr ++ " to " ++ t2.toStr ++ "\")\n" ++
        "            os.rename(\"" ++ t3.toStr ++ "\", \"" ++ t4.toStr ++ "\")")
  | "file-move" => do
      let t1 ← step.config.get "sourcePath"
      let t2 ← step.config.get "destinationPath"
      let t3 ← step.config.get "sourcePath"
      let t4 ← step.config.get "destinationPath"
      pure (
        "print(\"🚚 Moving file from " ++ t1.toStr ++ " to " ++ t2.toStr ++ "\")\n" ++
        "            os.rename(\"" ++ t3.toStr ++ "\", \"" ++ t4.toStr ++ "\")")
  | "extract-table" => do
      let t1 ← step.config.get "selector"
      let t2 ← step.config.get "selector"
      let t3 ← step.config.get "saveAs"
      let t4 ← step.config.get "saveAs"
      pure (
        "print(\" extracting table data from: " ++ t1.toStr ++ "\")\n" ++
        "            table = self.wait.until(EC.presence_of_element_located((By.CSS_SELECTOR, \"" ++ t2.toStr ++ "\")))\n" ++
        "            headers = [header.text for header in table.find_elements(By.TAG_NAME, \"th\")]\n" ++
        "            rows = []\n" ++
        "            for row in table.find_elements(By.TAG_NAME, \"tr\"):\n" ++
        "                rows.append([cell.text for cell in row.find_elements(By.TAG_NAME, \"td\")])\n" ++
        "            " ++ t3.toStr ++ " = \x7b\"headers\": headers, \"rows\": rows\x7d\n" ++
        "            print(f\"Extracted table data and saved to '" ++ t4.toStr ++ "'\")")
  | "extract-links" => do
      let t1 ← step.config.get "selector"
      let t2 ← step.config.get "selector"
      let t3 ← step.config.get "saveAs"
      let t4 ← step.config.get "saveAs"
      pure (
        "print(\" extracting links from: " ++ t1.toStr ++ "\")\n" ++
        "            elements = self.driver.find_elements(By.CSS_SELECTOR, \"" ++ t2.toStr ++ "\")\n" ++
        "            " ++ t3.toStr ++ " = [element.get_attribute(\"href\") for element in elements]\n" ++
        "            print(f\"Extracted links and saved to '" ++ t4.toStr ++ "'\")")
  | "screenshot" => do
      let t1 ← step.config.get "fileName"
      let t2 ← step.config.get "fileName"
      pure (
        "print(\"📸 Taking screenshot: " ++ t1.toStr ++ "\")\n" ++
        "            self.driver.save_screenshot(\"" ++ t2.toStr ++ "\")")
  | "extract-images" => do
      let t1 ← step.config.get "selector"
      let t2 ← step.config.get "selector"
      let t3 ← step.config.get "saveAs"
      let t4 ← step.config.get "saveAs"
      pure (
        "print(\"🖼️ Extracting images from: " ++ t1.toStr ++ "\")\n" ++
        "            elements = self.driver.find_elements(By.CSS_SELECTOR, \"" ++ t2.toStr ++ "\")\n" ++
        "            " ++ t3.toStr ++ " = [element.get_attribute(\"src\") for element in elements]\n" ++
        "            print(f\"Extracted image sources and saved to '" ++ t4.toStr ++ "'\")")
  | "pdf-generate" => do
      let t1 ← step.config.get "fileName"
      let t2 ← step.config.get "landscape"
      let t3 ← step.config.get "fileName"
      pure (
        "print(\"📄 Generating PDF: " ++ t1.toStr ++ "\")\n" ++
        "            pdf_options = \x7b\n" ++
        "                'landscape': " ++ (JsVal.or t2 (JsVal.str "False")).toStr ++ ",\n" ++
        "                'displayHeaderFooter': False,\n" ++
        "                'printBackground': True,\n" ++
        "                'preferCSSPageSize': True,\n" ++
        "            \x7d\n" ++
        "            result = self.driver.execute_cdp_cmd(\"Page.printToPDF\", pdf_options)\n" ++
        "            with open(\"" ++ t3.toStr ++ "\", \"wb\") as f:\n" ++
        "                f.write(base64.b64decode(result['data']))")
  | "javascript" => do
      let t1 ← step.config.get "saveAs"
      let t3 ← (if t1.truthy then (do let t2 ← step.config.get "saveAs"; pure (t2.toStr ++ " = ")) else pure (""))
      let t4 ← step.config.get "code"
      pure (
        "print(\"Executing JavaScript...\")\n" ++
        "            " ++ t3 ++ "self.driver.execute_script(\"\"\"return " ++ t4.toStr ++ "\"\"\")")
  | "api-call" => do
      let t1 ← step.config.get "url"
      let t2 ← step.config.get "method"
      let t3 ← step.config.get "url"
      let t4 ← step.config.get "headers"
      let t5 ← step.config.get "body"
      let t6 ← step.config.get "saveAs"
      let t7 ← step.config.get "saveAs"
      pure (
        "print(\"📞 Making API call to: " ++ t1.toStr ++ "\")\n" ++
        "            response = requests.request(\n" ++
        "                \"" ++ t2.toStr ++ "\",\n" ++
        "                \"" ++ t3.toStr ++ "\",\n" ++
        "                headers=json.loads(\"\"\"" ++ (JsVal.or t4 (JsVal.str "\x7b\x7d")).toStr ++ "\"\"\"),\n" ++
        "                json=json.loads(\"\"\"" ++ (JsVal.or t5 (JsVal.str "\x7b\x7d")).toStr ++ "\"\"\")\n" ++
        "            )\n" ++
        "            " ++ t6.toStr ++ " = response.json()\n" ++
        "            print(\"API call successful, response stored in '" ++ t7.toStr ++ "'\")")
  | "database" => do
      let t1 ← step.config.get "connectionString"
      let t2 ← step.config.get "query"
      let t3 ← step.config.get "parameters"
      let t4 ← step.config.get "saveAs"
      pure (
        "print(\"🗄️ Executing database query...\")\n" ++
        "            # This is a placeholder. You need to install the appropriate database driver (e.g., psycopg2 for PostgreSQL)\n" ++
        "            # import psycopg2\n" ++
        "            # conn = psycopg2.connect(\"" ++ t1.toStr ++ "\")\n" ++
        "            # cur = conn.cursor()\n" ++
        "            # cur.execute(\"\"\"" ++ t2.toStr ++ "\"\"\", json.loads(\"\"\"" ++ (jsonStringify (JsVal.or t3 (JsVal.obj []))).toStr ++ "\"\"\"))\n" ++
        "            # " ++ t4.toStr ++ " = cur.fetchall()\n" ++
        "            # cur.close()\n" ++
        "            # conn.close()\n" ++
        "            print(\"⚠️ Step database - implement with appropriate DB driver\")")
  | "email" => do
      let t1 ← step.config.get "to"
      let t2 ← step.config.get "message"
      let t3 ← step.config.get "subject"
      let t4 ← step.config.get "to"
      pure (
        "print(\"📧 Sending email to: " ++ t1.toStr ++ "\")\n" ++
        "            msg = MIMEText(\"\"\"" ++ t2.toStr ++ "\"\"\")\n" ++
        "            msg['Subject'] = \"" ++ t3.toStr ++ "\"\n" ++
        "            msg['From'] = \"sender@example.com\"  # Replace with your email\n" ++
        "            msg['To'] = \"" ++ t4.toStr ++ "\"\n" ++
        "            # This is a placeholder for SMTP. Configure your SMTP server details.\n" ++
        "            # with smtplib.SMTP('smtp.example.com', 587) as server:\n" ++
        "            #     server.starttls()\n" ++
        "            #     server.login('your_email', 'your_password')\n" ++
        "            #     server.send_message(msg)\n" ++
        "            print(\"⚠️ Step email - implement with your SMTP details\")")
  | "send-notification" => do
      let t1 ← step.config.get "type"
      let t2 ← jsToUpperCase t1
      let t3 ← step.config.get "title"
      let t4 ← step.config.get "message"
      pure ("print(f\"🔔 NOTIFICATION [" ++ t2 ++ "]: " ++ t3.toStr ++ " - " ++ t4.toStr ++ "\")")
  | "condition" => do
      let t1 ← step.config.get "selector"
      let t2 ← step.config.get "value"
      pure (
        "print(\"❓ Evaluating condition...\")\n" ++
        "            # Implement your condition logic here. For example:\n" ++
        "            # if self.driver.find_element(By.CSS_SELECTOR, \"" ++ t1.toStr ++ "\").text == \"" ++ t2.toStr ++ "\":\n" ++
        "            #     print(\"Condition met!\")\n" ++
        "            # else:\n" ++
        "            #     print(\"Condition not met!\")\n" ++
        "            print(\"⚠️ Step condition - implement as needed\")")
  | "loop" => do
      let t1 ← step.config.get "count"
      pure (
        "print(\"🔄 Starting loop...\")\n" ++
        "            # Implement your loop logic here. For example, for a count loop:\n" ++
        "            # for i in range(" ++ (JsVal.or t1 (JsVal.num 1)).toStr ++ "):\n" ++
        "            #     print(f\"Loop iteration \x7bi + 1\x7d\")\n" ++
        "            #     # Add your repeated steps here\n" ++
        "            print(\"⚠️ Step loop - implement as needed\")")
  | "break" =>
      pure (
        "print(\"🛑 Breaking from loop\")\n" ++
        "            break")
  | "variable-set" => do
      let t1 ← step.config.get "name"
      let t2 ← step.config.get "name"
      let t3 ← step.config.get "value"
      pure (
        "print(\"✍️ Setting variable '" ++ t1.toStr ++ "'\")\n" ++
        "            " ++ t2.toStr ++ " = \"" ++ t3.toStr ++ "\"")
  | "variable-get" => do
      let t1 ← step.config.get "name"
      let t2 ← step.config.get "saveAs"
      let t3 ← step.config.get "saveAs"
      let t4 ← step.config.get "name"
      pure (
        "print(\"📥 Getting variable '" ++ t1.toStr ++ "' and saving to '" ++ t2.toStr ++ "'\")\n" ++
        "            " ++ t3.toStr ++ " = " ++ t4.toStr)
  | "wait-time" => do
      let t1 ← step.config.get "duration"
      let t2 ← step.config.get "duration"
      let t3 ← jsDiv1000Str t2
      pure (
        "print(\"⏰ Waiting " ++ t1.toStr ++ "ms\")\n" ++
        "            time.sleep(" ++ t3 ++ ")")
  | "wait-disappear" => do
      let t1 ← step.config.get "selector"
      let t2 ← step.config.get "selector"
      pure (
        "print(\"⏳ Waiting for element to disappear: " ++ t1.toStr ++ "\")\n" ++
        "            self.wait.until(EC.invisibility_of_element_located((By.CSS_SELECTOR, \"" ++ t2.toStr ++ "\")))")
  | "wait-text" => do
      let t1 ← step.config.get "expectedText"
      let t2 ← step.config.get "selector"
      let t3 ← step.config.get "selector"
      let t4 ← step.config.get "expectedText"
      pure (
        "print(\"⏳ Waiting for text: '" ++ t1.toStr ++ "' in " ++ t2.toStr ++ "\")\n" ++
        "            self.wait.until(EC.text_to_be_present_in_element((By.CSS_SELECTOR, \"" ++ t3.toStr ++ "\"), \"" ++ t4.toStr ++ "\"))")
  | "wait-clickable" => do
      let t1 ← step.config.get "selector"
      let t2 ← step.config.get "selector"
      pure (
        "print(\"⏳ Waiting for element to be clickable: " ++ t1.toStr ++ "\")\n" ++
        "            self.wait.until(EC.element_to_be_clickable((By.CSS_SELECTOR, \"" ++ t2.toStr ++ "\")))")
  | "wait-page-load" =>
      pure (
        "print(\"⏳ Waiting for page to load...\")\n" ++
        "            # Selenium's get command implicitly waits for page load, so this is mostly for logging.")
  | "wait-download" =>
      pure (
        "print(\"⏳ Waiting for download...\")\n" ++
        "            # Implement your download verification logic here")
  | _ =>
      pure ("print(\"⚠️ Step " ++ step.type ++ " - implement as needed\")")

/-- Playwright fragment of one step. -/
def generatePlaywrightStepCode (step : Step) : Except JsError String := do
  match step.type with
  | "navigate" => do
      let t1 ← step.config.get "url"
      let t2 ← step.config.get "url"
      pure (
        "console.log('🌐 Navigating to: " ++ t1.toStr ++ "');\n" ++
        "      await this.page.goto('" ++ t2.toStr ++ "');")
  | "click" => do
      let t1 ← step.config.get "selector"
      let t2 ← step.config.get "selector"
      pure (
        "console.log('🖱️ Clicking: " ++ t1.toStr ++ "');\n" ++
        "      await this.page.click('" ++ t2.toStr ++ "');")
  | "type" => do
      let t1 ← step.config.get "selector"
      let t2 ← step.config.get "clearFirst"
      let t4 ← (if t2.truthy then (do let t3 ← step.config.get "selector"; pure ("await this.page.fill('" ++ t3.toStr ++ "', '');")) else pure (""))
      let t5 ← step.config.get "selector"
      let t6 ← step.config.get "text"
      pure (
        "console.log('⌨️ Typing into: " ++ t1.toStr ++ "');\n" ++
        "      " ++ t4 ++ "\n" ++
        "      await this.page.type('" ++ t5.toStr ++ "', '" ++ t6.toStr ++ "');")
  | _ =>
      pure ("console.log('⚠️ Step " ++ step.type ++ " - implement as needed');")

/-- Puppeteer script text up to the generation timestamp. -/
def puppeteerHeader : String :=
  "import puppeteer from 'puppeteer';\n" ++
  "import path from 'path';\n" ++
  "import fs from 'fs';\n" ++
  "\n" ++
  "// 🚀 Auto-generated Web Automation Script\n" ++
  "// Generated on: "

/-- Puppeteer script text between the header and the step section. -/
def puppeteerRunner : String :=
  "\n" ++
  "\n" ++
  "class AutomationRunner \x7b\n" ++
  "  constructor() \x7b\n" ++
  "    this.browser = null;\n" ++
  "    this.page = null;\n" ++
  "    this.downloadPath = path.resolve('./downloads');\n" ++
  "  \x7d\n" ++
  "\n" ++
  "  async initialize() \x7b\n" ++
  "    console.log('🚀 Starting automation...');\n" ++
  "    \n" ++
  "    this.browser = await puppeteer.launch(\x7b\n" ++
  "      headless: false,\n" ++
  "      defaultViewport: \x7b width: 1920, height: 1080 \x7d,\n" ++
  "      args: ['--no-sandbox', '--disable-setuid-sandbox']\n" ++
  "    \x7d);\n" ++
  "\n" ++
  "    this.page = await this.browser.newPage();\n" ++
  "    await this.page.setDefaultTimeout(30000);\n" ++
  "    \n" ++
  "    // Setup download path\n" ++
  "    const client = await this.page.target().createCDPSession();\n" ++
  "    await client.send('Page.setDownloadBehavior', \x7b\n" ++
  "      behavior: 'allow',\n" ++
  "      downloadPath: this.downloadPath\n" ++
  "    \x7d);\n" ++
  "  \x7d\n" ++
  "\n" ++
  "  async runWorkflow() \x7b\n" ++
  "    try \x7b\n" ++
  "      await this.initialize();\n" ++
  "      \n"

/-- Puppeteer script text after the step section. -/
def puppeteerFooter : String :=
  "\n" ++
  "      \n" ++
  "      console.log('✅ Automation completed successfully!');\n" ++
  "      \n" ++
  "    \x7d catch (error) \x7b\n" ++
  "      console.error('❌ Automation failed:', error);\n" ++
  "      await this.page.screenshot(\x7b path: 'error-screenshot.png' \x7d);\n" ++
  "    \x7d finally \x7b\n" ++
  "      if (this.browser) \x7b\n" ++
  "        await this.browser.close();\n" ++
  "      \x7d\n" ++
  "    \x7d\n" ++
  "  \x7d\n" ++
  "\x7d\n" ++
  "\n" ++
  "// Utility Functions\n" ++
  "async function waitForDownload(downloadPath, fileName, timeout, exactMatch) \x7b\n" ++
  "  const startTime = Date.now();\n" ++
  "  let pattern;\n" ++
  "\n" ++
  "  if (!exactMatch) \x7b\n" ++
  "    // Convert wildcard to regex\n" ++
  "    pattern = new RegExp(fileName.replace(/\\*/g, '.*'));\n" ++
  "  \x7d\n" ++
  "\n" ++
  "  console.log('Waiting for download in \"' + downloadPath + '\"...');\n" ++
  "\n" ++
  "  while (Date.now() - startTime < timeout) \x7b\n" ++
  "    try \x7b\n" ++
  "      const files = fs.readdirSync(downloadPath);\n" ++
  "      const matchingFile = files.find(file => \x7b\n" ++
  "        if (exactMatch) \x7b\n" ++
  "          return file === fileName;\n" ++
  "        \x7d\n" ++
  "        return pattern.test(file);\n" ++
  "      \x7d);\n" ++
  "\n" ++
  "      if (matchingFile) \x7b\n" ++
  "        console.log('✅ Download complete: ' + matchingFile);\n" ++
  "        return path.join(downloadPath, matchingFile);\n" ++
  "      \x7d\n" ++
  "    \x7d catch (err) \x7b\n" ++
  "      // Folder might not exist yet, ignore\n" ++
  "    \x7d\n" ++
  "    await new Promise(r => setTimeout(r, 1000)); // Poll every second\n" ++
  "  \x7d\n" ++
  "\n" ++
  "  throw new Error('Download timed out after ' + (timeout / 1000) + 's');\n" ++
  "\x7d\n" ++
  "\n" ++
  "// Run automation\n" ++
  "(async () => \x7b\n" ++
  "  const runner = new AutomationRunner();\n" ++
  "  await runner.runWorkflow();\n" ++
  "\x7d)();"

/-- The Puppeteer script template as a function of its holes: the generation timestamp, the number of steps and the step section. -/
def puppeteerScript (now : String) (totalSteps : Nat) (stepBlocks : String) : String :=
  puppeteerHeader ++ now ++ "\n" ++ "// Total Steps: " ++ toString totalSteps ++ puppeteerRunner ++ stepBlocks ++ puppeteerFooter

/-- Body of `generatePuppeteerCode`. -/
def generatePuppeteerCode (now : String) (workflow : List Step) : Except JsError String := do
  let stepBlocks ← joinBlocks (stepBlock "      // Step " "\n      " generateStepCode) workflow
  pure (puppeteerScript now workflow.length stepBlocks)

/-- Selenium script text up to the generation timestamp. -/
def seleniumHeader : String :=
  "from selenium import webdriver\n" ++
  "from selenium.webdriver.common.by import By\n" ++
  "from selenium.webdriver.support.ui import WebDriverWait\n" ++
  "from selenium.webdriver.support import expected_conditions as EC\n" ++
  "from selenium.webdriver.chrome.options import Options\n" ++
  "from selenium.webdriver.support.ui import Select\n" ++
  "from selenium.webdriver.common.keys import Keys\n" ++
  "from selenium.webdriver.common.action_chains import ActionChains\n" ++
  "import time\n" ++
  "import os\n" ++
  "import json\n" ++
  "import requests\n" ++
  "import smtplib\n" ++
  "import base64\n" ++
  "from email.mime.text import MIMEText\n" ++
  "\n" ++
  "# 🐍 Auto-generated Selenium Python Script\n" ++
  "# Generated on: "

/-- Selenium script text between the timestamp and the step section. -/
def seleniumRunner : String :=
  "\n" ++
  "\n" ++
  "def wait_for_download(download_path, filename, timeout=60):\n" ++
  "    \"\"\"Waits for a file to be downloaded to a specific folder.\"\"\"\n" ++
  "    start_time = time.time()\n" ++
  "    while time.time() - start_time < timeout:\n" ++
  "        try:\n" ++
  "            files = os.listdir(download_path)\n" ++
  "            if filename in files:\n" ++
  "                print(f\"✅ Download complete: \x7bfilename\x7d\")\n" ++
  "                return os.path.join(download_path, filename)\n" ++
  "        except FileNotFoundError:\n" ++
  "            # Folder might not exist yet, ignore\n" ++
  "            pass\n" ++
  "        time.sleep(1)  # Poll every second\n" ++
  "    raise Exception(f\"Download timed out after \x7btimeout\x7ds\")\n" ++
  "\n" ++
  "class AutomationRunner:\n" ++
  "    def __init__(self):\n" ++
  "        self.driver = None\n" ++
  "        self.wait = None\n" ++
  "        \n" ++
  "    def setup_driver(self):\n" ++
  "        chrome_options = Options()\n" ++
  "        chrome_options.add_argument('--no-sandbox')\n" ++
  "        chrome_options.add_argument('--disable-dev-shm-usage')\n" ++
  "        \n" ++
  "        prefs = \x7b\n" ++
  "            \"download.default_directory\": os.path.abspath('./downloads'),\n" ++
  "            \"download.prompt_for_download\": False\n" ++
  "        \x7d\n" ++
  "        chrome_options.add_experimental_option(\"prefs\", prefs)\n" ++
  "        \n" ++
  "        self.driver = webdriver.Chrome(options=chrome_options)\n" ++
  "        self.driver.maximize_window()\n" ++
  "        self.wait = WebDriverWait(self.driver, 30)\n" ++
  "        \n" ++
  "    def run_automation(self):\n" ++
  "        try:\n" ++
  "            print(\"🚀 Starting Selenium automation...\")\n" ++
  "            self.setup_driver()\n" ++
  "            \n"

/-- Selenium script text after the step section. -/
def seleniumFooter : String :=
  "\n" ++
  "            \n" ++
  "            print(\"✅ Automation completed!\")\n" ++
  "            \n" ++
  "        except Exception as e:\n" ++
  "            print(f\"❌ Error: \x7be\x7d\")\n" ++
  "            self.driver.save_screenshot('error-screenshot.png')\n" ++
  "        finally:\n" ++
  "            if self.driver:\n" ++
  "                self.driver.quit()\n" ++
  "\n" ++
  "if __name__ == \"__main__\":\n" ++
  "    runner = AutomationRunner()\n" ++
  "    runner.run_automation()"

/-- The Selenium script template as a function of its holes: the generation timestamp and the step section. -/
def seleniumScript (now : String) (stepBlocks : String) : String :=
  seleniumHeader ++ now ++ seleniumRunner ++ stepBlocks ++ seleniumFooter

/-- Body of `generateSeleniumCode`. -/
def generateSeleniumCode (now : String) (workflow : List Step) : Except JsError String := do
  let stepBlocks ← joinBlocks (stepBlock "            # Step " "\n            " generateSeleniumStepCode) workflow
  pure (seleniumScript now stepBlocks)

/-- Playwright script text up to the generation timestamp. -/
def playwrightHeader : String :=
  "const \x7b chromium \x7d = require('playwright');\n" ++
  "\n" ++
  "// 🎭 Auto-generated Playwright Script\n" ++
  "// Generated on: "

/-- Playwright script text between the timestamp and the step section. -/
def playwrightRunner : String :=
  "\n" ++
  "\n" ++
  "class AutomationRunner \x7b\n" ++
  "  constructor() \x7b\n" ++
  "    this.browser = null;\n" ++
  "    this.page = null;\n" ++
  "  \x7d\n" ++
  "\n" ++
  "  async initialize() \x7b\n" ++
  "    console.log('🚀 Starting Playwright automation...');\n" ++
  "    \n" ++
  "    this.browser = await chromium.launch(\x7b headless: false \x7d);\n" ++
  "    this.page = await this.browser.newPage();\n" ++
  "    await this.page.setViewportSize(\x7b width: 1920, height: 1080 \x7d);\n" ++
  "  \x7d\n" ++
  "\n" ++
  "  async runAutomation() \x7b\n" ++
  "    try \x7b\n" ++
  "      await this.initialize();\n" ++
  "      \n"

/-- Playwright script text after the step section. -/
def playwrightFooter : String :=
  "\n" ++
  "      \n" ++
  "      console.log('✅ Automation completed!');\n" ++
  "      \n" ++
  "    \x7d catch (error) \x7b\n" ++
  "      console.error('❌ Error:', error);\n" ++
  "      await this.page.screenshot(\x7b path: 'error-screenshot.png' \x7d);\n" ++
  "    \x7d finally \x7b\n" ++
  "      if (this.browser) \x7b\n" ++
  "        await this.browser.close();\n" ++
  "      \x7d\n" ++
  "    \x7d\n" ++
  "  \x7d\n" ++
  "\x7d\n" ++
  "\n" ++
  "(async () => \x7b\n" ++
  "  const runner = new AutomationRunner();\n" ++
  "  await runner.runAutomation();\n" ++
  "\x7d)();"

/-- The Playwright script template as a function of its holes: the generation timestamp and the step section. -/
def playwrightScript (now : String) (stepBlocks : String) : String :=
  playwrightHeader ++ now ++ playwrightRunner ++ stepBlocks ++ playwrightFooter

/-- Body of `generatePlaywrightCode`. -/
def generatePlaywrightCode (now : String) (workflow : List Step) : Except JsError String := do
  let stepBlocks ← joinBlocks (stepBlock "      // Step " "\n      " generatePlaywrightStepCode) workflow
  pure (playwrightScript now stepBlocks)

/-- Dispatch of `generateCode` on the target name. -/
def generateCode (now : String) (workflow : List Step) (type : String) : Except JsError String :=
  match type with
  | "puppeteer" => generatePuppeteerCode now workflow
  | "selenium" => generateSeleniumCode now workflow
  | "playwright" => generatePlaywrightCode now workflow
  | _ => pure ""

end CodeModal

/-! ## `CodeModal_V2.jsx` -/

namespace CodeModalV2

/-- Source text of the JavaScript helpers `formatDate` and `resolveTemplate` emitted into Puppeteer and Playwright scripts. -/
def jsDateHelper : String :=
  "\n" ++
  "function formatDate(fmt, baseDate = new Date()) \x7b\n" ++
  "  const pad = (n) => String(n).padStart(2,'0');\n" ++
  "  const map = \x7b\n" ++
  "    YYYY: baseDate.getFullYear(),\n" ++
  "    MM: pad(baseDate.getMonth()+1),\n" ++
  "    DD: pad(baseDate.getDate()),\n" ++
  "    hh: pad(baseDate.getHours()),\n" ++
  "    mm: pad(baseDate.getMinutes()),\n" ++
  "    ss: pad(baseDate.getSeconds())\n" ++
  "  \x7d;\n" ++
  "  return fmt.replace(/YYYY|MM|DD|hh|mm|ss/g, (m) => map[m]);\n" ++
  "\x7d\n" ++
  "function resolveTemplate(str, vars = \x7b\x7d) \x7b\n" ++
  "  if (!str) return '';\n" ++
  "  // \x7bvar:name\x7d\n" ++
  "  str = str.replace(/\\\x7bvar:([^\x7d]+)\\\x7d/g, (_, k) => (vars[k] ?? ''));\n" ++
  "  // \x7bdate:YYYY-MM-DD\x7d or \x7bdate\x7d\n" ++
  "  str = str.replace(/\\\x7bdate(?::([^\x7d]+))?\\\x7d/g, (_, f) => f ? formatDate(f) : new Date().toISOString().slice(0,10));\n" ++
  "  // \x7btimestamp\x7d\n" ++
  "  str = str.replace(/\\\x7btimestamp\\\x7d/g, () => String(Date.now()));\n" ++
  "  return str;\n" ++
  "\x7d\n"

/-- Puppeteer fragment of one step. -/
def generatePuppeteerStepCode (step : Step) : Except JsError String := do
  let c := JsVal.or step.config (.obj [])
  let sel ← jsReplaceAll (JsVal.or (c.field "selector") (.str "")) (Char.ofNat 96) "\\`"
  match step.type with
  | "navigate" =>
      pure (
        "console.log('🌐 Go to " ++ (c.field "url").toStr ++ "');\n" ++
        "      await this.page.goto('" ++ (c.field "url").toStr ++ "', \x7b waitUntil: '" ++ (if (c.field "waitForLoad").truthy then "networkidle2" else "load") ++ "', timeout: " ++ (JsVal.nullish (c.field "timeout") (JsVal.num 30000)).toStr ++ " \x7d);")
  | "new-tab" =>
      pure (
        "console.log('🆕 New tab');\n" ++
        "      const _newPage = await this.browser.newPage();\n" ++
        "      " ++ (if (c.field "url").truthy then "await _newPage.goto('" ++ (c.field "url").toStr ++ "', \x7b timeout: " ++ (JsVal.nullish (c.field "timeout") (JsVal.num 10000)).toStr ++ " \x7d);" else "") ++ "\n" ++
        "      " ++ (if (JsVal.strictEq (c.field "switchToTab") (JsVal.bool false)) then "" else "this.page = _newPage;") ++ ";")
  | "refresh" =>
      pure (
        "console.log('🔄 Refresh');\n" ++
        "      await this.page.reload(\x7b waitUntil: 'networkidle2', timeout: " ++ (JsVal.nullish (c.field "timeout") (JsVal.num 30000)).toStr ++ " \x7d);")
  | "back" =>
      pure (
        "console.log('⬅️ Back');\n" ++
        "      await this.page.goBack(\x7b waitUntil: 'load', timeout: " ++ (JsVal.nullish (c.field "timeout") (JsVal.num 10000)).toStr ++ " \x7d);")
  | "forward" =>
      pure (
        "console.log('➡️ Forward');\n" ++
        "      await this.page.goForward(\x7b waitUntil: 'load', timeout: " ++ (JsVal.nullish (c.field "timeout") (JsVal.num 10000)).toStr ++ " \x7d);")
  | "wait-time" => do
      let t3 ← (if (c.field "randomDelay").truthy then (do let t1 ← jsSub (JsVal.nullish (c.field "maxDelay") (JsVal.num 3000)) (JsVal.nullish (c.field "minDelay") (JsVal.num 1000)); let t2 ← mathMax t1 (JsVal.num 1); pure (JsVal.str ("Math.floor(" ++ (JsVal.nullish (c.field "minDelay") (JsVal.num 1000)).toStr ++ " + Math.random()*" ++ t2.toStr ++ ")"))) else pure (JsVal.nullish (c.field "duration") (JsVal.num 1000)))
      pure (
        "console.log('⏱️ Wait " ++ (c.field "duration").toStr ++ "ms');\n" ++
        "      await new Promise(r => setTimeout(r, " ++ t3.toStr ++ "));")
  | "wait-element" =>
      pure (
        "console.log('⏳ Wait element " ++ sel ++ " (" ++ (JsVal.or (c.field "condition") (JsVal.str "visible")).toStr ++ ")');\n" ++
        "      await this.waitFor('" ++ sel ++ "', '" ++ (JsVal.or (c.field "condition") (JsVal.str "visible")).toStr ++ "', " ++ (JsVal.nullish (c.field "timeout") (JsVal.num 30000)).toStr ++ ");")
  | "wait-disappear" =>
      pure (
        "console.log('🫥 Wait disappear " ++ sel ++ "');\n" ++
        "      await this.waitForDisappear('" ++ sel ++ "', " ++ (JsVal.nullish (c.field "timeout") (JsVal.num 30000)).toStr ++ ");")
  | "wait-text" => do
      let t1 ← jsReplaceAll (JsVal.or (c.field "expectedText") (JsVal.str "")) (Char.ofNat 96) "\\`"
      let t2 ← jsReplaceAll (JsVal.or (c.field "expectedText") (JsVal.str "")) (Char.ofNat 96) "\\`"
      pure (
        "console.log('🔤 Wait text \"" ++ t1 ++ "\" in " ++ sel ++ "');\n" ++
        "      await this.waitForText('" ++ sel ++ "', `" ++ t2 ++ "`, \x7b exact: " ++ boolStr ((c.field "exact").truthy) ++ ", timeout: " ++ (JsVal.nullish (c.field "timeout") (JsVal.num 30000)).toStr ++ " \x7d);")
  | "wait-page-load" =>
      pure (
        "console.log('📄 Wait page load');\n" ++
        "      await this.page.waitForNavigation(\x7b waitUntil: '" ++ (JsVal.or (c.field "waitFor") (JsVal.str "networkidle2")).toStr ++ "', timeout: " ++ (JsVal.nullish (c.field "timeout") (JsVal.num 30000)).toStr ++ " \x7d);")
  | "click" =>
      pure (
        "console.log('🖱️ Click " ++ sel ++ "');\n" ++
        "      " ++ (if (c.field "waitForElement").truthy then "await this.waitFor('" ++ sel ++ "','clickable', " ++ (JsVal.nullish (c.field "timeout") (JsVal.num 10000)).toStr ++ ");" else "await this.page.waitForSelector('" ++ sel ++ "', \x7b timeout: " ++ (JsVal.nullish (c.field "timeout") (JsVal.num 10000)).toStr ++ " \x7d);") ++ "\n" ++
        "      " ++ (if (c.field "scrollToElement").truthy then "await this.page.evaluate((s)=>document.querySelector(s)?.scrollIntoView(\x7bblock:'center'\x7d), '" ++ sel ++ "');" else "") ++ "\n" ++
        "      await this.page.click('" ++ sel ++ "');")
  | "double-click" =>
      pure (
        "console.log('🖱️🖱️ Double click " ++ sel ++ "');\n" ++
        "      await this.page.waitForSelector('" ++ sel ++ "');\n" ++
        "      await this.page.click('" ++ sel ++ "', \x7b clickCount: 2, delay: " ++ (JsVal.nullish (c.field "delay") (JsVal.num 50)).toStr ++ " \x7d);")
  | "right-click" =>
      pure (
        "console.log('🖱️ Right click " ++ sel ++ "');\n" ++
        "      await this.page.waitForSelector('" ++ sel ++ "');\n" ++
        "      await this.page.click('" ++ sel ++ "', \x7b button: 'right' \x7d);")
  | "hover" =>
      pure (
        "console.log('🪄 Hover " ++ sel ++ "');\n" ++
        "      await this.page.waitForSelector('" ++ sel ++ "');\n" ++
        "      await this.page.hover('" ++ sel ++ "');\n" ++
        "      " ++ (if (c.field "duration").truthy then "await new Promise(r=>setTimeout(r, " ++ (c.field "duration").toStr ++ "));" else ""))
  | "scroll" =>
      pure (
        "console.log('🧭 Scroll " ++ (JsVal.or (c.field "direction") (JsVal.str "down")).toStr ++ " " ++ (JsVal.or (c.field "amount") (JsVal.num 300)).toStr ++ "px');\n" ++
        "      if ('" ++ (JsVal.or (c.field "element") (JsVal.str "")).toStr ++ "') \x7b\n" ++
        "        await this.page.evaluate((s, amt, dir) => \x7b\n" ++
        "          const el = document.querySelector(s);\n" ++
        "          if (!el) return;\n" ++
        "          el.scrollBy(\x7b top: dir==='down'?amt:-amt, left: dir==='right'?amt:-amt, behavior: " ++ (if (c.field "smooth").truthy then "'smooth'" else "'auto'") ++ " \x7d);\n" ++
        "        \x7d, '" ++ (c.field "element").toStr ++ "', " ++ (JsVal.nullish (c.field "amount") (JsVal.num 300)).toStr ++ ", '" ++ (JsVal.or (c.field "direction") (JsVal.str "down")).toStr ++ "');\n" ++
        "      \x7d else \x7b\n" ++
        "        await this.page.evaluate((amt, dir, smooth) => \x7b\n" ++
        "          window.scrollBy(\x7b top: dir==='down'?amt:-amt, left: dir==='right'?amt:-amt, behavior: smooth?'smooth':'auto' \x7d);\n" ++
        "        \x7d, " ++ (JsVal.nullish (c.field "amount") (JsVal.num 300)).toStr ++ ", '" ++ (JsVal.or (c.field "direction") (JsVal.str "down")).toStr ++ "', " ++ boolStr ((c.field "smooth").truthy) ++ ");\n" ++
        "      \x7d")
  | "type" => do
      let t1 ← jsReplaceAll (JsVal.or (c.field "text") (JsVal.str "")) (Char.ofNat 96) "\\`"
      pure (
        "console.log('⌨️ Type " ++ sel ++ "');\n" ++
        "      await this.page.waitForSelector('" ++ sel ++ "');\n" ++
        "      " ++ (if (c.field "clearFirst").truthy then "await this.page.evaluate((s)=>\x7bconst el=document.querySelector(s); if(el) el.value='';\x7d, '" ++ sel ++ "');" else "") ++ "\n" ++
        "      await this.page.type('" ++ sel ++ "', resolveTemplate(`" ++ t1 ++ "`, this.vars), \x7b delay: " ++ (JsVal.nullish (c.field "speed") (JsVal.num 50)).toStr ++ " \x7d);")
  | "clear-type" => do
      let t1 ← jsReplaceAll (JsVal.or (c.field "text") (JsVal.str "")) (Char.ofNat 96) "\\`"
      pure (
        "console.log('🧼 Clear & Type " ++ sel ++ "');\n" ++
        "      await this.page.waitForSelector('" ++ sel ++ "');\n" ++
        "      await this.page.fill?.('" ++ sel ++ "', '') || this.page.evaluate((s)=>\x7bconst el=document.querySelector(s); if(el) el.value='';\x7d, '" ++ sel ++ "');\n" ++
        "      await this.page.type('" ++ sel ++ "', resolveTemplate(`" ++ t1 ++ "`, this.vars), \x7b delay: " ++ (JsVal.nullish (c.field "speed") (JsVal.num 50)).toStr ++ " \x7d);")
  | "focus" =>
      pure (
        "console.log('🎯 Focus " ++ sel ++ "');\n" ++
        "      await this.page.waitForSelector('" ++ sel ++ "', \x7b timeout: " ++ (JsVal.nullish (c.field "timeout") (JsVal.num 10000)).toStr ++ " \x7d);\n" ++
        "      " ++ (if (JsVal.strictEq (c.field "scrollIntoView") (JsVal.bool false)) then "" else "await this.page.evaluate((s)=>document.querySelector(s)?.scrollIntoView(\x7bblock:'center'\x7d), '" ++ sel ++ "');") ++ "\n" ++
        "      await this.page.focus('" ++ sel ++ "');")
  | "press-key" => do
      let t2 ← (if (c.field "modifiers").truthy then (do let t1 ← jsSplitHead (c.field "modifiers") '+'; pure ("await this.page.keyboard.down('" ++ t1 ++ "');")) else pure (""))
      let t4 ← (if (c.field "modifiers").truthy then (do let t3 ← jsSplitHead (c.field "modifiers") '+'; pure ("await this.page.keyboard.up('" ++ t3 ++ "');")) else pure (""))
      pure (
        "console.log('⌨️ Press " ++ (c.field "key").toStr ++ (if (c.field "modifiers").truthy then " with " ++ (c.field "modifiers").toStr else "") ++ "');\n" ++
        "      " ++ t2 ++ "\n" ++
        "      await this.page.keyboard.press('" ++ (c.field "key").toStr ++ "');\n" ++
        "      " ++ t4)
  | "upload-file" =>
      pure (
        "console.log('📤 Upload file to " ++ sel ++ "');\n" ++
        "      const _fileInput = await this.q$('" ++ sel ++ "');\n" ++
        "      if(!_fileInput) throw new Error('File input not found: " ++ sel ++ "');\n" ++
        "      await _fileInput.uploadFile(" ++ (jsonStringify (if (c.field "multiple").truthy then (if (c.field "filePath").isArray then c.field "filePath" else JsVal.arr [c.field "filePath"]) else JsVal.arr [c.field "filePath"])).toStr ++ ");")
  | "check-checkbox" =>
      pure (
        "console.log('☑️ Checkbox " ++ sel ++ " -> " ++ (JsVal.or (c.field "action") (JsVal.str "toggle")).toStr ++ "');\n" ++
        "      await this.page.waitForSelector('" ++ sel ++ "');\n" ++
        "      await this.page.evaluate((s, action) => \x7b\n" ++
        "        const el = document.querySelector(s);\n" ++
        "        if (!el) return;\n" ++
        "        if (action==='check') el.checked = true;\n" ++
        "        else if (action==='uncheck') el.checked = false;\n" ++
        "        else el.checked = !el.checked;\n" ++
        "        el.dispatchEvent(new Event('change', \x7b bubbles: true \x7d));\n" ++
        "      \x7d, '" ++ sel ++ "', '" ++ (JsVal.or (c.field "action") (JsVal.str "toggle")).toStr ++ "');")
  | "radio-select" =>
      pure (
        "console.log('🔘 Radio select " ++ sel ++ " value=" ++ (c.field "value").toStr ++ "');\n" ++
        "      await this.page.evaluate((s, val) => \x7b\n" ++
        "        const radios = document.querySelectorAll(s);\n" ++
        "        for (const r of radios) \x7b if (r.value == val) \x7b r.checked = true; r.dispatchEvent(new Event('change', \x7bbubbles:true\x7d)); break; \x7d \x7d\n" ++
        "      \x7d, '" ++ sel ++ "', '" ++ (c.field "value").toStr ++ "');")
  | "select-dropdown" => do
      let t3 ← (if (c.field "byValue").truthy then (do let t1 ← jsReplaceAll (JsVal.or (c.field "value") (JsVal.str "")) (Char.ofNat 39) "\\'"; pure ("await this.page.select('" ++ sel ++ "', '" ++ t1 ++ "');")) else (do let t2 ← jsReplaceAll (JsVal.or (c.field "value") (JsVal.str "")) (Char.ofNat 39) "\\'"; pure ("await this.page.evaluate((s, text) => \x7b\n" ++ "            const el = document.querySelector(s);\n" ++ "            if (!el) return;\n" ++ "            const opts = Array.from(el.options);\n" ++ "            const opt = opts.find(o => o.text.trim() === text.trim());\n" ++ "            if (opt) el.value = opt.value;\n" ++ "            el.dispatchEvent(new Event('change', \x7b bubbles: true \x7d));\n" ++ "          \x7d, '" ++ sel ++ "', '" ++ t2 ++ "');")))
      pure (
        "console.log('🧩 Select dropdown " ++ sel ++ " by " ++ (if (c.field "byValue").truthy then "value" else "text") ++ " = " ++ (c.field "value").toStr ++ "');\n" ++
        "      await this.page.waitForSelector('" ++ sel ++ "');\n" ++
        "      " ++ t3)
  | "screenshot" =>
      pure (
        "console.log('📸 Screenshot " ++ (JsVal.or (c.field "fileName") (JsVal.str "screenshot.png")).toStr ++ "');\n" ++
        "      " ++ (if (c.field "selector").truthy then "const _elShot = await this.q$('" ++ sel ++ "');\n" ++ "      if (!_elShot) throw new Error('Element not found for screenshot');\n" ++ "      await _elShot.screenshot(\x7b path: resolveTemplate('" ++ (JsVal.or (c.field "fileName") (JsVal.str "screenshot.png")).toStr ++ "', this.vars) \x7d);" else "await this.page.screenshot(\x7b path: resolveTemplate('" ++ (JsVal.or (c.field "fileName") (JsVal.str "screenshot.png")).toStr ++ "', this.vars), fullPage: " ++ boolStr ((c.field "fullPage").truthy) ++ " \x7d);"))
  | "pdf-generate" =>
      pure (
        "console.log('🧾 PDF " ++ (JsVal.or (c.field "fileName") (JsVal.str "page.pdf")).toStr ++ "');\n" ++
        "      try \x7b\n" ++
        "        await this.page.emulateMediaType?.('screen');\n" ++
        "        await this.page.pdf(\x7b path: resolveTemplate('" ++ (JsVal.or (c.field "fileName") (JsVal.str "page.pdf")).toStr ++ "', this.vars), printBackground: true \x7d);\n" ++
        "      \x7d catch (e) \x7b\n" ++
        "        console.warn('page.pdf may require Chromium headless. Error:', e.message);\n" ++
        "      \x7d")
  | "download-trigger" =>
      pure (
        "console.log('⬇️ Trigger download via " ++ sel ++ "');\n" ++
        "      await this.page.click('" ++ sel ++ "');\n" ++
        "      " ++ (if (c.field "downloadPath").truthy then "this.downloadPath = path.resolve('" ++ (c.field "downloadPath").toStr ++ "');" else ""))
  | "wait-download" =>
      pure (
        "console.log('⏳ Wait download " ++ (JsVal.or (c.field "fileName") (JsVal.str "")).toStr ++ "');\n" ++
        "      " ++ (if (c.field "downloadPath").truthy then "this.downloadPath = path.resolve('" ++ (c.field "downloadPath").toStr ++ "');" else "") ++ "\n" ++
        "      await this.waitForDownload(" ++ (if (c.field "fileName").truthy then "'" ++ (c.field "fileName").toStr ++ "'" else "\"\"") ++ ", " ++ (JsVal.nullish (c.field "timeout") (JsVal.num 60000)).toStr ++ ", " ++ boolStr ((c.field "exactMatch").truthy) ++ ");")
  | "download-verify" =>
      pure (
        "console.log('🔍 Verify download " ++ (JsVal.or (c.field "fileName") (JsVal.str "")).toStr ++ "');\n" ++
        "      " ++ (if (c.field "downloadPath").truthy then "this.downloadPath = path.resolve('" ++ (c.field "downloadPath").toStr ++ "');" else "") ++ "\n" ++
        "      const _foundDl = await this.waitForDownload(" ++ (if (c.field "fileName").truthy then "'" ++ (c.field "fileName").toStr ++ "'" else "\"\"") ++ ", " ++ (JsVal.nullish (c.field "timeout") (JsVal.num 60000)).toStr ++ ", " ++ boolStr ((c.field "exactMatch").truthy) ++ ");\n" ++
        "      " ++ (if (c.field "fileSize").truthy then "const _stat = fs.statSync(path.join(this.downloadPath, _foundDl)); if (_stat.size < " ++ (c.field "fileSize").toStr ++ ") throw new Error('Downloaded file smaller than expected');" else ""))
  | "file-rename" =>
      pure (
        "console.log('📝 Rename " ++ (c.field "currentPath").toStr ++ " -> " ++ (c.field "newPath").toStr ++ "');\n" ++
        "      " ++ (if (c.field "overwrite").truthy then "try \x7b if (fs.existsSync('" ++ (c.field "newPath").toStr ++ "')) fs.unlinkSync('" ++ (c.field "newPath").toStr ++ "'); \x7d catch \x7b\x7d" else "") ++ "\n" ++
        "      fs.renameSync('" ++ (c.field "currentPath").toStr ++ "', '" ++ (c.field "newPath").toStr ++ "');")
  | "file-move" =>
      pure (
        "console.log('📁 Move " ++ (c.field "sourcePath").toStr ++ " -> " ++ (c.field "destinationPath").toStr ++ "');\n" ++
        "      const _destDir = path.dirname('" ++ (c.field "destinationPath").toStr ++ "');\n" ++
        "      " ++ (if (JsVal.strictEq (c.field "createDirectories") (JsVal.bool false)) then "" else "fs.mkdirSync(_destDir, \x7b recursive: true \x7d);") ++ "\n" ++
        "      " ++ (if (c.field "overwrite").truthy then "try \x7b if (fs.existsSync('" ++ (c.field "destinationPath").toStr ++ "')) fs.unlinkSync('" ++ (c.field "destinationPath").toStr ++ "'); \x7d catch \x7b\x7d" else "") ++ "\n" ++
        "      fs.renameSync('" ++ (c.field "sourcePath").toStr ++ "', '" ++ (c.field "destinationPath").toStr ++ "');")
  | "file-monitor" => do
      let t1 ← jsReplaceAll (JsVal.or (c.field "pattern") (JsVal.str "*")) '.' "\\."
      pure (
        "console.log('👀 Monitor folder " ++ (c.field "folderPath").toStr ++ " pattern=" ++ (JsVal.or (c.field "pattern") (JsVal.str "*")).toStr ++ "');\n" ++
        "      \x7b\n" ++
        "        const start = Date.now();\n" ++
        "        let found = null;\n" ++
        "        while (Date.now() - start < " ++ (JsVal.nullish (c.field "timeout") (JsVal.num 30000)).toStr ++ ") \x7b\n" ++
        "          const files = fs.readdirSync('" ++ (c.field "folderPath").toStr ++ "');\n" ++
        "          const rx = new RegExp('^' + (" ++ (jsonStringify (JsVal.str (strReplaceAll t1 '*' ".*"))).toStr ++ ") + '$');\n" ++
        "          const matches = files.filter(f => rx.test(f));\n" ++
        "          if (matches.length) \x7b\n" ++
        "            found = " ++ (if (JsVal.strictEq (c.field "action") (JsVal.str "oldest")) then ((("matches.sort((a,b)=>fs.statSync(path.join(\"" ++ (c.field "folderPath").toStr) ++ "\",a)).mtime - fs.statSync(path.join(\"") ++ (c.field "folderPath").toStr) ++ "\",b)).mtime)[0]" else (if (JsVal.strictEq (c.field "action") (JsVal.str "all")) then "matches" else ((("matches.sort((a,b)=>fs.statSync(path.join(\"" ++ (c.field "folderPath").toStr) ++ "\",b)).mtime - fs.statSync(path.join(\"") ++ (c.field "folderPath").toStr) ++ "\",a)).mtime)[0]")) ++ ";\n" ++
        "            break;\n" ++
        "          \x7d\n" ++
        "          await new Promise(r=>setTimeout(r,500));\n" ++
        "        \x7d\n" ++
        "        if (!found) throw new Error('No files matched within timeout');\n" ++
        "        this.vars['" ++ (JsVal.or (c.field "saveAs") (JsVal.str "fileMonitor")).toStr ++ "'] = found;\n" ++
        "      \x7d")
  | "extract-images" =>
      pure (
        "console.log('🖼️ Extract images " ++ (JsVal.or (c.field "selector") (JsVal.str "img")).toStr ++ " attr=" ++ (JsVal.or (c.field "attribute") (JsVal.str "src")).toStr ++ "');\n" ++
        "      this.vars['" ++ (JsVal.or (c.field "saveAs") (JsVal.str "images")).toStr ++ "'] = await this.page.evaluate((sel, attr, trim) => \x7b\n" ++
        "        const list = Array.from(document.querySelectorAll(sel));\n" ++
        "        const pick = (el) => attr==='alt' ? (el.getAttribute('alt')||'') : (el.getAttribute(attr)||'');\n" ++
        "        return list.map(pick).map(v => trim? v.trim(): v).filter(Boolean);\n" ++
        "      \x7d, '" ++ (JsVal.or (c.field "selector") (JsVal.str "img")).toStr ++ "', '" ++ (JsVal.or (c.field "attribute") (JsVal.str "src")).toStr ++ "', " ++ boolStr (!JsVal.strictEq (c.field "trim") (JsVal.bool false)) ++ ");\n" ++
        "      " ++ (if (c.field "downloadImages").truthy then "\x7b\n" ++ "        const outDir = path.resolve('" ++ (JsVal.or (c.field "downloadPath") (JsVal.str "./images")).toStr ++ "');\n" ++ "        fs.mkdirSync(outDir, \x7b recursive: true \x7d);\n" ++ "        const urls = this.vars['" ++ (JsVal.or (c.field "saveAs") (JsVal.str "images")).toStr ++ "'];\n" ++ "        const fetch = global.fetch || (await import('node-fetch')).default;\n" ++ "        for (const [i, u] of urls.entries()) \x7b\n" ++ "          try \x7b\n" ++ "            const res = await fetch(u);\n" ++ "            const buf = await res.arrayBuffer();\n" ++ "            fs.writeFileSync(path.join(outDir, 'img_'+String(i+1).padStart(3,'0')+path.extname(new URL(u).pathname)||'.jpg'), Buffer.from(buf));\n" ++ "          \x7d catch (e) \x7b console.warn('Download failed', u, e.message); \x7d\n" ++ "        \x7d\n" ++ "      \x7d" else ""))
  | "extract-table" =>
      pure (
        "console.log('📊 Extract table " ++ (JsVal.or (c.field "selector") (JsVal.str "table")).toStr ++ "');\n" ++
        "      this.vars['" ++ (JsVal.or (c.field "saveAs") (JsVal.str "tableData")).toStr ++ "'] = await this.page.evaluate((sel, includeHeaders) => \x7b\n" ++
        "        const table = document.querySelector(sel);\n" ++
        "        if (!table) return [];\n" ++
        "        const rows = Array.from(table.querySelectorAll('tr'));\n" ++
        "        const data = rows.map(r => Array.from(r.children).map(c => (c.textContent||'').trim()));\n" ++
        "        if (!includeHeaders) return data.filter((_,i)=>i>0);\n" ++
        "        return data;\n" ++
        "      \x7d, '" ++ (JsVal.or (c.field "selector") (JsVal.str "table")).toStr ++ "', " ++ boolStr (!JsVal.strictEq (c.field "includeHeaders") (JsVal.bool false)) ++ ");")
  | "extract-links" =>
      pure (
        "console.log('🔗 Extract links " ++ (JsVal.or (c.field "selector") (JsVal.str "a")).toStr ++ " attr=" ++ (JsVal.or (c.field "attribute") (JsVal.str "href")).toStr ++ "');\n" ++
        "      this.vars['" ++ (JsVal.or (c.field "saveAs") (JsVal.str "links")).toStr ++ "'] = await this.page.evaluate((sel, attr) => \x7b\n" ++
        "        return Array.from(document.querySelectorAll(sel)).map(a => attr==='text'? (a.textContent||'').trim() : a.getAttribute(attr)).filter(Boolean);\n" ++
        "      \x7d, '" ++ (JsVal.or (c.field "selector") (JsVal.str "a")).toStr ++ "', '" ++ (JsVal.or (c.field "attribute") (JsVal.str "href")).toStr ++ "');")
  | "screenshot-element" =>
      pure ("// Alias handled in 'screenshot'")
  | "javascript" => do
      let t1 ← jsReplaceAll (JsVal.or (c.field "code") (JsVal.str "")) (Char.ofNat 96) "\\`"
      pure (
        "console.log('🧩 Run JS code');\n" ++
        "      this.vars['" ++ (JsVal.or (c.field "saveAs") (JsVal.str "jsResult")).toStr ++ "'] = await this.page.evaluate((code) => \x7b\n" ++
        "        return (0, eval)(code);\n" ++
        "      \x7d, `" ++ t1 ++ "`);")
  | "api-call" => do
      let t2 ← (if (c.field "body").truthy then (do let t1 ← jsReplaceAll (JsVal.or (c.field "body") (JsVal.str "")) (Char.ofNat 96) "\\`"; pure ("resolveTemplate(`" ++ t1 ++ "`, this.vars)")) else pure ("undefined"))
      pure (
        "console.log('🌐 API " ++ (JsVal.or (c.field "method") (JsVal.str "GET")).toStr ++ " " ++ (c.field "url").toStr ++ "');\n" ++
        "      \x7b\n" ++
        "        const headers = " ++ (if (c.field "headers").truthy then jsonStringify (c.field "headers") else JsVal.str "\x7b\x7d").toStr ++ ";\n" ++
        "        const body = " ++ t2 ++ ";\n" ++
        "        const res = await (global.fetch || (await import('node-fetch')).default)('" ++ (c.field "url").toStr ++ "', \x7b\n" ++
        "          method: '" ++ (JsVal.or (c.field "method") (JsVal.str "GET")).toStr ++ "',\n" ++
        "          headers,\n" ++
        "          " ++ (if (c.field "body").truthy then "body" else "") ++ "\n" ++
        "        \x7d);\n" ++
        "        const text = await res.text();\n" ++
        "        try \x7b this.vars['" ++ (JsVal.or (c.field "saveAs") (JsVal.str "apiResponse")).toStr ++ "'] = JSON.parse(text); \x7d\n" ++
        "        catch \x7b this.vars['" ++ (JsVal.or (c.field "saveAs") (JsVal.str "apiResponse")).toStr ++ "'] = text; \x7d\n" ++
        "      \x7d")
  | "email" | "send-email" => do
      let t1 ← jsOptReplaceAll (JsVal.or (c.field "subject") (JsVal.str "")) (Char.ofNat 96) "\\`"
      let t2 ← jsOptReplaceAll (JsVal.or (c.field "message") (JsVal.str "")) (Char.ofNat 96) "\\`"
      pure (
        "console.log('✉️ Send email to " ++ (c.field "to").toStr ++ "');\n" ++
        "      // Simple SMTP using nodemailer (requires: npm i nodemailer)\n" ++
        "      try \x7b\n" ++
        "        const nodemailer = require('nodemailer');\n" ++
        "        const transporter = nodemailer.createTransport(" ++ (if (JsVal.strictEq (c.field "provider") (JsVal.str "smtp")) then jsonStringify (JsVal.or (c.field "smtpSettings") (JsVal.obj [("host", JsVal.str "smtp.gmail.com"), ("port", JsVal.num 587), ("secure", JsVal.bool false), ("auth", JsVal.obj [("user", JsVal.str ""), ("pass", JsVal.str "")])])) else JsVal.str ("\x7b\x7d // Configure provider '" ++ (JsVal.or (c.field "provider") (JsVal.str "smtp")).toStr ++ "'")).toStr ++ ");\n" ++
        "        await transporter.sendMail(\x7b\n" ++
        "          from: " ++ (jsonStringify (JsVal.or (c.field "from") (JsVal.str "noreply@example.com"))).toStr ++ ",\n" ++
        "          to: '" ++ (c.field "to").toStr ++ "',\n" ++
        "          subject: resolveTemplate(`" ++ t1.toStr ++ "`, this.vars),\n" ++
        "          text: resolveTemplate(`" ++ t2.toStr ++ "`, this.vars),\n" ++
        "          attachments: " ++ (if (c.field "attachments").truthy then jsonStringify (JsVal.arr ((splitOnChar ',' ((c.field "attachments").toStr).data).map fun f => JsVal.obj [("path", JsVal.str (jsTrim (String.mk f)))])) else JsVal.str "[]").toStr ++ "\n" ++
        "        \x7d);\n" ++
        "      \x7d catch (e) \x7b console.warn('Email send skipped/failed:', e.message); \x7d")
  | "send-notification" =>
      pure ("console.log('🔔 Notification [" ++ (JsVal.or (c.field "type") (JsVal.str "info")).toStr ++ "] " ++ (JsVal.or (c.field "title") (JsVal.str "")).toStr ++ ": " ++ (JsVal.or (c.field "message") (JsVal.str "")).toStr ++ "');")
  | "variable-set" => do
      let t1 ← jsOptReplaceAll (JsVal.nullish (c.field "value") (JsVal.str "")) (Char.ofNat 96) "\\`"
      let t2 ← jsOptReplaceAll (JsVal.nullish (c.field "value") (JsVal.str "")) (Char.ofNat 96) "\\`"
      pure (
        "console.log('📦 Set var " ++ (c.field "name").toStr ++ "=' + resolveTemplate(`" ++ t1.toStr ++ "`, this.vars));\n" ++
        "      this.vars['" ++ (c.field "name").toStr ++ "'] = resolveTemplate(`" ++ t2.toStr ++ "`, this.vars);")
  | "variable-get" =>
      pure (
        "console.log('📤 Get var " ++ (c.field "name").toStr ++ " -> " ++ (JsVal.or (c.field "saveAs") (c.field "name")).toStr ++ "');\n" ++
        "      this.vars['" ++ (JsVal.or (c.field "saveAs") (c.field "name")).toStr ++ "'] = this.vars['" ++ (c.field "name").toStr ++ "'] ?? " ++ (jsonStringify (JsVal.nullish (c.field "defaultValue") (JsVal.str ""))).toStr ++ ";")
  | "condition" => do
      let t1 ← jsReplaceAll (JsVal.or (c.field "value") (JsVal.str "")) (Char.ofNat 39) "\\'"
      let t2 ← jsReplaceAll (JsVal.or (c.field "value") (JsVal.str "")) (Char.ofNat 39) "\\'"
      pure (
        "console.log('🔀 Condition " ++ (JsVal.or (c.field "type") (JsVal.str "")).toStr ++ "');\n" ++
        "      // Note: branching cannot remove already-generated steps; we record a flag to let subsequent steps check it if they want.\n" ++
        "      this.vars.__lastCondition = (()=>\x7b\n" ++
        "        switch ('" ++ (c.field "type").toStr ++ "') \x7b\n" ++
        "          case 'elementExists': return !!document.querySelector('" ++ sel ++ "');\n" ++
        "          case 'textContains': \x7b\n" ++
        "            const el = document.querySelector('" ++ sel ++ "');\n" ++
        "            return el ? (el.textContent||'').includes('" ++ t1 ++ "') : false;\n" ++
        "          \x7d\n" ++
        "          case 'varEquals': return (this.vars['" ++ (JsVal.or (JsVal.or (c.field "selector") (c.field "name")) (JsVal.str "")).toStr ++ "'] ?? '') == '" ++ t2 ++ "';\n" ++
        "          default: return false;\n" ++
        "        \x7d\n" ++
        "      \x7d)();")
  | "loop" =>
      pure (
        "console.log('🔁 Loop " ++ (JsVal.or (c.field "type") (JsVal.str "count")).toStr ++ "');\n" ++
        "      for (let __i=0; __i<" ++ (JsVal.nullish (c.field "count") (JsVal.num 1)).toStr ++ "; __i++) \x7b console.log('  ➤ iteration', __i+1); /* Insert per-iteration steps manually if needed */ \x7d")
  | "try-catch" =>
      pure (
        "console.log('🛟 Try-Catch setup');\n" ++
        "      // Wrap sensitive steps manually in your own try/catch or extend generator to group steps. Placeholder here.")
  | "right-click-element" =>
      pure ("// Use 'right-click' action")
  | _ =>
      pure ("console.log('⚠️ Unsupported step type \"" ++ step.type ++ "\" - no-op');")

/-- Selenium locator strategy for a configuration (`pyBy`). -/
def pyBy (c : JsVal) : String :=
  match c.field "selectorType" with
  | .str "xpath" => "By.XPATH"
  | .str "id" => "By.ID"
  | .str "class" => "By.CLASS_NAME"
  | .str "name" => "By.NAME"
  | .str "tag" => "By.TAG_NAME"
  | _ => "By.CSS_SELECTOR"

/-- Selenium fragment of one step. -/
def generateSeleniumStepCode (step : Step) : Except JsError String := do
  let c := JsVal.or step.config (.obj [])
  let byLoc := pyBy c
  let sel ← jsReplaceAll (JsVal.or (c.field "selector") (.str "")) '"' "\\\""
  match step.type with
  | "navigate" =>
      pure (
        "print(\"🌐 Navigating to: " ++ (c.field "url").toStr ++ "\")\n" ++
        "            self.driver.get(\"" ++ (c.field "url").toStr ++ "\")")
  | "refresh" =>
      pure (
        "print(\"🔄 Refresh\")\n" ++
        "            self.driver.refresh()")
  | "back" =>
      pure (
        "print(\"⬅️ Back\")\n" ++
        "            self.driver.back()")
  | "forward" =>
      pure (
        "print(\"➡️ Forward\")\n" ++
        "            self.driver.forward()")
  | "wait-time" => do
      let t2 ← (if (c.field "randomDelay").truthy then (do let t1 ← mathMax (JsVal.num 0) (JsVal.nullish (c.field "maxDelay") (JsVal.num 3000)); pure (t1)) else pure (JsVal.nullish (c.field "duration") (JsVal.num 1000)))
      pure (
        "print(\"⏱️ Wait " ++ (c.field "duration").toStr ++ "ms\")\n" ++
        "            time.sleep(" ++ t2.toStr ++ " / 1000.0)")
  | "wait-element" => do
      let cond := (if (JsVal.strictEq (c.field "condition") (JsVal.str "visible")) then "EC.visibility_of_element_located((" ++ byLoc ++ ", \"" ++ sel ++ "\"))" else (if (JsVal.strictEq (c.field "condition") (JsVal.str "present")) then "EC.presence_of_element_located((" ++ byLoc ++ ", \"" ++ sel ++ "\"))" else (if (JsVal.strictEq (c.field "condition") (JsVal.str "clickable")) then "EC.element_to_be_clickable((" ++ byLoc ++ ", \"" ++ sel ++ "\"))" else (if (JsVal.strictEq (c.field "condition") (JsVal.str "invisible")) then "EC.invisibility_of_element_located((" ++ byLoc ++ ", \"" ++ sel ++ "\"))" else "EC.presence_of_element_located((" ++ byLoc ++ ", \"" ++ sel ++ "\"))"))))
      pure (
        "print(\"⏳ Wait element " ++ sel ++ " (" ++ (JsVal.or (c.field "condition") (JsVal.str "visible")).toStr ++ ")\")\n" ++
        "            self.wait.until(" ++ cond ++ ")")
  | "wait-disappear" =>
      pure (
        "print(\"🫥 Wait disappear " ++ sel ++ "\")\n" ++
        "            self.wait.until(EC.invisibility_of_element_located((" ++ byLoc ++ ", \"" ++ sel ++ "\")))")
  | "wait-text" =>
      pure (
        "print(\"🔤 Wait text in " ++ sel ++ "\")\n" ++
        "            self.wait.until(lambda d: ((\"" ++ (JsVal.or (c.field "expectedText") (JsVal.str "")).toStr ++ "\" in d.find_element(" ++ byLoc ++ ", \"" ++ sel ++ "\").text) if " ++ (if (c.field "exact").truthy then "False" else "True") ++ " else d.find_element(" ++ byLoc ++ ", \"" ++ sel ++ "\").text==\"" ++ (JsVal.or (c.field "expectedText") (JsVal.str "")).toStr ++ "\"), \"" ++ (JsVal.or (c.field "expectedText") (JsVal.str "")).toStr ++ "\")")
  | "click" =>
      pure (
        "print(\"🖱️ Click " ++ sel ++ "\")\n" ++
        "            el = self.wait.until(EC.element_to_be_clickable((" ++ byLoc ++ ", \"" ++ sel ++ "\")))\n" ++
        "            el.click()")
  | "double-click" =>
      pure (
        "print(\"🖱️🖱️ Double click " ++ sel ++ "\")\n" ++
        "            from selenium.webdriver import ActionChains\n" ++
        "            el = self.wait.until(EC.presence_of_element_located((" ++ byLoc ++ ", \"" ++ sel ++ "\")))\n" ++
        "            ActionChains(self.driver).double_click(el).perform()")
  | "right-click" =>
      pure (
        "print(\"🖱️ Right click " ++ sel ++ "\")\n" ++
        "            from selenium.webdriver import ActionChains\n" ++
        "            el = self.wait.until(EC.presence_of_element_located((" ++ byLoc ++ ", \"" ++ sel ++ "\")))\n" ++
        "            ActionChains(self.driver).context_click(el).perform()")
  | "hover" =>
      pure (
        "print(\"🪄 Hover " ++ sel ++ "\")\n" ++
        "            from selenium.webdriver import ActionChains\n" ++
        "            el = self.wait.until(EC.presence_of_element_located((" ++ byLoc ++ ", \"" ++ sel ++ "\")))\n" ++
        "            ActionChains(self.driver).move_to_element(el).perform()\n" ++
        "            " ++ (if (c.field "duration").truthy then "time.sleep(" ++ (c.field "duration").toStr ++ "/1000.0)" else ""))
  | "scroll" => do
      let t1 ← jsReplaceAll (JsVal.or (c.field "element") (JsVal.str "")) '"' "\\\""
      let t3 ← (if ((JsVal.strictEq (c.field "direction") (JsVal.str "down")) || !((c.field "direction").truthy)) then pure (JsVal.nullish (c.field "amount") (JsVal.num 300)) else (do let t2 ← jsNeg (JsVal.nullish (c.field "amount") (JsVal.num 300)); pure (t2)))
      pure (
        "print(\"🧭 Scroll " ++ (JsVal.or (c.field "direction") (JsVal.str "down")).toStr ++ " " ++ (JsVal.or (c.field "amount") (JsVal.num 300)).toStr ++ "px\")\n" ++
        "            if \"" ++ (JsVal.or (c.field "element") (JsVal.str "")).toStr ++ "\":\n" ++
        "                el = self.wait.until(EC.presence_of_element_located((By.CSS_SELECTOR, \"" ++ t1 ++ "\")))\n" ++
        "                self.driver.execute_script(\"arguments[0].scrollBy(0, arguments[1]);\", el, " ++ (JsVal.nullish (c.field "amount") (JsVal.num 300)).toStr ++ " if \"" ++ (JsVal.or (c.field "direction") (JsVal.str "down")).toStr ++ "\"==\"down\" else -" ++ (JsVal.nullish (c.field "amount") (JsVal.num 300)).toStr ++ ")\n" ++
        "            else:\n" ++
        "                self.driver.execute_script(\"window.scrollBy(arguments[0], arguments[1]);\", " ++ (if (JsVal.strictEq (c.field "direction") (JsVal.str "right")) then JsVal.nullish (c.field "amount") (JsVal.num 300) else JsVal.num 0).toStr ++ ", " ++ t3.toStr ++ ")")
  | "type" | "clear-type" => do
      let t1 ← jsReplaceAll (JsVal.or (c.field "text") (JsVal.str "")) '"' "\\\""
      pure (
        "print(\"⌨️ Type " ++ sel ++ "\")\n" ++
        "            el = self.wait.until(EC.presence_of_element_located((" ++ byLoc ++ ", \"" ++ sel ++ "\")))\n" ++
        "            " ++ (if ((JsVal.strictEq (JsVal.str step.type) (JsVal.str "clear-type")) || (c.field "clearFirst").truthy) then "el.clear()" else "") ++ "\n" ++
        "            el.send_keys(resolve_template(\"" ++ t1 ++ "\", self.vars))")
  | "focus" =>
      pure (
        "print(\"🎯 Focus " ++ sel ++ "\")\n" ++
        "            el = self.wait.until(EC.presence_of_element_located((" ++ byLoc ++ ", \"" ++ sel ++ "\")))\n" ++
        "            el.click()")
  | "press-key" => do
      let t1 ← jsToUpperCase (JsVal.or (c.field "key") (JsVal.str "ENTER"))
      pure (
        "print(\"⌨️ Press " ++ (c.field "key").toStr ++ "\")\n" ++
        "            from selenium.webdriver.common.keys import Keys\n" ++
        "            el = self.driver.switch_to.active_element\n" ++
        "            el.send_keys(Keys." ++ t1 ++ ")")
  | "upload-file" =>
      pure (
        "print(\"📤 Upload " ++ (c.field "filePath").toStr ++ "\")\n" ++
        "            el = self.wait.until(EC.presence_of_element_located((" ++ byLoc ++ ", \"" ++ sel ++ "\")))\n" ++
        "            el.send_keys(os.path.abspath(\"" ++ (c.field "filePath").toStr ++ "\"))")
  | "check-checkbox" =>
      pure (
        "print(\"☑️ Checkbox " ++ (JsVal.or (c.field "action") (JsVal.str "toggle")).toStr ++ " " ++ sel ++ "\")\n" ++
        "            el = self.wait.until(EC.presence_of_element_located((" ++ byLoc ++ ", \"" ++ sel ++ "\")))\n" ++
        "            checked = el.is_selected()\n" ++
        "            action = \"" ++ (JsVal.or (c.field "action") (JsVal.str "toggle")).toStr ++ "\"\n" ++
        "            if (action==\"check\" and not checked) or (action==\"uncheck\" and checked) or (action==\"toggle\"):\n" ++
        "                el.click()")
  | "radio-select" =>
      pure (
        "print(\"🔘 Radio select " ++ sel ++ " value=" ++ (c.field "value").toStr ++ "\")\n" ++
        "            els = self.driver.find_elements(" ++ byLoc ++ ", \"" ++ sel ++ "\")\n" ++
        "            for r in els:\n" ++
        "                if r.get_attribute(\"value\")== \"" ++ (c.field "value").toStr ++ "\":\n" ++
        "                    r.click(); break")
  | "select-dropdown" =>
      pure (
        "print(\"🧩 Select " ++ sel ++ " by " ++ (if (c.field "byValue").truthy then "value" else "text") ++ "\")\n" ++
        "            el = self.wait.until(EC.presence_of_element_located((" ++ byLoc ++ ", \"" ++ sel ++ "\")))\n" ++
        "            Select(el)." ++ (if (c.field "byValue").truthy then "select_by_value" else "select_by_visible_text") ++ "(\"" ++ (JsVal.or (c.field "value") (JsVal.str "")).toStr ++ "\")")
  | "screenshot" =>
      pure (
        "print(\"📸 Screenshot " ++ (JsVal.or (c.field "fileName") (JsVal.str "screenshot.png")).toStr ++ "\")\n" ++
        "            self.driver.save_screenshot(\"" ++ (JsVal.or (c.field "fileName") (JsVal.str "screenshot.png")).toStr ++ "\")")
  | "pdf-generate" =>
      pure (
        "print(\"🧾 PDF " ++ (JsVal.or (c.field "fileName") (JsVal.str "page.pdf")).toStr ++ " via DevTools\")\n" ++
        "            try:\n" ++
        "                pdf = self.driver.execute_cdp_cmd(\"Page.printToPDF\", \x7b\"printBackground\": True\x7d)\n" ++
        "                with open(\"" ++ (JsVal.or (c.field "fileName") (JsVal.str "page.pdf")).toStr ++ "\",\"wb\") as f:\n" ++
        "                    f.write(base64.b64decode(pdf['data']))\n" ++
        "            except Exception as e:\n" ++
        "                print(\"PDF failed:\", e)")
  | "download-trigger" =>
      pure (
        "print(\"⬇️ Trigger download " ++ sel ++ "\")\n" ++
        "            el = self.wait.until(EC.element_to_be_clickable((" ++ byLoc ++ ", \"" ++ sel ++ "\"))); el.click()")
  | "wait-download" => do
      let t1 ← mathFloorDiv (JsVal.nullish (c.field "timeout") (JsVal.num 60000)) 1000
      pure (
        "print(\"⏳ Wait download " ++ (JsVal.or (c.field "fileName") (JsVal.str "")).toStr ++ "\")\n" ++
        "            f = self.wait_download(\"" ++ (JsVal.or (c.field "fileName") (JsVal.str "")).toStr ++ "\", " ++ t1.toStr ++ ", " ++ boolStr ((c.field "exactMatch").truthy) ++ ")")
  | "download-verify" => do
      let t1 ← mathFloorDiv (JsVal.nullish (c.field "timeout") (JsVal.num 60000)) 1000
      pure (
        "print(\"🔍 Verify download " ++ (JsVal.or (c.field "fileName") (JsVal.str "")).toStr ++ "\")\n" ++
        "            f = self.wait_download(\"" ++ (JsVal.or (c.field "fileName") (JsVal.str "")).toStr ++ "\", " ++ t1.toStr ++ ", " ++ boolStr ((c.field "exactMatch").truthy) ++ ")\n" ++
        "            p = os.path.join(self.download_dir, f)\n" ++
        "            " ++ (if (c.field "fileSize").truthy then "assert os.path.getsize(p) >= " ++ (c.field "fileSize").toStr ++ ", \"Downloaded file too small\"" else ""))
  | "file-rename" =>
      pure (
        "print(\"📝 Rename " ++ (c.field "currentPath").toStr ++ " -> " ++ (c.field "newPath").toStr ++ "\")\n" ++
        "            " ++ (if (c.field "overwrite").truthy then "try:\n" ++ "                os.remove(\"" ++ (c.field "newPath").toStr ++ "\")\n" ++ "            except: pass" else "") ++ "\n" ++
        "            os.replace(\"" ++ (c.field "currentPath").toStr ++ "\", \"" ++ (c.field "newPath").toStr ++ "\")")
  | "file-move" =>
      pure (
        "print(\"📁 Move " ++ (c.field "sourcePath").toStr ++ " -> " ++ (c.field "destinationPath").toStr ++ "\")\n" ++
        "            os.makedirs(os.path.dirname(\"" ++ (c.field "destinationPath").toStr ++ "\"), exist_ok=True)\n" ++
        "            " ++ (if (c.field "overwrite").truthy then "try: os.remove(\"" ++ (c.field "destinationPath").toStr ++ "\")\n" ++ "            except: pass" else "") ++ "\n" ++
        "            os.replace(\"" ++ (c.field "sourcePath").toStr ++ "\", \"" ++ (c.field "destinationPath").toStr ++ "\")")
  | "file-monitor" => do
      let t1 ← jsReplaceAll (JsVal.or (c.field "pattern") (JsVal.str "*")) '.' "\\."
      let t2 ← mathFloorDiv (JsVal.nullish (c.field "timeout") (JsVal.num 30000)) 1000
      pure (
        "print(\"👀 Monitor " ++ (c.field "folderPath").toStr ++ "\")\n" ++
        "            import re\n" ++
        "            rx = re.compile('^' + \"" ++ strReplaceAll t1 '*' ".*" ++ "\" + '$')\n" ++
        "            start = time.time(); found = None\n" ++
        "            while time.time()-start < " ++ t2.toStr ++ ":\n" ++
        "                files = [f for f in os.listdir(\"" ++ (c.field "folderPath").toStr ++ "\") if rx.match(f)]\n" ++
        "                if files:\n" ++
        "                    found = files[0]\n" ++
        "                    break\n" ++
        "                time.sleep(0.5)\n" ++
        "            if not found: raise Exception(\"No file matched\")\n" ++
        "            self.vars[\"" ++ (JsVal.or (c.field "saveAs") (JsVal.str "fileMonitor")).toStr ++ "\"] = found")
  | "extract-images" =>
      pure (
        "print(\"🖼️ Extract images " ++ (JsVal.or (c.field "selector") (JsVal.str "img")).toStr ++ "\")\n" ++
        "            from bs4 import BeautifulSoup\n" ++
        "            html = self.driver.page_source\n" ++
        "            soup = BeautifulSoup(html, \"html.parser\")\n" ++
        "            out = []\n" ++
        "            for el in soup.select(\"" ++ (JsVal.or (c.field "selector") (JsVal.str "img")).toStr ++ "\"):\n" ++
        "                val = el.get(\"" ++ (JsVal.or (c.field "attribute") (JsVal.str "src")).toStr ++ "\") if \"" ++ (JsVal.or (c.field "attribute") (JsVal.str "src")).toStr ++ "\"!=\"alt\" else (el.get(\"alt\") or \"\")\n" ++
        "                if val: out.append(val.strip())\n" ++
        "            self.vars[\"" ++ (JsVal.or (c.field "saveAs") (JsVal.str "images")).toStr ++ "\"] = out")
  | "extract-table" =>
      pure (
        "print(\"📊 Extract table " ++ (JsVal.or (c.field "selector") (JsVal.str "table")).toStr ++ "\")\n" ++
        "            from bs4 import BeautifulSoup\n" ++
        "            soup = BeautifulSoup(self.driver.page_source, \"html.parser\")\n" ++
        "            table = soup.select_one(\"" ++ (JsVal.or (c.field "selector") (JsVal.str "table")).toStr ++ "\")\n" ++
        "            data = []\n" ++
        "            if table:\n" ++
        "                for tr in table.select(\"tr\"):\n" ++
        "                    data.append([ (td.get_text() or \"\").strip() for td in tr.find_all([\"td\",\"th\"]) ])\n" ++
        "            self.vars[\"" ++ (JsVal.or (c.field "saveAs") (JsVal.str "tableData")).toStr ++ "\"] = data if " ++ boolStr (!JsVal.strictEq (c.field "includeHeaders") (JsVal.bool false)) ++ " else (data[1:] if len(data)>1 else [])")
  | "extract-links" =>
      pure (
        "print(\"🔗 Extract links " ++ (JsVal.or (c.field "selector") (JsVal.str "a")).toStr ++ "\")\n" ++
        "            from bs4 import BeautifulSoup\n" ++
        "            soup = BeautifulSoup(self.driver.page_source, \"html.parser\")\n" ++
        "            res = []\n" ++
        "            for a in soup.select(\"" ++ (JsVal.or (c.field "selector") (JsVal.str "a")).toStr ++ "\"):\n" ++
        "                res.append(a.get(\"" ++ (JsVal.or (c.field "attribute") (JsVal.str "href")).toStr ++ "\") if \"" ++ (JsVal.or (c.field "attribute") (JsVal.str "href")).toStr ++ "\"!=\"text\" else (a.get_text() or \"\").strip())\n" ++
        "            self.vars[\"" ++ (JsVal.or (c.field "saveAs") (JsVal.str "links")).toStr ++ "\"] = [x for x in res if x]")
  | "javascript" =>
      pure (
        "print(\"🧩 Run JS\")\n" ++
        "            self.vars[\"" ++ (JsVal.or (c.field "saveAs") (JsVal.str "jsResult")).toStr ++ "\"] = self.driver.execute_script(" ++ (jsonStringify (JsVal.or (c.field "code") (JsVal.str ""))).toStr ++ ")")
  | "api-call" => do
      let t2 ← (if (c.field "body").truthy then (do let t1 ← jsReplaceAll (JsVal.or (c.field "body") (JsVal.str "")) '"' "\\\""; pure ("resolve_template(\"\"\"" ++ t1 ++ "\"\"\", self.vars)")) else pure ("None"))
      pure (
        "print(\"🌐 API " ++ (JsVal.or (c.field "method") (JsVal.str "GET")).toStr ++ " " ++ (c.field "url").toStr ++ "\")\n" ++
        "            import requests\n" ++
        "            headers = " ++ (if (c.field "headers").truthy then jsonStringify (c.field "headers") else JsVal.str "\x7b\x7d").toStr ++ "\n" ++
        "            data = " ++ t2 ++ "\n" ++
        "            r = requests.request(\"" ++ (JsVal.or (c.field "method") (JsVal.str "GET")).toStr ++ "\", \"" ++ (c.field "url").toStr ++ "\", headers=headers, data=data)\n" ++
        "            try: self.vars[\"" ++ (JsVal.or (c.field "saveAs") (JsVal.str "apiResponse")).toStr ++ "\"] = r.json()\n" ++
        "            except: self.vars[\"" ++ (JsVal.or (c.field "saveAs") (JsVal.str "apiResponse")).toStr ++ "\"] = r.text")
  | "send-email" | "email" => do
      let t1 ← jsReplaceAll (JsVal.or (c.field "message") (JsVal.str "")) '"' "\\\""
      let t6 ← (if (((c.field "smtpSettings").optField "auth").optField "user").truthy then (do let t2 ← (c.field "smtpSettings").get "auth"; let t3 ← t2.get "user"; let t4 ← (c.field "smtpSettings").get "auth"; let t5 ← t4.get "pass"; pure ("s.login(\"" ++ t3.toStr ++ "\", \"" ++ t5.toStr ++ "\")")) else pure ("# s.login(USER, PASS)"))
      pure (
        "print(\"✉️ Send email to " ++ (c.field "to").toStr ++ "\")\n" ++
        "            # Requires 'smtplib' config; placeholder below\n" ++
        "            import smtplib\n" ++
        "            from email.mime.text import MIMEText\n" ++
        "            msg = MIMEText(resolve_template(\"\"\"" ++ t1 ++ "\"\"\", self.vars))\n" ++
        "            msg['Subject'] = \"" ++ (JsVal.or (c.field "subject") (JsVal.str "")).toStr ++ "\"\n" ++
        "            msg['From'] = \"" ++ (JsVal.or (c.field "from") (JsVal.str "noreply@example.com")).toStr ++ "\"\n" ++
        "            msg['To'] = \"" ++ (JsVal.or (c.field "to") (JsVal.str "")).toStr ++ "\"\n" ++
        "            try:\n" ++
        "                s = smtplib.SMTP(\"" ++ (JsVal.or ((c.field "smtpSettings").optField "host") (JsVal.str "smtp.gmail.com")).toStr ++ "\", " ++ (JsVal.or ((c.field "smtpSettings").optField "port") (JsVal.num 587)).toStr ++ ")\n" ++
        "                s.starttls()\n" ++
        "                " ++ t6 ++ "\n" ++
        "                s.send_message(msg)\n" ++
        "                s.quit()\n" ++
        "            except Exception as e:\n" ++
        "                print(\"Email skipped/failed:\", e)")
  | "variable-set" =>
      pure (
        "print(\"📦 Set var " ++ (c.field "name").toStr ++ "\")\n" ++
        "            self.vars[\"" ++ (c.field "name").toStr ++ "\"] = resolve_template(\"" ++ (JsVal.nullish (c.field "value") (JsVal.str "")).toStr ++ "\".replace('\\n','\\n'), self.vars)")
  | "variable-get" =>
      pure (
        "print(\"📤 Get var " ++ (c.field "name").toStr ++ " -> " ++ (JsVal.or (c.field "saveAs") (c.field "name")).toStr ++ "\")\n" ++
        "            self.vars[\"" ++ (JsVal.or (c.field "saveAs") (c.field "name")).toStr ++ "\"] = self.vars.get(\"" ++ (c.field "name").toStr ++ "\", " ++ (jsonStringify (JsVal.nullish (c.field "defaultValue") (JsVal.str ""))).toStr ++ ")")
  | "condition" =>
      pure ("print(\"🔀 Condition " ++ (JsVal.or (c.field "type") (JsVal.str "")).toStr ++ " (no branching in generator)\")")
  | "loop" =>
      pure ("print(\"🔁 Loop " ++ (JsVal.nullish (c.field "count") (JsVal.num 1)).toStr ++ " (place inner steps manually)\")")
  | _ =>
      pure ("print(\"⚠️ Unsupported step type: " ++ step.type ++ "\")")

/-- Playwright fragment of one step. -/
def generatePlaywrightStepCode (step : Step) : Except JsError String := do
  let c := JsVal.or step.config (.obj [])
  let sel ← jsReplaceAll (JsVal.or (c.field "selector") (.str "")) (Char.ofNat 96) "\\`"
  match step.type with
  | "navigate" =>
      pure ("console.log('🌐 Go to " ++ (c.field "url").toStr ++ "'); await this.page.goto('" ++ (c.field "url").toStr ++ "', \x7b timeout: " ++ (JsVal.nullish (c.field "timeout") (JsVal.num 30000)).toStr ++ ", waitUntil: '" ++ (if (c.field "waitForLoad").truthy then "networkidle" else "load") ++ "' \x7d);")
  | "new-tab" =>
      pure ("console.log('🆕 New tab'); const _pg = await this.context.newPage(); " ++ (if (c.field "url").truthy then "await _pg.goto('" ++ (c.field "url").toStr ++ "', \x7b timeout: " ++ (JsVal.nullish (c.field "timeout") (JsVal.num 10000)).toStr ++ " \x7d);" else "") ++ " " ++ (if (JsVal.strictEq (c.field "switchToTab") (JsVal.bool false)) then "" else "this.page = _pg;") ++ ";")
  | "refresh" =>
      pure ("console.log('🔄 Refresh'); await this.page.reload(\x7b waitUntil: 'networkidle' \x7d);")
  | "back" =>
      pure ("console.log('⬅️ Back'); await this.page.goBack();")
  | "forward" =>
      pure ("console.log('➡️ Forward'); await this.page.goForward();")
  | "wait-time" => do
      let t2 ← (if (c.field "randomDelay").truthy then (do let t1 ← mathMax (JsVal.num 0) (JsVal.nullish (c.field "maxDelay") (JsVal.num 3000)); pure (t1)) else pure (JsVal.nullish (c.field "duration") (JsVal.num 1000)))
      pure ("console.log('⏱️ Wait " ++ (c.field "duration").toStr ++ "ms'); await this.page.waitForTimeout(" ++ t2.toStr ++ ");")
  | "wait-element" =>
      pure ("console.log('⏳ Wait element " ++ sel ++ " (" ++ (JsVal.or (c.field "condition") (JsVal.str "visible")).toStr ++ ")'); await this.page.waitForSelector('" ++ sel ++ "', \x7b state: '" ++ (if (JsVal.strictEq (c.field "condition") (JsVal.str "present")) then "attached" else (if (JsVal.strictEq (c.field "condition") (JsVal.str "invisible")) then "hidden" else (if (JsVal.strictEq (c.field "condition") (JsVal.str "clickable")) then "visible" else "visible"))) ++ "', timeout: " ++ (JsVal.nullish (c.field "timeout") (JsVal.num 30000)).toStr ++ " \x7d);")
  | "wait-disappear" =>
      pure ("console.log('🫥 Wait disappear " ++ sel ++ "'); await this.page.waitForSelector('" ++ sel ++ "', \x7b state: 'detached', timeout: " ++ (JsVal.nullish (c.field "timeout") (JsVal.num 30000)).toStr ++ " \x7d);")
  | "wait-text" => do
      let t1 ← jsReplaceAll (JsVal.or (c.field "expectedText") (JsVal.str "")) (Char.ofNat 96) "\\`"
      pure ("console.log('🔤 Wait text'); await this.page.waitForFunction((s, t, ex)=>\x7bconst el=document.querySelector(s); if(!el) return false; const txt=(el.textContent||'').trim(); return ex? txt===t: txt.includes(t);\x7d, \x7b timeout: " ++ (JsVal.nullish (c.field "timeout") (JsVal.num 30000)).toStr ++ " \x7d, '" ++ sel ++ "', `" ++ t1 ++ "`, " ++ boolStr ((c.field "exact").truthy) ++ ");")
  | "wait-page-load" =>
      pure ("console.log('📄 Wait page load'); await this.page.waitForLoadState('" ++ (JsVal.or (c.field "waitFor") (JsVal.str "networkidle")).toStr ++ "');")
  | "click" =>
      pure ("console.log('🖱️ Click " ++ sel ++ "'); " ++ (if (c.field "scrollToElement").truthy then "await this.page.locator('" ++ sel ++ "').scrollIntoViewIfNeeded();" else "") ++ " await this.page.locator('" ++ sel ++ "').click();")
  | "double-click" =>
      pure ("console.log('🖱️🖱️ Double click " ++ sel ++ "'); await this.page.locator('" ++ sel ++ "').dblclick(\x7b delay: " ++ (JsVal.nullish (c.field "delay") (JsVal.num 50)).toStr ++ " \x7d);")
  | "right-click" =>
      pure ("console.log('🖱️ Right click " ++ sel ++ "'); await this.page.locator('" ++ sel ++ "').click(\x7b button: 'right' \x7d);")
  | "hover" =>
      pure ("console.log('🪄 Hover " ++ sel ++ "'); await this.page.locator('" ++ sel ++ "').hover(); " ++ (if (c.field "duration").truthy then "await this.page.waitForTimeout(" ++ (c.field "duration").toStr ++ ");" else ""))
  | "scroll" =>
      pure ("console.log('🧭 Scroll " ++ (JsVal.or (c.field "direction") (JsVal.str "down")).toStr ++ " " ++ (JsVal.or (c.field "amount") (JsVal.num 300)).toStr ++ "px'); await this.page.evaluate((sel,amt,dir,smooth)=>\x7bconst t=sel?document.querySelector(sel):window; const x=dir==='right'?amt:dir==='left'?-amt:0; const y=dir==='down'?amt:dir==='up'?-amt:0; (t.scrollBy||window.scrollBy).call(t,\x7bleft:x, top:y, behavior:smooth?'smooth':'auto'\x7d);\x7d, '" ++ (JsVal.or (c.field "element") (JsVal.str "")).toStr ++ "', " ++ (JsVal.nullish (c.field "amount") (JsVal.num 300)).toStr ++ ", '" ++ (JsVal.or (c.field "direction") (JsVal.str "down")).toStr ++ "', " ++ boolStr ((c.field "smooth").truthy) ++ ");")
  | "type" => do
      let t1 ← jsReplaceAll (JsVal.or (c.field "text") (JsVal.str "")) (Char.ofNat 96) "\\`"
      pure ("console.log('⌨️ Type " ++ sel ++ "'); " ++ (if (c.field "clearFirst").truthy then "await this.page.locator('" ++ sel ++ "').fill('');" else "") ++ " await this.page.locator('" ++ sel ++ "').type(resolveTemplate(`" ++ t1 ++ "`, this.vars), \x7b delay: " ++ (JsVal.nullish (c.field "speed") (JsVal.num 50)).toStr ++ " \x7d);")
  | "clear-type" => do
      let t1 ← jsReplaceAll (JsVal.or (c.field "text") (JsVal.str "")) (Char.ofNat 96) "\\`"
      pure ("console.log('🧼 Clear & Type " ++ sel ++ "'); await this.page.locator('" ++ sel ++ "').fill(resolveTemplate(`" ++ t1 ++ "`, this.vars));")
  | "focus" =>
      pure ("console.log('🎯 Focus " ++ sel ++ "'); await this.page.locator('" ++ sel ++ "').focus();")
  | "press-key" =>
      pure ("console.log('⌨️ Press " ++ (c.field "key").toStr ++ "'); await this.page.keyboard.press('" ++ (c.field "key").toStr ++ "');")
  | "upload-file" =>
      pure ("console.log('📤 Upload file'); await this.page.setInputFiles('" ++ sel ++ "', " ++ (jsonStringify (if (c.field "multiple").truthy then (if (c.field "filePath").isArray then c.field "filePath" else JsVal.arr [c.field "filePath"]) else JsVal.arr [c.field "filePath"])).toStr ++ ");")
  | "check-checkbox" =>
      pure ("console.log('☑️ Checkbox " ++ (JsVal.or (c.field "action") (JsVal.str "toggle")).toStr ++ "'); const _cb = this.page.locator('" ++ sel ++ "'); " ++ (if (JsVal.strictEq (c.field "action") (JsVal.str "check")) then "await _cb.check(\x7bforce:true\x7d);" else (if (JsVal.strictEq (c.field "action") (JsVal.str "uncheck")) then "await _cb.uncheck(\x7bforce:true\x7d);" else "if(await _cb.isChecked()) await _cb.uncheck(); else await _cb.check();")))
  | "radio-select" => do
      let t1 ← jsReplaceAll (JsVal.or (c.field "value") (JsVal.str "")) '"' "\\\""
      pure ("console.log('🔘 Radio select " ++ sel ++ "'); await this.page.locator('" ++ sel ++ "[value=\"" ++ t1 ++ "\"]').check();")
  | "select-dropdown" => do
      let t3 ← (if (c.field "byValue").truthy then (do let t1 ← jsReplaceAll (JsVal.or (c.field "value") (JsVal.str "")) (Char.ofNat 39) "\\'"; pure ("await this.page.locator('" ++ sel ++ "').selectOption(\x7b value: '" ++ t1 ++ "' \x7d);")) else (do let t2 ← jsReplaceAll (JsVal.or (c.field "value") (JsVal.str "")) (Char.ofNat 39) "\\'"; pure ("await this.page.locator('" ++ sel ++ "').selectOption(\x7b label: '" ++ t2 ++ "' \x7d);")))
      pure ("console.log('🧩 Select dropdown'); " ++ t3)
  | "screenshot" =>
      pure ("console.log('📸 Screenshot'); " ++ (if (c.field "selector").truthy then "await this.page.locator('" ++ sel ++ "').screenshot(\x7b path: resolveTemplate('" ++ (JsVal.or (c.field "fileName") (JsVal.str "screenshot.png")).toStr ++ "', this.vars) \x7d);" else "await this.page.screenshot(\x7b path: resolveTemplate('" ++ (JsVal.or (c.field "fileName") (JsVal.str "screenshot.png")).toStr ++ "', this.vars), fullPage: " ++ boolStr ((c.field "fullPage").truthy) ++ " \x7d);"))
  | "pdf-generate" =>
      pure ("console.log('🧾 PDF (Chromium only, headless)'); try \x7b await this.page.pdf(\x7b path: resolveTemplate('" ++ (JsVal.or (c.field "fileName") (JsVal.str "page.pdf")).toStr ++ "', this.vars), printBackground: true \x7d); \x7d catch (e) \x7b console.warn('page.pdf may require headless Chromium:', e.message); \x7d")
  | "download-trigger" =>
      pure ("console.log('⬇️ Trigger download'); const [download] = await Promise.all([ this.page.waitForEvent('download'), this.page.locator('" ++ sel ++ "').click() ]);")
  | "wait-download" =>
      pure ("console.log('⏳ Wait download'); /* Playwright captures download via events; ensure 'download-trigger' awaited above. */")
  | "download-verify" =>
      pure ("console.log('🔍 Verify download'); /* Use the Download object returned from trigger to save and check size when wiring steps together. */")
  | "file-rename" | "file-move" | "file-monitor" =>
      pure ("console.log('📁 File ops handled better in Node environment (use Puppeteer generator)');")
  | "extract-images" =>
      pure ("console.log('🖼️ Extract images'); this.vars['" ++ (JsVal.or (c.field "saveAs") (JsVal.str "images")).toStr ++ "'] = await this.page.$$eval('" ++ (JsVal.or (c.field "selector") (JsVal.str "img")).toStr ++ "', (els, attr) => els.map(e => attr==='alt' ? (e.getAttribute('alt')||'') : (e.getAttribute(attr)||'')).filter(Boolean), '" ++ (JsVal.or (c.field "attribute") (JsVal.str "src")).toStr ++ "');")
  | "extract-table" =>
      pure ("console.log('📊 Extract table'); this.vars['" ++ (JsVal.or (c.field "saveAs") (JsVal.str "tableData")).toStr ++ "'] = await this.page.$eval('" ++ (JsVal.or (c.field "selector") (JsVal.str "table")).toStr ++ "', (t, includeHeaders) => \x7b const rows=[...t.querySelectorAll('tr')].map(r=>[...r.children].map(c=>c.textContent.trim())); return includeHeaders?rows:rows.slice(1); \x7d, " ++ boolStr (!JsVal.strictEq (c.field "includeHeaders") (JsVal.bool false)) ++ ");")
  | "extract-links" =>
      pure ("console.log('🔗 Extract links'); this.vars['" ++ (JsVal.or (c.field "saveAs") (JsVal.str "links")).toStr ++ "'] = await this.page.$$eval('" ++ (JsVal.or (c.field "selector") (JsVal.str "a")).toStr ++ "', (els,attr)=>els.map(a=>attr==='text'?(a.textContent||'').trim():a.getAttribute(attr)).filter(Boolean), '" ++ (JsVal.or (c.field "attribute") (JsVal.str "href")).toStr ++ "');")
  | "javascript" => do
      let t1 ← jsReplaceAll (JsVal.or (c.field "code") (JsVal.str "")) (Char.ofNat 96) "\\`"
      pure ("console.log('🧩 Run JS'); this.vars['" ++ (JsVal.or (c.field "saveAs") (JsVal.str "jsResult")).toStr ++ "'] = await this.page.evaluate((code)=> (0,eval)(code), `" ++ t1 ++ "`);")
  | "api-call" => do
      let t2 ← (if (c.field "body").truthy then (do let t1 ← jsReplaceAll (JsVal.or (c.field "body") (JsVal.str "")) (Char.ofNat 96) "\\`"; pure ("body: resolveTemplate(`" ++ t1 ++ "`, this.vars)")) else pure (""))
      pure ("console.log('🌐 API " ++ (JsVal.or (c.field "method") (JsVal.str "GET")).toStr ++ "'); \x7b const res = await fetch('" ++ (c.field "url").toStr ++ "', \x7b method: '" ++ (JsVal.or (c.field "method") (JsVal.str "GET")).toStr ++ "', headers: " ++ (if (c.field "headers").truthy then jsonStringify (c.field "headers") else JsVal.str "\x7b\x7d").toStr ++ ", " ++ t2 ++ " \x7d); const txt = await res.text(); try \x7b this.vars['" ++ (JsVal.or (c.field "saveAs") (JsVal.str "apiResponse")).toStr ++ "'] = JSON.parse(txt); \x7d catch \x7b this.vars['" ++ (JsVal.or (c.field "saveAs") (JsVal.str "apiResponse")).toStr ++ "'] = txt; \x7d \x7d")
  | "send-email" | "email" =>
      pure ("console.log('✉️ Email placeholder (use server-side)');")
  | "variable-set" => do
      let t1 ← jsReplaceAll (JsVal.nullish (c.field "value") (JsVal.str "")) (Char.ofNat 96) "\\`"
      pure ("console.log('📦 Set var'); this.vars['" ++ (c.field "name").toStr ++ "'] = resolveTemplate(`" ++ t1 ++ "`, this.vars);")
  | "variable-get" =>
      pure ("console.log('📤 Get var'); this.vars['" ++ (JsVal.or (c.field "saveAs") (c.field "name")).toStr ++ "'] = this.vars['" ++ (c.field "name").toStr ++ "'] ?? " ++ (jsonStringify (JsVal.nullish (c.field "defaultValue") (JsVal.str ""))).toStr ++ ";")
  | "send-notification" =>
      pure ("console.log('🔔 Notification [" ++ (JsVal.or (c.field "type") (JsVal.str "info")).toStr ++ "] " ++ (JsVal.or (c.field "title") (JsVal.str "")).toStr ++ ": " ++ (JsVal.or (c.field "message") (JsVal.str "")).toStr ++ "');")
  | "condition" | "loop" | "try-catch" =>
      pure ("console.log('ℹ️ Control-flow placeholder (branching/grouping requires custom wiring)');")
  | _ =>
      pure ("console.log('⚠️ Unsupported step type \"" ++ step.type ++ "\"');")

/-- Puppeteer script text up to the generation timestamp. -/
def puppeteerHeader : String :=
  "const puppeteer = require('puppeteer');\n" ++
  "const path = require('path');\n" ++
  "const fs = require('fs');\n" ++
  "\n" ++
  "// 🚀 Auto-generated Web Automation Script (Puppeteer)\n" ++
  "// Generated on: "

/-- Puppeteer script text between the emitted helpers and the step section. -/
def puppeteerRunner : String :=
  "\n" ++
  "\n" ++
  "class AutomationRunner \x7b\n" ++
  "  constructor() \x7b\n" ++
  "    this.browser = null;\n" ++
  "    this.page = null;\n" ++
  "    this.downloadPath = path.resolve('./downloads');\n" ++
  "    this.vars = \x7b\x7d; // variable store for variable-set/get, extractors, api-call etc.\n" ++
  "  \x7d\n" ++
  "\n" ++
  "  async initialize() \x7b\n" ++
  "    console.log('🚀 Starting automation...');\n" ++
  "    this.browser = await puppeteer.launch(\x7b\n" ++
  "      headless: false,\n" ++
  "      defaultViewport: \x7b width: 1280, height: 800 \x7d,\n" ++
  "      args: ['--no-sandbox', '--disable-setuid-sandbox']\n" ++
  "    \x7d);\n" ++
  "    this.page = await this.browser.newPage();\n" ++
  "    await this.page.setDefaultTimeout(30000);\n" ++
  "\n" ++
  "    // Enable downloads\n" ++
  "    try \x7b\n" ++
  "      const client = await this.page.target().createCDPSession();\n" ++
  "      await client.send('Page.setDownloadBehavior', \x7b\n" ++
  "        behavior: 'allow',\n" ++
  "        downloadPath: this.downloadPath\n" ++
  "      \x7d);\n" ++
  "    \x7d catch (e) \x7b\n" ++
  "      console.warn('Download behavior setup failed (non-Chromium builds may ignore):', e.message);\n" ++
  "    \x7d\n" ++
  "  \x7d\n" ++
  "\n" ++
  "  // ---- helpers ----\n" ++
  "  async q$(selector, type='css') \x7b\n" ++
  "    if (type === 'xpath') \x7b\n" ++
  "      const els = await this.page.$x(selector);\n" ++
  "      return els[0] || null;\n" ++
  "    \x7d\n" ++
  "    return await this.page.$(selector);\n" ++
  "  \x7d\n" ++
  "  async waitFor(selector, condition='visible', timeout=30000) \x7b\n" ++
  "    switch (condition) \x7b\n" ++
  "      case 'visible':\n" ++
  "        return this.page.waitForSelector(selector, \x7b visible: true, timeout \x7d);\n" ++
  "      case 'present':\n" ++
  "        return this.page.waitForSelector(selector, \x7b timeout \x7d);\n" ++
  "      case 'clickable':\n" ++
  "        // Approximate: visible + not disabled\n" ++
  "        return this.page.waitForFunction((sel) => \x7b\n" ++
  "          const el = document.querySelector(sel);\n" ++
  "          if (!el) return false;\n" ++
  "          const style = getComputedStyle(el);\n" ++
  "          const visible = style && style.visibility !== 'hidden' && style.display !== 'none';\n" ++
  "          return visible && !el.disabled;\n" ++
  "        \x7d, \x7b timeout \x7d, selector);\n" ++
  "      case 'enabled':\n" ++
  "        return this.page.waitForFunction((sel) => \x7b\n" ++
  "          const el = document.querySelector(sel);\n" ++
  "          return !!(el && !el.disabled);\n" ++
  "        \x7d, \x7b timeout \x7d, selector);\n" ++
  "      case 'selected':\n" ++
  "        return this.page.waitForFunction((sel) => \x7b\n" ++
  "          const el = document.querySelector(sel);\n" ++
  "          return !!(el && el.selected);\n" ++
  "        \x7d, \x7b timeout \x7d, selector);\n" ++
  "      case 'invisible':\n" ++
  "        return this.page.waitForSelector(selector, \x7b hidden: true, timeout \x7d);\n" ++
  "      default:\n" ++
  "        return this.page.waitForSelector(selector, \x7b timeout \x7d);\n" ++
  "    \x7d\n" ++
  "  \x7d\n" ++
  "  async waitForText(selector, expected, \x7b exact=false, timeout=30000 \x7d=\x7b\x7d) \x7b\n" ++
  "    await this.page.waitForFunction((sel, text, exact) => \x7b\n" ++
  "      const el = document.querySelector(sel);\n" ++
  "      if (!el) return false;\n" ++
  "      const t = (el.textContent || '').trim();\n" ++
  "      return exact ? t === text : t.includes(text);\n" ++
  "    \x7d, \x7b timeout \x7d, selector, expected, exact);\n" ++
  "  \x7d\n" ++
  "  async waitForDisappear(selector, timeout=30000) \x7b\n" ++
  "    await this.page.waitForFunction((sel) => !document.querySelector(sel), \x7b timeout \x7d, selector);\n" ++
  "  \x7d\n" ++
  "  async waitForDownload(expectedName='', timeout=30000, exact=false) \x7b\n" ++
  "    const start = Date.now();\n" ++
  "    while (Date.now() - start < timeout) \x7b\n" ++
  "      try \x7b\n" ++
  "        const files = fs.readdirSync(this.downloadPath);\n" ++
  "        const match = files.find(f => exact ? f === expectedName : (expectedName ? f.includes(expectedName) : true));\n" ++
  "        if (match) \x7b\n" ++
  "          console.log('📥 Download detected:', match);\n" ++
  "          return match;\n" ++
  "        \x7d\n" ++
  "      \x7d catch \x7b\x7d\n" ++
  "      await new Promise(r => setTimeout(r, 500));\n" ++
  "    \x7d\n" ++
  "    throw new Error('Download timeout');\n" ++
  "  \x7d\n" ++
  "\n" ++
  "  async runWorkflow() \x7b\n" ++
  "    try \x7b\n" ++
  "      await this.initialize();\n" ++
  "\n"

/-- Puppeteer script text after the step section. -/
def puppeteerFooter : String :=
  "\n" ++
  "\n" ++
  "      console.log('✅ Automation completed successfully!');\n" ++
  "    \x7d catch (error) \x7b\n" ++
  "      console.error('❌ Automation failed:', error);\n" ++
  "      try \x7b await this.page.screenshot(\x7b path: 'error-screenshot.png', fullPage: true \x7d); \x7d catch \x7b\x7d\n" ++
  "    \x7d finally \x7b\n" ++
  "      if (this.browser) await this.browser.close();\n" ++
  "    \x7d\n" ++
  "  \x7d\n" ++
  "\x7d\n" ++
  "\n" ++
  "// Run\n" ++
  "(async () => \x7b\n" ++
  "  const runner = new AutomationRunner();\n" ++
  "  await runner.runWorkflow();\n" ++
  "\x7d)();"

/-- The Puppeteer script template as a function of its holes: the generation timestamp, the number of steps and the step section. -/
def puppeteerScript (now : String) (totalSteps : Nat) (stepBlocks : String) : String :=
  puppeteerHeader ++ now ++ "\n" ++ "// Total Steps: " ++ toString totalSteps ++ "\n" ++ "\n" ++ jsDateHelper ++ puppeteerRunner ++ stepBlocks ++ puppeteerFooter

/-- Body of `generatePuppeteerCode`. -/
def generatePuppeteerCode (now : String) (workflow : List Step) : Except JsError String := do
  let stepBlocks ← joinBlocks (stepBlock "      // Step " "\n      " generatePuppeteerStepCode) workflow
  pure (puppeteerScript now workflow.length stepBlocks)

/-- Selenium script text up to the generation timestamp. -/
def seleniumHeader : String :=
  "from selenium import webdriver\n" ++
  "from selenium.webdriver.common.by import By\n" ++
  "from selenium.webdriver.support.ui import WebDriverWait, Select\n" ++
  "from selenium.webdriver.support import expected_conditions as EC\n" ++
  "from selenium.webdriver.chrome.options import Options\n" ++
  "import time, os, json, base64\n" ++
  "\n" ++
  "# 🐍 Auto-generated Selenium Python Script\n" ++
  "# Generated on: "

/-- Selenium script text between the timestamp and the step section, with the Python helpers `format_date` and `resolve_template`. -/
def seleniumRunner : String :=
  "\n" ++
  "\n" ++
  "def format_date(fmt, t=None):\n" ++
  "    import datetime\n" ++
  "    d = t or datetime.datetime.now()\n" ++
  "    m = \x7b\n" ++
  "        \"YYYY\": d.strftime(\"%Y\"),\n" ++
  "        \"MM\": d.strftime(\"%m\"),\n" ++
  "        \"DD\": d.strftime(\"%d\"),\n" ++
  "        \"hh\": d.strftime(\"%H\"),\n" ++
  "        \"mm\": d.strftime(\"%M\"),\n" ++
  "        \"ss\": d.strftime(\"%S\"),\n" ++
  "    \x7d\n" ++
  "    for k,v in m.items():\n" ++
  "        fmt = fmt.replace(k,v)\n" ++
  "    return fmt\n" ++
  "\n" ++
  "def resolve_template(s, vars):\n" ++
  "    if not s: return \"\"\n" ++
  "    def repl_var(m): return str(vars.get(m.group(1), \"\"))\n" ++
  "    import re\n" ++
  "    s = re.sub(r\"\\\x7bvar:([^\x7d]+)\\\x7d\", repl_var, s)\n" ++
  "    def repl_date(m): \n" ++
  "        return format_date(m.group(1)) if m.group(1) else time.strftime(\"%Y-%m-%d\")\n" ++
  "    s = re.sub(r\"\\\x7bdate(?::([^\x7d]+))?\\\x7d\", repl_date, s)\n" ++
  "    s = s.replace(\"\x7btimestamp\x7d\", str(int(time.time()*1000)))\n" ++
  "    return s\n" ++
  "\n" ++
  "class AutomationRunner:\n" ++
  "    def __init__(self):\n" ++
  "        self.driver = None\n" ++
  "        self.wait = None\n" ++
  "        self.vars = \x7b\x7d\n" ++
  "        self.download_dir = os.path.abspath('./downloads')\n" ++
  "        \n" ++
  "    def setup_driver(self):\n" ++
  "        chrome_options = Options()\n" ++
  "        chrome_options.add_argument('--no-sandbox')\n" ++
  "        chrome_options.add_argument('--disable-dev-shm-usage')\n" ++
  "        prefs = \x7b\"download.default_directory\": self.download_dir, \"download.prompt_for_download\": False\x7d\n" ++
  "        chrome_options.add_experimental_option(\"prefs\", prefs)\n" ++
  "        self.driver = webdriver.Chrome(options=chrome_options)\n" ++
  "        self.driver.maximize_window()\n" ++
  "        self.wait = WebDriverWait(self.driver, 30)\n" ++
  "\n" ++
  "    def wait_download(self, expected=\"\", timeout=30, exact=False):\n" ++
  "        start = time.time()\n" ++
  "        while time.time()-start < timeout:\n" ++
  "            try:\n" ++
  "                for f in os.listdir(self.download_dir):\n" ++
  "                    if (exact and f==expected) or (not expected) or (not exact and expected in f):\n" ++
  "                        return f\n" ++
  "            except: pass\n" ++
  "            time.sleep(0.5)\n" ++
  "        raise Exception(\"Download timeout\")\n" ++
  "        \n" ++
  "    def run_automation(self):\n" ++
  "        try:\n" ++
  "            print(\"🚀 Starting Selenium automation...\")\n" ++
  "            self.setup_driver()\n" ++
  "\n"

/-- Selenium script text after the step section. -/
def seleniumFooter : String :=
  "\n" ++
  "\n" ++
  "            print(\"✅ Automation completed!\")\n" ++
  "        except Exception as e:\n" ++
  "            print(f\"❌ Error: \x7be\x7d\")\n" ++
  "            try: self.driver.save_screenshot('error-screenshot.png')\n" ++
  "            except: pass\n" ++
  "        finally:\n" ++
  "            if self.driver:\n" ++
  "                self.driver.quit()\n" ++
  "\n" ++
  "if __name__ == \"__main__\":\n" ++
  "    runner = AutomationRunner()\n" ++
  "    runner.run_automation()"

/-- The Selenium script template as a function of its holes: the generation timestamp and the step section. -/
def seleniumScript (now : String) (stepBlocks : String) : String :=
  seleniumHeader ++ now ++ seleniumRunner ++ stepBlocks ++ seleniumFooter

/-- Body of `generateSeleniumCode`. -/
def generateSeleniumCode (now : String) (workflow : List Step) : Except JsError String := do
  let stepBlocks ← joinBlocks (stepBlock "            # Step " "\n            " generateSeleniumStepCode) workflow
  pure (seleniumScript now stepBlocks)

/-- Playwright script text up to the generation timestamp. -/
def playwrightHeader : String :=
  "const \x7b chromium \x7d = require('playwright');\n" ++
  "\n" ++
  "// 🎭 Auto-generated Playwright Script\n" ++
  "// Generated on: "

/-- Playwright script text between the emitted helpers and the step section. -/
def playwrightRunner : String :=
  "\n" ++
  "\n" ++
  "class AutomationRunner \x7b\n" ++
  "  constructor() \x7b\n" ++
  "    this.browser = null;\n" ++
  "    this.page = null;\n" ++
  "    this.context = null;\n" ++
  "    this.vars = \x7b\x7d;\n" ++
  "  \x7d\n" ++
  "  async initialize() \x7b\n" ++
  "    console.log('🚀 Starting Playwright automation...');\n" ++
  "    this.browser = await chromium.launch(\x7b headless: false \x7d);\n" ++
  "    this.context = await this.browser.newContext(\x7b acceptDownloads: true, viewport: \x7b width: 1280, height: 800 \x7d \x7d);\n" ++
  "    this.page = await this.context.newPage();\n" ++
  "  \x7d\n" ++
  "  async runAutomation() \x7b\n" ++
  "    try \x7b\n" ++
  "      await this.initialize();\n" ++
  "\n"

/-- Playwright script text after the step section. -/
def playwrightFooter : String :=
  "\n" ++
  "\n" ++
  "      console.log('✅ Automation completed!');\n" ++
  "    \x7d catch (e) \x7b\n" ++
  "      console.error('❌ Error:', e);\n" ++
  "      try \x7b await this.page.screenshot(\x7b path: 'error-screenshot.png' \x7d); \x7d catch \x7b\x7d\n" ++
  "    \x7d finally \x7b\n" ++
  "      if (this.browser) await this.browser.close();\n" ++
  "    \x7d\n" ++
  "  \x7d\n" ++
  "\x7d\n" ++
  "(async () => \x7b\n" ++
  "  const runner = new AutomationRunner();\n" ++
  "  await runner.runAutomation();\n" ++
  "\x7d)();"

/-- The Playwright script template as a function of its holes: the generation timestamp and the step section. -/
def playwrightScript (now : String) (stepBlocks : String) : String :=
  playwrightHeader ++ now ++ "\n" ++ "\n" ++ jsDateHelper ++ playwrightRunner ++ stepBlocks ++ playwrightFooter

/-- Body of `generatePlaywrightCode`. -/
def generatePlaywrightCode (now : String) (workflow : List Step) : Except JsError String := do
  let stepBlocks ← joinBlocks (stepBlock "      // Step " "\n      " generatePlaywrightStepCode) workflow
  pure (playwrightScript now stepBlocks)

/-- Dispatch of `generateCode` on the target name. -/
def generateCode (now : String) (workflow : List Step) (type : String) : Except JsError String :=
  match type with
  | "puppeteer" => generatePuppeteerCode now workflow
  | "selenium" => generateSeleniumCode now workflow
  | "playwright" => generatePlaywrightCode now workflow
  | _ => pure ""

end CodeModalV2

/-! ## Run-time helpers emitted into the scripts

`formatDate` and `resolveTemplate` are the JavaScript functions whose text is
`CodeModalV2.jsDateHelper`; `format_date` and `resolve_template` are the Python
functions in `CodeModalV2.seleniumRunner`.  One call reads the clock once. -/

/-- Readings of the clock of the machine that runs an emitted script. -/
structure Clock where
  /-- Local year, `getFullYear()` and `%Y`. -/
  year : Nat
  /-- Local month counted from 1, `getMonth()+1` and `%m`. -/
  month : Nat
  /-- Local day of the month, `getDate()` and `%d`. -/
  day : Nat
  /-- Local hour, `getHours()` and `%H`. -/
  hours : Nat
  /-- Local minute, `getMinutes()` and `%M`. -/
  minutes : Nat
  /-- Local second, `getSeconds()` and `%S`. -/
  seconds : Nat
  /-- UTC date, `new Date().toISOString().slice(0,10)`. -/
  isoDate : String
  /-- Milliseconds since the epoch, `Date.now()` and `int(time.time()*1000)`. -/
  nowMs : Nat

/-- Remainder of `s` after the prefix `p`, if `s` starts with `p`. -/
def afterPrefix : List Char → List Char → Option (List Char)
  | [], s => some s
  | _ :: _, [] => none
  | p :: ps, c :: cs => if p = c then afterPrefix ps cs else none

/-- Left-to-right scan of a global replacement.  At a position outside a match
the matcher `m` is tried on the rest of the input; it yields the replacement
text and the length (at least 1) of the match.  `skip` counts the characters of
the current match that are still to be passed over. -/
def replaceScan (m : List Char → Option (List Char × Nat)) : Nat → List Char → List Char
  | _, [] => []
  | skip + 1, _ :: cs => replaceScan m skip cs
  | 0, c :: cs =>
    match m (c :: cs) with
    | some (rep, len) => rep ++ replaceScan m (len - 1) cs
    | none => c :: replaceScan m 0 cs

/-- Whether the matcher `m` matches at some position of `s`. -/
def hasMatch (m : List Char → Option (List Char × Nat)) (s : List Char) : Bool :=
  s.tails.any fun t => (m t).isSome

/-- The closing brace. -/
def rbrace : Char := Char.ofNat 125

/-- Capture of the regular expression `([^}]+)\}` at the start of `s`: the
longest run of characters other than the closing brace, which must be non-empty
and followed by a closing brace. -/
def braceRun (s : List Char) : Option (List Char) :=
  let run := s.takeWhile fun c => c != rbrace
  if run.isEmpty then none
  else if (s.drop run.length).head? = some rbrace then some run
  else none

/-- `String(n).padStart(2,'0')`. -/
def pad (n : Nat) : String :=
  if n < 10 then "0" ++ toString n else toString n

/-- Matcher of `/YYYY|MM|DD|hh|mm|ss/` with the replacement `map[m]` of `formatDate`. -/
def dateTokenMatch (d : Clock) (s : List Char) : Option (List Char × Nat) :=
  if (afterPrefix "YYYY".data s).isSome then some ((toString d.year).data, 4)
  else if (afterPrefix "MM".data s).isSome then some ((pad d.month).data, 2)
  else if (afterPrefix "DD".data s).isSome then some ((pad d.day).data, 2)
  else if (afterPrefix "hh".data s).isSome then some ((pad d.hours).data, 2)
  else if (afterPrefix "mm".data s).isSome then some ((pad d.minutes).data, 2)
  else if (afterPrefix "ss".data s).isSome then some ((pad d.seconds).data, 2)
  else none

/-- The emitted JavaScript function `formatDate(fmt)`. -/
def formatDate (d : Clock) (fmt : String) : String :=
  String.mk (replaceScan (dateTokenMatch d) 0 fmt.data)

/-- Methods every plain object inherits from `Object.prototype`. -/
def objectPrototypeMethods : List String :=
  ["__defineGetter__", "__defineSetter__", "hasOwnProperty", "__lookupGetter__",
   "__lookupSetter__", "isPrototypeOf", "propertyIsEnumerable", "toString", "valueOf",
   "toLocaleString"]

/-- Text of `String(({})[k])` for a property inherited from `Object.prototype`, as
V8 prints it; `none` when `Object.prototype` has no property `k`. -/
def inheritedText (k : String) : Option String :=
  if k = "constructor" then some "function Object() \x7b [native code] \x7d"
  else if k = "__proto__" then some "[object Object]"
  else if k ∈ objectPrototypeMethods then some ("function " ++ k ++ "() \x7b [native code] \x7d")
  else none

/-- Text inserted for `{var:k}`: `String(vars[k] ?? '')` on the plain object
`vars` with the own properties listed. -/
def varText (vars : List (String × JsVal)) (k : String) : String :=
  match JsVal.lookup vars k with
  | some v => (JsVal.nullish v (.str "")).toStr
  | none => (inheritedText k).getD ""

/-- Matcher of `/\{var:([^}]+)\}/` with its replacement. -/
def varMatch (vars : List (String × JsVal)) (s : List Char) : Option (List Char × Nat) :=
  match afterPrefix "\x7bvar:".data s with
  | none => none
  | some rest =>
    match braceRun rest with
    | none => none
    | some k => some ((varText vars (String.mk k)).data, 5 + k.length + 1)

/-- Matcher of `/\{date(?::([^}]+))?\}/` with its replacement. -/
def dateMatch (d : Clock) (s : List Char) : Option (List Char × Nat) :=
  match afterPrefix "\x7bdate".data s with
  | none => none
  | some rest =>
    match rest with
    | [] => none
    | c :: r =>
      if c = ':' then
        match braceRun r with
        | none => none
        | some f => some ((formatDate d (String.mk f)).data, 5 + 1 + f.length + 1)
      else if c = rbrace then some (d.isoDate.data, 6)
      else none

/-- Matcher of `/\{timestamp\}/` with its replacement. -/
def timestampMatch (d : Clock) (s : List Char) : Option (List Char × Nat) :=
  if (afterPrefix "\x7btimestamp\x7d".data s).isSome then some ((toString d.nowMs).data, 11)
  else none

/-- The emitted JavaScript function `resolveTemplate(str, vars)`. -/
def resolveTemplate (d : Clock) (str : String) (vars : List (String × JsVal)) : String :=
  if str = "" then ""
  else
    let s1 := replaceScan (varMatch vars) 0 str.data
    let s2 := replaceScan (dateMatch d) 0 s1
    let s3 := replaceScan (timestampMatch d) 0 s2
    String.mk s3

/-- Python values held in the variable store of a Selenium script; `other`
carries the text `str()` returns for a value of any other type. -/
inductive PyVal where
  | str (s : String)
  | int (n : Int)
  | bool (b : Bool)
  | none
  | other (text : String)

/-- Python `str(v)`. -/
def PyVal.toStr : PyVal → String
  | .str s => s
  | .int n => toString n
  | .bool b => if b then "True" else "False"
  | .none => "None"
  | .other text => text

/-- Lookup in a Python dictionary given by its items. -/
def pyLookup : List (String × PyVal) → String → Option PyVal
  | [], _ => none
  | (k, v) :: rest, key => if k = key then some v else pyLookup rest key

/-- Python `s.replace(old, new)` for a non-empty `old`. -/
def pyReplace (s old new : List Char) : List Char :=
  replaceScan (fun t => if (afterPrefix old t).isSome then some (new, old.length) else none) 0 s

/-- The emitted Python function `format_date(fmt)`: one `replace` per token, in
the order of the dictionary `m`. -/
def format_date (d : Clock) (fmt : String) : String :=
  let s0 := fmt.data
  let s1 := pyReplace s0 "YYYY".data (toString d.year).data
  let s2 := pyReplace s1 "MM".data (pad d.month).data
  let s3 := pyReplace s2 "DD".data (pad d.day).data
  let s4 := pyReplace s3 "hh".data (pad d.hours).data
  let s5 := pyReplace s4 "mm".data (pad d.minutes).data
  let s6 := pyReplace s5 "ss".data (pad d.seconds).data
  String.mk s6

/-- Matcher of `r"\{var:([^}]+)\}"` with the replacement `repl_var`. -/
def pyVarMatch (vars : List (String × PyVal)) (s : List Char) : Option (List Char × Nat) :=
  match afterPrefix "\x7bvar:".data s with
  | none => none
  | some rest =>
    match braceRun rest with
    | none => none
    | some k =>
      some ((((pyLookup vars (String.mk k)).map PyVal.toStr).getD "").data, 5 + k.length + 1)

/-- Matcher of `r"\{date(?::([^}]+))?\}"` with the replacement `repl_date`;
`time.strftime("%Y-%m-%d")` is the local date. -/
def pyDateMatch (d : Clock) (s : List Char) : Option (List Char × Nat) :=
  match afterPrefix "\x7bdate".data s with
  | none => none
  | some rest =>
    match rest with
    | [] => none
    | c :: r =>
      if c = ':' then
        match braceRun r with
        | none => none
        | some f => some ((format_date d (String.mk f)).data, 5 + 1 + f.length + 1)
      else if c = rbrace then
        some ((toString d.year ++ "-" ++ pad d.month ++ "-" ++ pad d.day).data, 6)
      else none

/-- The emitted Python function `resolve_template(s, vars)`. -/
def resolve_template (d : Clock) (s : String) (vars : List (String × PyVal)) : String :=
  if s = "" then ""
  else
    let s1 := replaceScan (pyVarMatch vars) 0 s.data
    let s2 := replaceScan (pyDateMatch d) 0 s1
    let s3 := pyReplace s2 "\x7btimestamp\x7d".data (toString d.nowMs).data
    String.mk s3

/-! ## Definitions used to state the properties -/

deriving instance DecidableEq for Except

/-- A step with the given type, display name, configuration and enabled flag. -/
def mkStep (type name : String) (config : JsVal) (enabled : Bool) : Step :=
  { id := "step", type := type, name := .str name, icon := .str "", config := config, enabled := enabled,
    order := 0, createdAt := "", updatedAt := "" }

/-- The step `addStep(type)` creates from the template of `type`: the name, icon
and default configuration of the template, enabled. -/
def defaultStep (type : String) : Option Step :=
  (actionTemplates.lookup type).map fun t =>
    { id := "step", type := type, name := .str t.name, icon := .str t.icon, config := t.config,
      enabled := true, order := 0, createdAt := "", updatedAt := "" }

/-- A navigate step for `https://example.com` with the given enabled flag. -/
def exampleNavigate (enabled : Bool) : Step :=
  mkStep "navigate" "Navigate to URL"
    (.obj [("url", .str "https://example.com"), ("waitForLoad", .bool true), ("timeout", .num 30000)])
    enabled

/-- A click step with the given selector. -/
def clickStep (selector : String) : Step :=
  mkStep "click" "Click Element" (.obj [("selector", .str selector)]) true

/-- Number of double quotes in a text that are not escaped, that is, preceded by
an even number of consecutive backslashes; `n` is the number of backslashes
immediately before the text. -/
def countUnescapedQuotes : Nat → List Char → Nat
  | _, [] => 0
  | n, c :: cs =>
    if c = '\\' then countUnescapedQuotes (n + 1) cs
    else if c = '"' then (if n % 2 = 0 then 1 else 0) + countUnescapedQuotes 0 cs
    else countUnescapedQuotes 0 cs

/-- Number of unescaped double quotes of a text. -/
def unescapedQuotes (s : String) : Nat := countUnescapedQuotes 0 s.data

/-- Whether `needle` occurs in `hay`. -/
def containsText (needle hay : String) : Bool :=
  hay.data.tails.any fun t => needle.data.isPrefixOf t

/-- The texts `frags` are the fragments the emitter returns for the steps of
`workflow`, position by position. -/
def Fragments (emit : Step → Except JsError String) (workflow : List Step)
    (frags : List String) : Prop :=
  List.Forall₂ (fun step frag => emit step = .ok frag) workflow frags

/-- The blocks of a step section as the specification words them: the block at
position `i`, counted from `start`, is the comment `Step i+1: <step name>`
followed by the fragment of the step at that position. -/
def numberedBlocks (marker sep : String) : Nat → List Step → List String → List String
  | i, step :: steps, frag :: frags =>
    (marker ++ toString (i + 1) ++ ": " ++ step.name.toStr ++ sep ++ frag) ::
      numberedBlocks marker sep (i + 1) steps frags
  | _, _, _ => []

/-- The step section: the numbered blocks joined by one blank line. -/
def stepSection (marker sep : String) (workflow : List Step) (frags : List String) : String :=
  jsJoin "\n\n" (numberedBlocks marker sep 0 workflow frags)

/-- Text that `jsJoin sep` puts after the first item: every further item with
the separator before it. -/
def joinTail (sep : String) : List String → String
  | [] => ""
  | x :: rest => sep ++ x ++ joinTail sep rest

/-- The `case` labels of the switch of `generatePuppeteerStepCode` in `CodeModal_V2.jsx`. -/
def puppeteerCaseLabels : List String :=
  ["navigate", "new-tab", "refresh", "back", "forward", "wait-time", "wait-element",
   "wait-disappear", "wait-text", "wait-page-load", "click", "double-click", "right-click",
   "hover", "scroll", "type", "clear-type", "focus", "press-key", "upload-file",
   "check-checkbox", "radio-select", "select-dropdown", "screenshot", "pdf-generate",
   "download-trigger", "wait-download", "download-verify", "file-rename", "file-move",
   "file-monitor", "extract-images", "extract-table", "extract-links", "screenshot-element",
   "javascript", "api-call", "email", "send-email", "send-notification", "variable-set",
   "variable-get", "condition", "loop", "try-catch", "right-click-element"]

/-- The `case` labels of the switch of `generateSeleniumStepCode` in `CodeModal_V2.jsx`. -/
def seleniumCaseLabels : List String :=
  ["navigate", "refresh", "back", "forward", "wait-time", "wait-element", "wait-disappear",
   "wait-text", "click", "double-click", "right-click", "hover", "scroll", "type",
   "clear-type", "focus", "press-key", "upload-file", "check-checkbox", "radio-select",
   "select-dropdown", "screenshot", "pdf-generate", "download-trigger", "wait-download",
   "download-verify", "file-rename", "file-move", "file-monitor", "extract-images",
   "extract-table", "extract-links", "javascript", "api-call", "send-email", "email",
   "variable-set", "variable-get", "condition", "loop"]

/-- The `case` labels of the switch of `generatePlaywrightStepCode` in `CodeModal_V2.jsx`. -/
def playwrightCaseLabels : List String :=
  ["navigate", "new-tab", "refresh", "back", "forward", "wait-time", "wait-element",
   "wait-disappear", "wait-text", "wait-page-load", "click", "double-click", "right-click",
   "hover", "scroll", "type", "clear-type", "focus", "press-key", "upload-file",
   "check-checkbox", "radio-select", "select-dropdown", "screenshot", "pdf-generate",
   "download-trigger", "wait-download", "download-verify", "file-rename", "file-move",
   "file-monitor", "extract-images", "extract-table", "extract-links", "javascript",
   "api-call", "send-email", "email", "variable-set", "variable-get", "send-notification",
   "condition", "loop", "try-catch"]

/-- Whether the `selector` entry of a configuration can be escaped by the
emitters of `CodeModal_V2.jsx`: it is a string, or falsy and so replaced by `''`. -/
def selectorIsText (config : JsVal) : Bool :=
  match (JsVal.or config (.obj [])).field "selector" with
  | .str _ => true
  | v => !v.truthy


/-- The selector text the emitters of `CodeModal_V2.jsx` escape: the `selector`
entry when it is a string, `''` when it is falsy. -/
def selectorText (config : JsVal) : String :=
  match (JsVal.or config (.obj [])).field "selector" with
  | .str s => s
  | _ => ""

/-- A step of a type no emitter knows, whose `selector` is the number 5. -/
def unknownTypeStep : Step :=
  mkStep "teleport" "Teleport" (.obj [("selector", .num 5)]) true

/-- The two-step workflow that navigates to `https://example.com` and then waits
2000 milliseconds. -/
def exampleWorkflow : List Step :=
  [mkStep "navigate" "Navigate to URL" (.obj [("url", .str "https://example.com")]) true,
   mkStep "wait-time" "Wait Fixed Time" (.obj [("duration", .num 2000)]) true]

/-! ### Definitions for the run-time resolver -/

/-- A clock reading used to evaluate the helpers: 7 March 2024, 09:05:02 local time. -/
def sampleClock : Clock :=
  { year := 2024, month := 3, day := 7, hours := 9, minutes := 5, seconds := 2,
    isoDate := "2024-03-07", nowMs := 1709802302000 }

/-- First pass of `resolveTemplate`: the replacement of variable references. -/
def varPass (vars : List (String × JsVal)) (s : List Char) : List Char :=
  replaceScan (varMatch vars) 0 s

/-- Second pass of `resolveTemplate`: the replacement of date references. -/
def datePass (d : Clock) (s : List Char) : List Char :=
  replaceScan (dateMatch d) 0 s

/-- Third pass of `resolveTemplate`: the replacement of the timestamp reference. -/
def timestampPass (d : Clock) (s : List Char) : List Char :=
  replaceScan (timestampMatch d) 0 s

/-- Whether a recognised placeholder starts the text `t`: a variable reference with
a non-empty name, the plain or the formatted date reference, or the timestamp
reference. -/
def placeholderAt (t : List Char) : Bool :=
  (match afterPrefix "\x7bvar:".data t with
    | some r => (braceRun r).isSome
    | none => false) ||
  (afterPrefix "\x7bdate\x7d".data t).isSome ||
  (match afterPrefix "\x7bdate:".data t with
    | some r => (braceRun r).isSome
    | none => false) ||
  (afterPrefix "\x7btimestamp\x7d".data t).isSome

/-- Whether a recognised placeholder occurs in `s`. -/
def hasPlaceholder (s : String) : Bool :=
  s.data.tails.any placeholderAt

/-- The readings of a clock are those of a date whose year has four digits. -/
def Clock.fourDigitYear (d : Clock) : Prop :=
  1000 ≤ d.year ∧ d.year ≤ 9999 ∧ 1 ≤ d.month ∧ d.month ≤ 12 ∧ 1 ≤ d.day ∧ d.day ≤ 31 ∧
    d.hours ≤ 23 ∧ d.minutes ≤ 59 ∧ d.seconds ≤ 59

/-- The text is `n` decimal digits. -/
def isDigits (n : Nat) (s : String) : Prop :=
  s.length = n ∧ ∀ c ∈ s.data, c.isDigit = true

/-- None of the six date tokens starts the text `t`. -/
def noTokenAt (t : List Char) : Prop :=
  (afterPrefix "YYYY".data t).isSome = false ∧ (afterPrefix "MM".data t).isSome = false ∧
    (afterPrefix "DD".data t).isSome = false ∧ (afterPrefix "hh".data t).isSome = false ∧
    (afterPrefix "mm".data t).isSome = false ∧ (afterPrefix "ss".data t).isSome = false

/-! ## The workflow store (`workflowStore.js`)

`nanoid()` and `new Date().toISOString()` are read from the environment; every
operation takes the values they return as arguments. -/

/-- State of the store: the workflow list and the id of the selected step,
`none` for `null`. -/
structure Store where
  workflow : List Step
  selectedStep : Option String

/-- Initial state of the store. -/
def Store.empty : Store := { workflow := [], selectedStep := none }

/-- Exception raised by a store operation. -/
inductive StoreError where
  /-- The statement `throw new Error(message)`. -/
  | thrown (message : String)

deriving instance DecidableEq for StoreError

/-- The properties `name`, `icon` and `config` of the value
`actionTemplates[actionType]`, `none` when that value is `undefined`.  The table
is an object literal, so the lookup also finds what `Object.prototype` provides:
the function `Object` under `constructor`, `Object.prototype` itself under
`__proto__`, and its methods, each a function whose `name` is its own name. -/
def templateFields (actionType : String) : Option (JsVal × JsVal × JsVal) :=
  match actionTemplates.lookup actionType with
  | some t => some (.str t.name, .str t.icon, t.config)
  | none =>
    if actionType = "constructor" then some (.str "Object", .undefined, .undefined)
    else if actionType = "__proto__" then some (.undefined, .undefined, .undefined)
    else if actionType ∈ objectPrototypeMethods then some (.str actionType, .undefined, .undefined)
    else none

/-- The spread `{ ...v }` of a template configuration: the own properties of a
mapping, no property for `undefined`. -/
def spreadConfig : JsVal → JsVal
  | .obj fields => .obj fields
  | _ => .obj []

/-- The operation `addStep(actionType)`: the step it returns and the new state.
`id` is the value of `nanoid()`, `created` and `updated` those of the two clock
readings. -/
def addStep (id created updated actionType : String) (st : Store) :
    Except StoreError (Step × Store) :=
  match templateFields actionType with
  | none => .error (.thrown ("Unknown action type: " ++ actionType))
  | some (name, icon, config) =>
    let newStep : Step :=
      { id := id, type := actionType, name := name, icon := icon, config := spreadConfig config,
        enabled := true, order := st.workflow.length, createdAt := created,
        updatedAt := updated }
    .ok (newStep, { workflow := st.workflow ++ [newStep], selectedStep := some newStep.id })

/-- The own properties of the argument `updates` of `updateStep`, `none` for a
property it does not have.  A property `updatedAt` is overwritten by the
operation and so left out. -/
structure StepUpdates where
  id : Option String
  type : Option String
  name : Option JsVal
  icon : Option JsVal
  config : Option JsVal
  enabled : Option Bool
  order : Option Int
  createdAt : Option String

/-- The argument `{ config: p }`. -/
def StepUpdates.ofConfig (p : JsVal) : StepUpdates :=
  { id := none, type := none, name := none, icon := none, config := some p, enabled := none,
    order := none, createdAt := none }

/-- The object `{ ...step, ...updates, updatedAt: now }`. -/
def Step.merge (step : Step) (updates : StepUpdates) (now : String) : Step :=
  { id := updates.id.getD step.id, type := updates.type.getD step.type,
    name := updates.name.getD step.name, icon := updates.icon.getD step.icon,
    config := updates.config.getD step.config, enabled := updates.enabled.getD step.enabled,
    order := updates.order.getD step.order, createdAt := updates.createdAt.getD step.createdAt,
    updatedAt := now }

/-- The operation `updateStep(stepId, updates)`. -/
def updateStep (stepId : String) (updates : StepUpdates) (now : String) (st : Store) : Store :=
  { workflow := st.workflow.map fun step => if step.id = stepId then step.merge updates now else step,
    selectedStep := st.selectedStep }

/-- The operation `removeStep(stepId)`. -/
def removeStep (stepId : String) (st : Store) : Store :=
  { workflow := st.workflow.filter fun step => step.id ≠ stepId,
    selectedStep := if st.selectedStep = some stepId then none else st.selectedStep }

/-- The operation `selectStep(stepId)`. -/
def selectStep (stepId : String) (st : Store) : Store :=
  let found := st.workflow.any fun step => step.id = stepId
  { workflow := st.workflow, selectedStep := if found then some stepId else none }

/-- The loop `newWorkflow.forEach((step, index) => ...)` of `reorderSteps`,
started at index `i`. -/
def renumber (now : String) : Nat → List Step → List Step
  | _, [] => []
  | i, step :: rest => { step with order := i, updatedAt := now } :: renumber now (i + 1) rest

/-- The operation `reorderSteps(oldIndex, newIndex)` on whole-number indices. -/
def reorderSteps (oldIndex newIndex : Int) (now : String) (st : Store) : Store :=
  if oldIndex < 0 ∨ newIndex < 0 ∨ oldIndex ≥ st.workflow.length ∨ newIndex ≥ st.workflow.length
  then st
  else
    match st.workflow.get? oldIndex.toNat with
    | none => st
    | some removed =>
      let without := st.workflow.eraseIdx oldIndex.toNat
      let newWorkflow := without.take newIndex.toNat ++ removed :: without.drop newIndex.toNat
      { workflow := renumber now 0 newWorkflow, selectedStep := st.selectedStep }

/-- The operation `toggleStep(stepId)`. -/
def toggleStep (stepId now : String) (st : Store) : Store :=
  { workflow := st.workflow.map fun step =>
      if step.id = stepId then { step with enabled := !step.enabled, updatedAt := now } else step,
    selectedStep := st.selectedStep }

/-- The operation `duplicateStep(stepId)`: the step it returns, `none` for
`null`, and the new state. -/
def duplicateStep (stepId id created updated : String) (st : Store) : Option Step × Store :=
  match st.workflow.find? fun s => s.id = stepId with
  | none => (none, st)
  | some step =>
    let duplicatedStep : Step :=
      { step with id := id, name := .str (step.name.toStr ++ " (Copy)"),
                  order := st.workflow.length, createdAt := created, updatedAt := updated }
    (some duplicatedStep,
      { workflow := st.workflow ++ [duplicatedStep], selectedStep := some duplicatedStep.id })

/-- The operation `clearWorkflow()`. -/
def clearWorkflow (_st : Store) : Store := { workflow := [], selectedStep := none }

/-- The operation `enableAllSteps()`. -/
def enableAllSteps (now : String) (st : Store) : Store :=
  { workflow := st.workflow.map fun step => { step with enabled := true, updatedAt := now },
    selectedStep := st.selectedStep }

/-- The operation `disableAllSteps()`. -/
def disableAllSteps (now : String) (st : Store) : Store :=
  { workflow := st.workflow.map fun step => { step with enabled := false, updatedAt := now },
    selectedStep := st.selectedStep }

/-! ### Validation -/

/-- The call `v.startsWith(p)` on a value that is neither `null` nor `undefined`. -/
def jsStartsWith (v : JsVal) (p : String) : Except JsError Bool :=
  match v with
  | .str s => .ok (p.data.isPrefixOf s.data)
  | _ => .error (.typeError "startsWith is not a function")

/-- The comparison `a < b`; a comparison with `NaN` is false. -/
def jsLt (a b : JsVal) : Except JsError Bool :=
  match a, b with
  | .str _, .str _ => .error (.unmodelled "comparison of two strings")
  | _, _ => do
    let x ← toNumber a
    let y ← toNumber b
    match x, y with
    | some m, some n => pure (decide (m < n))
    | _, _ => pure false

/-- The comparison `a > b`. -/
def jsGt (a b : JsVal) : Except JsError Bool :=
  match a, b with
  | .str _, .str _ => .error (.unmodelled "comparison of two strings")
  | _, _ => do
    let x ← toNumber a
    let y ← toNumber b
    match x, y with
    | some m, some n => pure (decide (m > n))
    | _, _ => pure false

/-- The comparison `a >= b`. -/
def jsGe (a b : JsVal) : Except JsError Bool :=
  match a, b with
  | .str _, .str _ => .error (.unmodelled "comparison of two strings")
  | _, _ => do
    let x ← toNumber a
    let y ← toNumber b
    match x, y with
    | some m, some n => pure (decide (m ≥ n))
    | _, _ => pure false

/-- The warning `validateWorkflow` pushes for a disabled step. -/
def disabledWarning (stepNum : Nat) (step : Step) : List String :=
  if !step.enabled then ["Step " ++ toString stepNum ++ ": \"" ++ step.name.toStr ++ "\" is disabled"]
  else []

/-- The `switch (step.type)` of `validateWorkflow` for the step number
`stepNum`: the errors and the warnings it pushes, in order. -/
def validateConfig (stepNum : Nat) (type : String) (config : JsVal) :
    Except JsError (List String × List String) :=
  let n := "Step " ++ toString stepNum
  match type with
  | "navigate" => do
    let url ← config.get "url"
    if !url.truthy then pure ([n ++ ": Navigation URL is required"], [])
    else
      let ok ← jsStartsWith url "http"
      if !ok then pure ([n ++ ": URL must start with http:// or https://"], [])
      else pure ([], [])
  | "click" | "double-click" | "hover" | "wait-element" | "wait-disappear" | "wait-clickable"
  | "extract-text" => do
    let selector ← config.get "selector"
    pure (if !selector.truthy then [n ++ ": Element selector is required"] else [], [])
  | "type" | "clear-type" => do
    let selector ← config.get "selector"
    let text ← config.get "text"
    pure (if !selector.truthy then [n ++ ": Element selector is required"] else [],
      if !text.truthy then [n ++ ": No text specified for typing"] else [])
  | "select-dropdown" => do
    let selector ← config.get "selector"
    let value ← config.get "value"
    pure (if !selector.truthy then [n ++ ": Element selector is required"] else [],
      if !value.truthy then [n ++ ": No value specified for selection"] else [])
  | "wait-time" => do
    let duration ← config.get "duration"
    let short ← (if !duration.truthy then pure true else jsLt duration (.num 100))
    let randomDelay ← config.get "randomDelay"
    let badDelay ← (if !randomDelay.truthy then pure false
      else jsGe (config.field "minDelay") (config.field "maxDelay"))
    pure ((if short then [n ++ ": Wait duration must be at least 100ms"] else []) ++
      (if badDelay then [n ++ ": Min delay must be less than max delay"] else []), [])
  | "wait-text" => do
    let selector ← config.get "selector"
    let missing := !selector.truthy || !(config.field "expectedText").truthy
    pure (if missing then [n ++ ": Both selector and expected text are required"] else [], [])
  | "download-verify" | "download-trigger" => do
    let downloadPath ← config.get "downloadPath"
    pure (if !downloadPath.truthy then [n ++ ": Download path is required"] else [], [])
  | "upload-file" => do
    let selector ← config.get "selector"
    let filePath ← config.get "filePath"
    pure ((if !selector.truthy then [n ++ ": File input selector is required"] else []) ++
      (if !filePath.truthy then [n ++ ": File path is required"] else []), [])
  | "condition" => do
    let selector ← config.get "selector"
    let missing := !selector.truthy && (config.field "type").strictEq (.str "elementExists")
    pure (if missing then [n ++ ": Condition selector is required"] else [], [])
  | "loop" => do
    let count ← config.get "count"
    let low ← (if !count.truthy then pure true else jsLt count (.num 1))
    let high ← jsGt count (config.field "maxIterations")
    pure (if low then [n ++ ": Loop count must be at least 1"] else [],
      if high then [n ++ ": Loop count exceeds max iterations"] else [])
  | "api-call" => do
    let url ← config.get "url"
    pure (if !url.truthy then [n ++ ": API URL is required"] else [], [])
  | "javascript" => do
    let code ← config.get "code"
    pure ([], if !code.truthy then [n ++ ": No JavaScript code specified"] else [])
  | _ => pure ([], [])

/-- Body of the callback of `workflow.forEach` in `validateWorkflow` for the step
at `index`: the errors and the warnings it pushes. -/
def validateStep (index : Nat) (step : Step) : Except JsError (List String × List String) := do
  let stepNum := index + 1
  let (errors, warnings) ← validateConfig stepNum step.type step.config
  pure (errors, disabledWarning stepNum step ++ warnings)

/-- The loop `workflow.forEach(...)` of `validateWorkflow`, started at `index`. -/
def validateSteps : Nat → List Step → Except JsError (List String × List String)
  | _, [] => pure ([], [])
  | index, step :: rest => do
    let (errors, warnings) ← validateStep index step
    let (moreErrors, moreWarnings) ← validateSteps (index + 1) rest
    pure (errors ++ moreErrors, warnings ++ moreWarnings)

/-- The object `validateWorkflow` returns; for the empty workflow it has no
`totalSteps` and no `enabledSteps`. -/
structure Validation where
  errors : List String
  warnings : List String
  isValid : Bool
  totalSteps : Option Nat
  enabledSteps : Option Nat

deriving instance DecidableEq for Validation

/-- The operation `validateWorkflow()`. -/
def validateWorkflow (st : Store) : Except JsError Validation :=
  if st.workflow.length = 0 then
    pure { errors := ["Workflow is empty"], warnings := [], isValid := false,
           totalSteps := none, enabledSteps := none }
  else do
    let (errors, warnings) ← validateSteps 0 st.workflow
    pure { errors := errors, warnings := warnings, isValid := errors.length == 0,
           totalSteps := some st.workflow.length,
           enabledSteps := some (st.workflow.filter fun s => s.enabled).length }

/-! ### Export and import -/

/-- The property `metadata` of an exported document: the counts, the generator
and the exporter. -/
structure ExportMetadata where
  totalSteps : Nat
  enabledSteps : Nat
  disabledSteps : Nat
  generator : String
  exportedBy : String

/-- The document `exportWorkflow` returns. -/
structure ExportDocument where
  name : String
  version : String
  createdAt : String
  steps : List Step
  metadata : ExportMetadata

/-- The operation `exportWorkflow()`; `now` is the clock reading.  The counts that
`...stats` writes over those of the literal are the same three numbers. -/
def exportWorkflow (now : String) (st : Store) : ExportDocument :=
  { name := "Automation Workflow", version := "1.0.0", createdAt := now, steps := st.workflow,
    metadata :=
      { totalSteps := st.workflow.length,
        enabledSteps := (st.workflow.filter fun s => s.enabled).length,
        disabledSteps := (st.workflow.filter fun s => !s.enabled).length,
        generator := "Web Automation Studio Pro", exportedBy := "User" } }

/-- A step as a JavaScript object. -/
def Step.toJs (s : Step) : JsVal :=
  .obj [("id", .str s.id), ("type", .str s.type), ("name", s.name), ("icon", s.icon),
    ("config", s.config), ("enabled", .bool s.enabled), ("order", .num s.order),
    ("createdAt", .str s.createdAt), ("updatedAt", .str s.updatedAt)]

/-- An exported document as a JavaScript object. -/
def ExportDocument.toJs (d : ExportDocument) : JsVal :=
  .obj [("name", .str d.name), ("version", .str d.version), ("createdAt", .str d.createdAt),
    ("steps", .arr (d.steps.map Step.toJs)),
    ("metadata", .obj [("totalSteps", .num d.metadata.totalSteps),
      ("enabledSteps", .num d.metadata.enabledSteps),
      ("disabledSteps", .num d.metadata.disabledSteps),
      ("generator", .str d.metadata.generator), ("exportedBy", .str d.metadata.exportedBy)])]

/-- The test `typeof v === 'object'`. -/
def typeofIsObject : JsVal → Bool
  | .obj _ => true
  | .arr _ => true
  | .null => true
  | _ => false

/-- The predicate of the first filter of `importWorkflow`,
`step.type && step.name && typeof step.config === 'object'`, as a truth value. -/
def importCandidate (step : JsVal) : Except JsError Bool := do
  let type ← step.get "type"
  if !type.truthy then pure false
  else if !(step.field "name").truthy then pure false
  else pure (typeofIsObject (step.field "config"))

/-- The call `steps.filter(...)` with the first predicate of `importWorkflow`. -/
def filterCandidates : List JsVal → Except JsError (List JsVal)
  | [] => pure []
  | step :: rest => do
    let keep ← importCandidate step
    let kept ← filterCandidates rest
    pure (if keep then step :: kept else kept)

/-- The test `actionTemplates[type]` of the second filter of `importWorkflow`; the
property key is the text of `type`. -/
def knownType (type : JsVal) : Bool :=
  (templateFields type.toStr).isSome

/-- The step the `map` of `importWorkflow` builds from the candidate at `index`,
with the id `id` and the clock reading `now`. -/
def importedStep (id now : String) (index : Nat) (step : JsVal) : Except JsError Step := do
  let type ← (match step.field "type" with
    | .str s => pure s
    | _ => .error (.unmodelled "a step type that is not a string"))
  let enabled ← (match step.field "enabled" with
    | .undefined => pure true
    | .bool b => pure b
    | _ => .error (.unmodelled "an enabled flag that is not a boolean"))
  let createdAt ← (match step.field "createdAt" with
    | .str s => pure (if s = "" then now else s)
    | v => if v.truthy then .error (.unmodelled "a creation time that is not a string")
      else pure now)
  pure { id := id, type := type, name := step.field "name", icon := step.field "icon",
         config := step.field "config", enabled := enabled, order := index,
         createdAt := createdAt, updatedAt := now }

/-- The candidates of known type, each with its index among the candidates,
converted to steps; `ids i` is the id of the candidate at index `i`. -/
def importSteps (ids : Nat → String) (now : String) : Nat → List JsVal → Except JsError (List Step)
  | _, [] => pure []
  | index, step :: rest =>
    if knownType (step.field "type") then do
      let s ← importedStep (ids index) now index step
      let more ← importSteps ids now (index + 1) rest
      pure (s :: more)
    else importSteps ids now (index + 1) rest

/-- What `importWorkflow` returns. -/
inductive ImportResult where
  /-- The object `{ success: true, imported, skipped }`. -/
  | success (imported skipped : Nat)
  /-- The object `{ success: false, error }`. -/
  | failure (error : String)

deriving instance DecidableEq for ImportResult

/-- The list `workflowData.steps || workflowData.workflow || []` and then the
two filters of `importWorkflow`: the text of the exception on the left when one
is raised inside the `try` block. -/
def importCandidates (workflowData : JsVal) : Except JsError (Nat × List JsVal) := do
  let steps ← workflowData.get "steps"
  let steps := steps.or ((workflowData.field "workflow").or (.arr []))
  match steps with
  | .arr items => do
    let candidates ← filterCandidates items
    pure (items.length, candidates)
  | _ => .error (.typeError "steps.filter is not a function")

/-- The operation `importWorkflow(workflowData)`: its result and the new state.
An exception in the `try` block gives the failure result and leaves the state;
the outer `error` stands for a document outside the embedding. -/
def importWorkflow (ids : Nat → String) (now : String) (workflowData : JsVal) (st : Store) :
    Except JsError (ImportResult × Store) :=
  match importCandidates workflowData with
  | .error (.typeError message) => pure (.failure message, st)
  | .error e => .error e
  | .ok (total, candidates) => do
    let validatedSteps ← importSteps ids now 0 candidates
    pure (.success validatedSteps.length (total - validatedSteps.length),
      { workflow := validatedSteps,
        selectedStep := validatedSteps.head?.map fun s => s.id })

/-! ### Reachable states -/

/-- A call of a store operation, with the values it reads from the environment. -/
inductive Op where
  | addStep (id created updated actionType : String)
  | updateStep (stepId : String) (updates : StepUpdates) (now : String)
  | removeStep (stepId : String)
  | selectStep (stepId : String)
  | reorderSteps (oldIndex newIndex : Int) (now : String)
  | toggleStep (stepId now : String)
  | duplicateStep (stepId id created updated : String)
  | clearWorkflow
  | enableAllSteps (now : String)
  | disableAllSteps (now : String)
  | importWorkflow (ids : Nat → String) (now : String) (workflowData : JsVal)

/-- State of the store after a call; `none` when an imported document is outside
the embedding.  A call of `addStep` that throws leaves the state as it is. -/
def Store.after (st : Store) : Op → Option Store
  | .addStep id created updated actionType =>
    match addStep id created updated actionType st with
    | .ok (_, st2) => some st2
    | .error (.thrown _) => some st
  | .updateStep stepId updates now => some (updateStep stepId updates now st)
  | .removeStep stepId => some (removeStep stepId st)
  | .selectStep stepId => some (selectStep stepId st)
  | .reorderSteps oldIndex newIndex now => some (reorderSteps oldIndex newIndex now st)
  | .toggleStep stepId now => some (toggleStep stepId now st)
  | .duplicateStep stepId id created updated => some (duplicateStep stepId id created updated st).2
  | .clearWorkflow => some (clearWorkflow st)
  | .enableAllSteps now => some (enableAllSteps now st)
  | .disableAllSteps now => some (disableAllSteps now st)
  | .importWorkflow ids now workflowData =>
    match importWorkflow ids now workflowData st with
    | .ok (_, st2) => some st2
    | .error _ => none

/-- State after a sequence of calls, from left to right. -/
def Store.afterAll (st : Store) : List Op → Option Store
  | [] => some st
  | op :: ops => (st.after op).bind fun st2 => st2.afterAll ops

/-- The states the store reaches from its initial state by calls that satisfy
`allowed`. -/
inductive Reachable (allowed : Op → Prop) : Store → Prop where
  | initial : Reachable allowed Store.empty
  | call (st st2 : Store) (op : Op) : Reachable allowed st → allowed op →
      st.after op = some st2 → Reachable allowed st2

/-- The calls of the order invariant: every operation but `selectStep`, with no
update of `order`. -/
def keepsOrder : Op → Prop
  | .selectStep _ => False
  | .updateStep _ updates _ => updates.order = none
  | _ => True

/-- The calls of the selection invariant: every operation, with no update of `id`. -/
def keepsId : Op → Prop
  | .updateStep _ updates _ => updates.id = none
  | _ => True

/-- The calls that build a workflow of named steps: `addStep` with a type other
than `__proto__`, `updateStep` with a mapping as the new configuration,
`toggleStep`, `duplicateStep`, `reorderSteps` and `removeStep`. -/
def buildsWorkflow : Op → Prop
  | .addStep _ _ _ actionType => actionType ≠ "__proto__"
  | .updateStep _ updates _ => ∃ fields, updates = StepUpdates.ofConfig (.obj fields)
  | .toggleStep _ _ => True
  | .duplicateStep _ _ _ _ => True
  | .reorderSteps _ _ _ => True
  | .removeStep _ => True
  | _ => False

/-- The step at list index `i` has `order = i`, for every index from `start` on. -/
def ordersFrom : Nat → List Step → Prop
  | _, [] => True
  | start, step :: rest => step.order = start ∧ ordersFrom (start + 1) rest

/-- The order invariant: the step at list index `i` has `order = i`. -/
def orderInvariant (st : Store) : Prop := ordersFrom 0 st.workflow

/-- The selection invariant: `selectedStep` is `null` or the id of a step of the
workflow. -/
def selectionInvariant (st : Store) : Prop :=
  match st.selectedStep with
  | none => True
  | some id => ∃ step ∈ st.workflow, step.id = id

/-- A step without its `order` and `updatedAt`. -/
def Step.content (s : Step) : String × String × JsVal × JsVal × JsVal × Bool × String :=
  (s.id, s.type, s.name, s.icon, s.config, s.enabled, s.createdAt)

/-! ### Example inputs of the store -/

/-- An id supply: the candidate at index `i` gets the id `id<i>`. -/
def sampleIds (i : Nat) : String := "id" ++ toString i

/-- A document whose one step has a type, a name and the configuration `null`. -/
def nullConfigDocument : JsVal :=
  .obj [("steps", .arr [.obj [("type", .str "navigate"), ("name", .str "Go"), ("config", .null)]])]

/-- A document whose one step has the type `constructor` and a list as configuration. -/
def inheritedTypeDocument : JsVal :=
  .obj [("steps", .arr [.obj [("type", .str "constructor"), ("name", .str "X"), ("config", .arr [])]])]

/-- A document with a step of unrecognised type, which has a name and a
configuration, before a well-formed click step. -/
def skippedFirstDocument : JsVal :=
  .obj [("steps", .arr [
    .obj [("type", .str "teleport"), ("name", .str "Teleport"), ("config", .obj [])],
    .obj [("type", .str "click"), ("name", .str "Click Element"),
      ("config", .obj [("selector", .str "#a")])]])]

/-- A store that holds one navigate step, which is selected. -/
def oneStepStore : Store := { workflow := [exampleNavigate true], selectedStep := some "step" }

/-- A navigate step with the given url, enabled or not. -/
def navigateStep (url : String) (enabled : Bool) : Step :=
  mkStep "navigate" "Navigate to URL" (.obj [("url", .str url)]) enabled

/-- The store that holds the given workflow, with no step selected. -/
def storeOf (workflow : List Step) : Store := { workflow := workflow, selectedStep := none }

/-- The workflow with every step enabled. -/
def allEnabled (workflow : List Step) : List Step :=
  workflow.map fun s => { s with enabled := true }

/-- A step `importWorkflow` accepts when it is exported: its type is found in
`actionTemplates`, its name is truthy, and `typeof` its configuration is
`'object'`. -/
def importable (s : Step) : Prop :=
  (templateFields s.type).isSome = true ∧ s.name.truthy = true ∧
    typeofIsObject s.config = true

/-- The steps `importWorkflow` builds from the exported steps `workflow`, the
first of which is the candidate at `index`. -/
def reimported (ids : Nat → String) (now : String) : Nat → List Step → List Step
  | _, [] => []
  | index, s :: rest =>
    { id := ids index, type := s.type, name := s.name, icon := s.icon, config := s.config,
      enabled := s.enabled, order := index,
      createdAt := if s.createdAt = "" then now else s.createdAt, updatedAt := now } ::
      reimported ids now (index + 1) rest

/-- A workflow built by `addStep('navigate')`, `addStep('click')`, and
`toggleStep` of the second step. -/
def builtOps : List Op :=
  [.addStep "a" "t0" "t0" "navigate", .addStep "b" "t1" "t1" "click", .toggleStep "b" "t2"]

/-- The state after the calls `builtOps`. -/
def builtStore : Store := (Store.empty.afterAll builtOps).getD Store.empty

/-- Whether an emitter has returned a non-empty text. -/
def returnsText : Except JsError String → Bool
  | .ok s => s != ""
  | .error _ => false

/-- A step of the given type with the given configuration. -/
def stepOf (type : String) (config : JsVal) : Step := mkStep type "" config true

/-- The text of a fragment after its first closing parenthesis, which ends the
argument of the log statement when the logged text has no parenthesis. -/
def afterLog (s : String) : String :=
  String.mk ((s.data.dropWhile fun c => c != ')').drop 1)

/-- The default configuration of a step type in `actionTemplates`, as its list of
properties. -/
def templateConfig (type : String) : List (String × JsVal) :=
  match actionTemplates.lookup type with
  | some t =>
    match t.config with
    | .obj fields => fields
    | _ => []
  | none => []

/-- A list of properties without the property `key`. -/
def withoutKey (key : String) (fields : List (String × JsVal)) : List (String × JsVal) :=
  fields.filter fun p => p.1 != key

/-- A list of properties in which the value of `key` is `v`. -/
def withValue (key : String) (v : JsVal) (fields : List (String × JsVal)) :
    List (String × JsVal) :=
  fields.map fun p => if p.1 = key then (p.1, v) else p
/-! ## Properties -/

/-! ### Disabled steps -/

/-- No generator reads the `enabled` flag of a step: a per-step emitter returns the
same result whatever the flag is. -/
theorem emit_enabled_irrelevant (s : Step) (b : Bool) :
    CodeModal.generateStepCode { s with enabled := b } = CodeModal.generateStepCode s ∧
    CodeModal.generateSeleniumStepCode { s with enabled := b } = CodeModal.generateSeleniumStepCode s ∧
    CodeModal.generatePlaywrightStepCode { s with enabled := b } = CodeModal.generatePlaywrightStepCode s ∧
    CodeModalV2.generatePuppeteerStepCode { s with enabled := b } = CodeModalV2.generatePuppeteerStepCode s ∧
    CodeModalV2.generateSeleniumStepCode { s with enabled := b } = CodeModalV2.generateSeleniumStepCode s ∧
    CodeModalV2.generatePlaywrightStepCode { s with enabled := b } = CodeModalV2.generatePlaywrightStepCode s :=
  ⟨rfl, rfl, rfl, rfl, rfl, rfl⟩

/-- C1, evaluated at a workflow whose only step is disabled: the Puppeteer
scripts of both generator modules contain the block of the disabled navigate step,
comment and fragment, as their step section, and for each of the three targets
the script is the one generated for the same step enabled. -/
theorem disabled_step_is_emitted (now : String) :
    CodeModal.generateCode now [exampleNavigate false] "puppeteer" =
      .ok (CodeModal.puppeteerScript now 1
        "      // Step 1: Navigate to URL\n      console.log('🌐 Navigating to: https://example.com');\n      await this.page.goto('https://example.com', \x7b waitUntil: 'networkidle2' \x7d);") ∧
    CodeModalV2.generateCode now [exampleNavigate false] "puppeteer" =
      .ok (CodeModalV2.puppeteerScript now 1
        "      // Step 1: Navigate to URL\n      console.log('🌐 Go to https://example.com');\n      await this.page.goto('https://example.com', \x7b waitUntil: 'networkidle2', timeout: 30000 \x7d);") ∧
    (∀ target, CodeModal.generateCode now [exampleNavigate false] target =
      CodeModal.generateCode now [exampleNavigate true] target) ∧
    (∀ target, CodeModalV2.generateCode now [exampleNavigate false] target =
      CodeModalV2.generateCode now [exampleNavigate true] target) := by
  have h1 : joinBlocks (stepBlock "      // Step " "\n      " CodeModal.generateStepCode)
      [exampleNavigate false] = .ok "      // Step 1: Navigate to URL\n      console.log('🌐 Navigating to: https://example.com');\n      await this.page.goto('https://example.com', \x7b waitUntil: 'networkidle2' \x7d);" := by
    decide!
  have h2 : joinBlocks (stepBlock "      // Step " "\n      " CodeModalV2.generatePuppeteerStepCode)
      [exampleNavigate false] = .ok "      // Step 1: Navigate to URL\n      console.log('🌐 Go to https://example.com');\n      await this.page.goto('https://example.com', \x7b waitUntil: 'networkidle2', timeout: 30000 \x7d);" := by
    decide!
  refine ⟨?_, ?_, fun _ => rfl, fun _ => rfl⟩
  · simp [CodeModal.generateCode, CodeModal.generatePuppeteerCode, h1]
  · simp [CodeModalV2.generateCode, CodeModalV2.generatePuppeteerCode, h2]

/-! ### Totality of the per-step emitters -/

/-- C2, evaluated at the default configuration of `press-key`
(`key: 'Enter', modifiers: []`): the Puppeteer emitter of `CodeModal_V2.jsx`
throws a `TypeError`, because the array `[]` is truthy and has no method
`split`, while the Selenium and Playwright emitters of the same module return
a fragment; with it `generateCode` throws for the workflow made of that one
step.  In `CodeModal.jsx` the Puppeteer emitter throws for a `wait-download`
step and the Selenium emitter for a `press-key` step when the configuration is
the empty mapping. -/
theorem press_key_default_throws :
    (defaultStep "press-key").map CodeModalV2.generatePuppeteerStepCode =
      some (.error (.typeError "split is not a function")) ∧
    (defaultStep "press-key").map CodeModalV2.generatePlaywrightStepCode =
      some (.ok "console.log('⌨️ Press Enter'); await this.page.keyboard.press('Enter');") ∧
    (defaultStep "press-key").map CodeModalV2.generateSeleniumStepCode =
      some (.ok "print(\"⌨️ Press Enter\")\n            from selenium.webdriver.common.keys import Keys\n            el = self.driver.switch_to.active_element\n            el.send_keys(Keys.ENTER)") ∧
    (defaultStep "press-key").map (fun s => CodeModalV2.generateCode "2025-01-01T00:00:00.000Z" [s] "puppeteer") =
      some (.error (.typeError "split is not a function")) ∧
    CodeModal.generateStepCode (mkStep "wait-download" "Wait for Download" (.obj []) true) =
      .error (.typeError "Cannot read properties of undefined (reading 'replace')") ∧
    CodeModal.generateSeleniumStepCode (mkStep "press-key" "Press Key" (.obj []) true) =
      .error (.typeError "Cannot read properties of undefined (reading 'toUpperCase')") := by
  refine ⟨?_, ?_, ?_, ?_, ?_, ?_⟩ <;> decide!

/-! ### Escaping of selectors -/

/-- C3, evaluated: for the selector `He said "hi"` the Selenium click fragment of
`CodeModal_V2.jsx` has the same four unescaped double quotes as for the empty
selector, but for the selector `a\"b` (a backslash before the quote) the quote
taken from the selector is preceded by two backslashes and the fragment has six
unescaped double quotes: the literal is closed inside the selector. -/
theorem selenium_click_backslash_quote :
    (CodeModalV2.generateSeleniumStepCode (clickStep "")).map unescapedQuotes = .ok 4 ∧
    (CodeModalV2.generateSeleniumStepCode (clickStep "He said \"hi\"")).map unescapedQuotes = .ok 4 ∧
    CodeModalV2.generateSeleniumStepCode (clickStep "a\\\"b") =
      .ok "print(\"🖱️ Click a\\\\\"b\")\n            el = self.wait.until(EC.element_to_be_clickable((By.CSS_SELECTOR, \"a\\\\\"b\")))\n            el.click()" ∧
    (CodeModalV2.generateSeleniumStepCode (clickStep "a\\\"b")).map unescapedQuotes = .ok 6 := by
  refine ⟨?_, ?_, ?_, ?_⟩ <;> decide!

/-- C4, evaluated at the selector `input[name='q']`: the Puppeteer and Playwright
click fragments of `CodeModal_V2.jsx` contain the selector unchanged inside
their single-quoted literals; no single quote is escaped. -/
theorem click_single_quote_not_escaped :
    CodeModalV2.generatePuppeteerStepCode (clickStep "input[name='q']") =
      .ok "console.log('🖱️ Click input[name='q']');\n      await this.page.waitForSelector('input[name='q']', \x7b timeout: 10000 \x7d);\n      \n      await this.page.click('input[name='q']');" ∧
    CodeModalV2.generatePlaywrightStepCode (clickStep "input[name='q']") =
      .ok "console.log('🖱️ Click input[name='q']');  await this.page.locator('input[name='q']').click();" := by
  refine ⟨?_, ?_⟩ <;> decide!

/-! ### Structure of the step section -/

theorem mapBlocks_stepBlock_ok (marker sep : String) (emit : Step → Except JsError String)
    (workflow : List Step) (i : Nat) (blocks : List String) :
    mapBlocks (stepBlock marker sep emit) i workflow = .ok blocks ↔
      ∃ frags, Fragments emit workflow frags ∧
        blocks = numberedBlocks marker sep i workflow frags := by
  induction workflow generalizing i blocks with
  | nil =>
    constructor
    · intro h
      refine ⟨[], List.Forall₂.nil, ?_⟩
      simp [mapBlocks, pure, Except.pure] at h
      simp [numberedBlocks, ← h]
    · rintro ⟨frags, hf, hb⟩
      cases hf
      simp [mapBlocks, pure, Except.pure, hb, numberedBlocks]
  | cons step rest ih =>
    constructor
    · intro h
      simp only [mapBlocks, stepBlock, bind, Except.bind, pure, Except.pure] at h
      cases he : emit step with
      | error e => simp [he] at h
      | ok frag =>
        simp only [he] at h
        cases hr : mapBlocks (stepBlock marker sep emit) (i + 1) rest with
        | error e => simp [hr] at h
        | ok bs =>
          simp only [hr] at h
          obtain ⟨frags, hf, hb⟩ := (ih (i + 1) bs).mp hr
          refine ⟨frag :: frags, List.Forall₂.cons he hf, ?_⟩
          injection h with h
          simp [numberedBlocks, ← h, hb]
    · rintro ⟨frags, hf, hb⟩
      cases hf with
      | cons he hrest =>
        rename_i frag frags
        have hr := (ih (i + 1) (numberedBlocks marker sep (i + 1) rest frags)).mpr ⟨frags, hrest, rfl⟩
        simp [mapBlocks, stepBlock, bind, Except.bind, pure, Except.pure, he, hr, hb, numberedBlocks]

theorem joinBlocks_stepBlock_ok (marker sep : String) (emit : Step → Except JsError String)
    (workflow : List Step) (section_ : String) :
    joinBlocks (stepBlock marker sep emit) workflow = .ok section_ ↔
      ∃ frags, Fragments emit workflow frags ∧ section_ = stepSection marker sep workflow frags := by
  unfold joinBlocks stepSection
  cases hm : mapBlocks (stepBlock marker sep emit) 0 workflow with
  | error e =>
    simp only [bind, Except.bind]
    constructor
    · intro h
      cases h
    · rintro ⟨frags, hf, -⟩
      have := (mapBlocks_stepBlock_ok marker sep emit workflow 0 _).mpr ⟨frags, hf, rfl⟩
      simp [hm] at this
  | ok bs =>
    obtain ⟨frags, hf, hb⟩ := (mapBlocks_stepBlock_ok marker sep emit workflow 0 bs).mp hm
    simp only [bind, Except.bind, pure, Except.pure]
    constructor
    · intro h
      injection h with h
      exact ⟨frags, hf, by rw [← h, hb]⟩
    · rintro ⟨frags2, hf2, hs⟩
      have h2 := (mapBlocks_stepBlock_ok marker sep emit workflow 0 _).mpr ⟨frags2, hf2, rfl⟩
      rw [hm] at h2
      injection h2 with h2
      rw [hs, h2]

theorem bind_pure_ok_iff {α : Type} (x : Except JsError α) (f : α → String) (script : String) :
    (x >>= fun a => pure (f a)) = Except.ok script ↔ ∃ a, x = .ok a ∧ script = f a := by
  cases x with
  | error e =>
    constructor
    · intro h
      cases h
    · rintro ⟨a, h, -⟩
      cases h
  | ok a =>
    constructor
    · intro h
      injection h with h
      exact ⟨a, rfl, h.symm⟩
    · rintro ⟨b, h, hs⟩
      injection h with h
      subst h
      rw [hs]
      rfl

theorem fragments_exists_iff (emit : Step → Except JsError String) (workflow : List Step) :
    (∃ frags, Fragments emit workflow frags) ↔ ∀ step ∈ workflow, ∃ frag, emit step = .ok frag := by
  induction workflow with
  | nil => simp [Fragments]
  | cons s rest ih =>
    constructor
    · rintro ⟨frags, hf⟩
      cases hf with
      | cons he hrest =>
        intro step hstep
        rcases List.mem_cons.mp hstep with h | h
        · subst h
          exact ⟨_, he⟩
        · exact ih.mp ⟨_, hrest⟩ step h
    · intro h
      obtain ⟨f, hf⟩ := h s (List.mem_cons_self _ _)
      obtain ⟨fs, hfs⟩ := ih.mpr fun step hstep => h step (List.mem_cons_of_mem _ hstep)
      exact ⟨f :: fs, List.Forall₂.cons hf hfs⟩

theorem fragments_append_left (emit : Step → Except JsError String) (a r : List Step)
    (frags : List String) (h : Fragments emit (a ++ r) frags) :
    ∃ fa fr, frags = fa ++ fr ∧ fa.length = a.length ∧ Fragments emit a fa ∧ Fragments emit r fr := by
  induction a generalizing frags with
  | nil => exact ⟨[], frags, rfl, rfl, List.Forall₂.nil, h⟩
  | cons s rest ih =>
    cases h with
    | cons he hrest =>
      obtain ⟨fa, fr, h1, h2, h3, h4⟩ := ih _ hrest
      exact ⟨_ :: fa, fr, by simp [h1], by simp [h2], List.Forall₂.cons he h3, h4⟩

theorem fragments_append (emit : Step → Except JsError String) (a r : List Step)
    (fa fr : List String) (ha : Fragments emit a fa) (hr : Fragments emit r fr) :
    Fragments emit (a ++ r) (fa ++ fr) := by
  induction ha with
  | nil => exact hr
  | cons he _ ih => exact List.Forall₂.cons he ih

theorem jsJoin_cons (sep x : String) (rest : List String) :
    jsJoin sep (x :: rest) = x ++ joinTail sep rest := by
  induction rest generalizing x with
  | nil => simp [jsJoin, joinTail]
  | cons y ys ih => simp [jsJoin, joinTail, ih, String.append_assoc]

theorem joinTail_append_cons (sep x : String) (l r : List String) :
    ∃ q, joinTail sep (l ++ x :: r) = q ++ x ++ joinTail sep r := by
  induction l with
  | nil => exact ⟨sep, by simp [joinTail]⟩
  | cons y ys ih =>
    obtain ⟨q, hq⟩ := ih
    exact ⟨sep ++ y ++ q, by simp [joinTail, hq, String.append_assoc]⟩

theorem jsJoin_append_cons (sep x : String) (l r : List String) :
    ∃ p, jsJoin sep (l ++ x :: r) = p ++ x ++ joinTail sep r := by
  cases l with
  | nil => exact ⟨"", by simp [jsJoin_cons]⟩
  | cons y ys =>
    obtain ⟨q, hq⟩ := joinTail_append_cons sep x ys r
    exact ⟨y ++ q, by simp [jsJoin_cons, hq, String.append_assoc]⟩

theorem numberedBlocks_append (marker sep : String) (a rest : List Step) (fa frest : List String)
    (i : Nat) (h : fa.length = a.length) :
    numberedBlocks marker sep i (a ++ rest) (fa ++ frest) =
      numberedBlocks marker sep i a fa ++ numberedBlocks marker sep (i + a.length) rest frest := by
  induction a generalizing fa i with
  | nil =>
    cases fa with
    | nil => simp [numberedBlocks]
    | cons _ _ => simp at h
  | cons s ss ih =>
    cases fa with
    | nil => simp at h
    | cons f fs =>
      have h' : fs.length = ss.length := by simpa using h
      simp [numberedBlocks, ih fs (i + 1) h', Nat.add_assoc, Nat.add_comm 1]

/-- Two steps in list order have their fragments in the same order in the step
section, and exchanging the two steps exchanges the two fragments. -/
theorem stepSection_order_swap (marker sep : String) (emit : Step → Except JsError String)
    (a b c : List Step) (s t : Step) (frags : List String)
    (h : Fragments emit (a ++ s :: (b ++ t :: c)) frags) :
    ∃ fa fs fb ft fc p q r,
      frags = fa ++ fs :: (fb ++ ft :: fc) ∧ fa.length = a.length ∧ fb.length = b.length ∧
      emit s = .ok fs ∧ emit t = .ok ft ∧
      stepSection marker sep (a ++ s :: (b ++ t :: c)) frags = p ++ fs ++ q ++ ft ++ r ∧
      Fragments emit (a ++ t :: (b ++ s :: c)) (fa ++ ft :: (fb ++ fs :: fc)) := by
  obtain ⟨fa, fr, h1, h2, h3, h4⟩ := fragments_append_left emit a _ frags h
  cases h4 with
  | cons hs h5 =>
    rename_i fs fr'
    obtain ⟨fb, fr2, h6, h7, h8, h9⟩ := fragments_append_left emit b _ fr' h5
    cases h9 with
    | cons ht h10 =>
      rename_i ft fc
      subst h6
      subst h1
      have hblocks : numberedBlocks marker sep 0 (a ++ s :: (b ++ t :: c)) (fa ++ fs :: (fb ++ ft :: fc)) =
          numberedBlocks marker sep 0 a fa ++
            (marker ++ toString (0 + a.length + 1) ++ ": " ++ s.name.toStr ++ sep ++ fs) ::
              (numberedBlocks marker sep (0 + a.length + 1) b fb ++
                (marker ++ toString (0 + a.length + 1 + b.length + 1) ++ ": " ++ t.name.toStr ++ sep ++ ft) ::
                  numberedBlocks marker sep (0 + a.length + 1 + b.length + 1) c fc) := by
        rw [numberedBlocks_append marker sep a _ fa _ 0 h2]
        simp only [numberedBlocks]
        rw [numberedBlocks_append marker sep b _ fb _ _ h7]
        simp only [numberedBlocks]
      obtain ⟨p, hp⟩ := jsJoin_append_cons "\n\n"
        (marker ++ toString (0 + a.length + 1) ++ ": " ++ s.name.toStr ++ sep ++ fs)
        (numberedBlocks marker sep 0 a fa)
        (numberedBlocks marker sep (0 + a.length + 1) b fb ++
          (marker ++ toString (0 + a.length + 1 + b.length + 1) ++ ": " ++ t.name.toStr ++ sep ++ ft) ::
            numberedBlocks marker sep (0 + a.length + 1 + b.length + 1) c fc)
      obtain ⟨q, hq⟩ := joinTail_append_cons "\n\n"
        (marker ++ toString (0 + a.length + 1 + b.length + 1) ++ ": " ++ t.name.toStr ++ sep ++ ft)
        (numberedBlocks marker sep (0 + a.length + 1) b fb)
        (numberedBlocks marker sep (0 + a.length + 1 + b.length + 1) c fc)
      refine ⟨fa, fs, fb, ft, fc,
        p ++ (marker ++ toString (0 + a.length + 1) ++ ": " ++ s.name.toStr ++ sep),
        q ++ (marker ++ toString (0 + a.length + 1 + b.length + 1) ++ ": " ++ t.name.toStr ++ sep),
        joinTail "\n\n" (numberedBlocks marker sep (0 + a.length + 1 + b.length + 1) c fc),
        rfl, h2, h7, hs, ht, ?_, ?_⟩
      · unfold stepSection
        rw [hblocks, hp, hq]
        simp only [String.append_assoc]
      · exact fragments_append emit a _ fa _ h3
          (List.Forall₂.cons ht (fragments_append emit b _ fb _ h8 (List.Forall₂.cons hs h10)))

theorem append_ne_empty_left (a b : String) (h : a ≠ "") : a ++ b ≠ "" := by
  intro hab
  apply h
  have hd : (a ++ b).data = [] := by rw [hab]
  rw [String.data_append] at hd
  exact String.ext (List.append_eq_nil.mp hd).1

theorem append_ne_empty_right (a b : String) (h : b ≠ "") : a ++ b ≠ "" := by
  intro hab
  apply h
  have hd : (a ++ b).data = [] := by rw [hab]
  rw [String.data_append] at hd
  exact String.ext (List.append_eq_nil.mp hd).2

/-- A generator whose scripts are a template around the step section returns
exactly when every step has a fragment, and its scripts are not empty. -/
theorem script_shape_of (emit : Step → Except JsError String) (marker sep : String)
    (gen : Except JsError String) (tmpl : String → String)
    (pre tryOpen handler post : String) (workflow : List Step)
    (hgen : ∀ script, gen = .ok script ↔
      ∃ frags, Fragments emit workflow frags ∧ script = tmpl (stepSection marker sep workflow frags))
    (htmpl : ∀ sec, tmpl sec = pre ++ tryOpen ++ sec ++ handler ++ post)
    (hne : tryOpen ≠ "") :
    ((∃ script, gen = .ok script) ↔ ∀ step ∈ workflow, ∃ frag, emit step = .ok frag) ∧
    ∀ script, gen = .ok script →
      script ≠ "" ∧ ∃ frags, Fragments emit workflow frags ∧
        script = pre ++ tryOpen ++ stepSection marker sep workflow frags ++ handler ++ post := by
  constructor
  · rw [← fragments_exists_iff]
    constructor
    · rintro ⟨script, h⟩
      obtain ⟨frags, hf, -⟩ := (hgen script).mp h
      exact ⟨frags, hf⟩
    · rintro ⟨frags, hf⟩
      exact ⟨_, (hgen _).mpr ⟨frags, hf, rfl⟩⟩
  · intro script h
    obtain ⟨frags, hf, hs⟩ := (hgen script).mp h
    rw [htmpl] at hs
    refine ⟨?_, frags, hf, hs⟩
    rw [hs]
    simp only [String.append_assoc]
    exact append_ne_empty_right _ _ (append_ne_empty_left _ _ hne)

/-! ### The six generators as maps over the step section -/

theorem codeModal_puppeteer_eq (now : String) (workflow : List Step) :
    CodeModal.generateCode now workflow "puppeteer" =
      (joinBlocks (stepBlock "      // Step " "\n      " CodeModal.generateStepCode) workflow).map
        fun sec => CodeModal.puppeteerScript now workflow.length sec := by
  simp only [CodeModal.generateCode, CodeModal.generatePuppeteerCode]
  cases joinBlocks (stepBlock "      // Step " "\n      " CodeModal.generateStepCode) workflow <;> rfl

theorem codeModal_puppeteer_ok_iff (now : String) (workflow : List Step) (script : String) :
    CodeModal.generateCode now workflow "puppeteer" = .ok script ↔
      ∃ frags, Fragments CodeModal.generateStepCode workflow frags ∧
        script = CodeModal.puppeteerScript now workflow.length (stepSection "      // Step " "\n      " workflow frags) := by
  simp only [CodeModal.generateCode, CodeModal.generatePuppeteerCode]
  rw [bind_pure_ok_iff]
  simp only [joinBlocks_stepBlock_ok]
  constructor
  · rintro ⟨sec, ⟨frags, hf, hs⟩, h⟩
    exact ⟨frags, hf, by rw [h, hs]⟩
  · rintro ⟨frags, hf, h⟩
    exact ⟨_, ⟨frags, hf, rfl⟩, h⟩

theorem codeModal_selenium_eq (now : String) (workflow : List Step) :
    CodeModal.generateCode now workflow "selenium" =
      (joinBlocks (stepBlock "            # Step " "\n            " CodeModal.generateSeleniumStepCode) workflow).map
        fun sec => CodeModal.seleniumScript now sec := by
  simp only [CodeModal.generateCode, CodeModal.generateSeleniumCode]
  cases joinBlocks (stepBlock "            # Step " "\n            " CodeModal.generateSeleniumStepCode) workflow <;> rfl

theorem codeModal_selenium_ok_iff (now : String) (workflow : List Step) (script : String) :
    CodeModal.generateCode now workflow "selenium" = .ok script ↔
      ∃ frags, Fragments CodeModal.generateSeleniumStepCode workflow frags ∧
        script = CodeModal.seleniumScript now (stepSection "            # Step " "\n            " workflow frags) := by
  simp only [CodeModal.generateCode, CodeModal.generateSeleniumCode]
  rw [bind_pure_ok_iff]
  simp only [joinBlocks_stepBlock_ok]
  constructor
  · rintro ⟨sec, ⟨frags, hf, hs⟩, h⟩
    exact ⟨frags, hf, by rw [h, hs]⟩
  · rintro ⟨frags, hf, h⟩
    exact ⟨_, ⟨frags, hf, rfl⟩, h⟩

theorem codeModal_playwright_eq (now : String) (workflow : List Step) :
    CodeModal.generateCode now workflow "playwright" =
      (joinBlocks (stepBlock "      // Step " "\n      " CodeModal.generatePlaywrightStepCode) workflow).map
        fun sec => CodeModal.playwrightScript now sec := by
  simp only [CodeModal.generateCode, CodeModal.generatePlaywrightCode]
  cases joinBlocks (stepBlock "      // Step " "\n      " CodeModal.generatePlaywrightStepCode) workflow <;> rfl

theorem codeModal_playwright_ok_iff (now : String) (workflow : List Step) (script : String) :
    CodeModal.generateCode now workflow "playwright" = .ok script ↔
      ∃ frags, Fragments CodeModal.generatePlaywrightStepCode workflow frags ∧
        script = CodeModal.playwrightScript now (stepSection "      // Step " "\n      " workflow frags) := by
  simp only [CodeModal.generateCode, CodeModal.generatePlaywrightCode]
  rw [bind_pure_ok_iff]
  simp only [joinBlocks_stepBlock_ok]
  constructor
  · rintro ⟨sec, ⟨frags, hf, hs⟩, h⟩
    exact ⟨frags, hf, by rw [h, hs]⟩
  · rintro ⟨frags, hf, h⟩
    exact ⟨_, ⟨frags, hf, rfl⟩, h⟩

theorem codeModalV2_puppeteer_eq (now : String) (workflow : List Step) :
    CodeModalV2.generateCode now workflow "puppeteer" =
      (joinBlocks (stepBlock "      // Step " "\n      " CodeModalV2.generatePuppeteerStepCode) workflow).map
        fun sec => CodeModalV2.puppeteerScript now workflow.length sec := by
  simp only [CodeModalV2.generateCode, CodeModalV2.generatePuppeteerCode]
  cases joinBlocks (stepBlock "      // Step " "\n      " CodeModalV2.generatePuppeteerStepCode) workflow <;> rfl

theorem codeModalV2_puppeteer_ok_iff (now : String) (workflow : List Step) (script : String) :
    CodeModalV2.generateCode now workflow "puppeteer" = .ok script ↔
      ∃ frags, Fragments CodeModalV2.generatePuppeteerStepCode workflow frags ∧
        script = CodeModalV2.puppeteerScript now workflow.length (stepSection "      // Step " "\n      " workflow frags) := by
  simp only [CodeModalV2.generateCode, CodeModalV2.generatePuppeteerCode]
  rw [bind_pure_ok_iff]
  simp only [joinBlocks_stepBlock_ok]
  constructor
  · rintro ⟨sec, ⟨frags, hf, hs⟩, h⟩
    exact ⟨frags, hf, by rw [h, hs]⟩
  · rintro ⟨frags, hf, h⟩
    exact ⟨_, ⟨frags, hf, rfl⟩, h⟩

theorem codeModalV2_selenium_eq (now : String) (workflow : List Step) :
    CodeModalV2.generateCode now workflow "selenium" =
      (joinBlocks (stepBlock "            # Step " "\n            " CodeModalV2.generateSeleniumStepCode) workflow).map
        fun sec => CodeModalV2.seleniumScript now sec := by
  simp only [CodeModalV2.generateCode, CodeModalV2.generateSeleniumCode]
  cases joinBlocks (stepBlock "            # Step " "\n            " CodeModalV2.generateSeleniumStepCode) workflow <;> rfl

theorem codeModalV2_selenium_ok_iff (now : String) (workflow : List Step) (script : String) :
    CodeModalV2.generateCode now workflow "selenium" = .ok script ↔
      ∃ frags, Fragments CodeModalV2.generateSeleniumStepCode workflow frags ∧
        script = CodeModalV2.seleniumScript now (stepSection "            # Step " "\n            " workflow frags) := by
  simp only [CodeModalV2.generateCode, CodeModalV2.generateSeleniumCode]
  rw [bind_pure_ok_iff]
  simp only [joinBlocks_stepBlock_ok]
  constructor
  · rintro ⟨sec, ⟨frags, hf, hs⟩, h⟩
    exact ⟨frags, hf, by rw [h, hs]⟩
  · rintro ⟨frags, hf, h⟩
    exact ⟨_, ⟨frags, hf, rfl⟩, h⟩

theorem codeModalV2_playwright_eq (now : String) (workflow : List Step) :
    CodeModalV2.generateCode now workflow "playwright" =
      (joinBlocks (stepBlock "      // Step " "\n      " CodeModalV2.generatePlaywrightStepCode) workflow).map
        fun sec => CodeModalV2.playwrightScript now sec := by
  simp only [CodeModalV2.generateCode, CodeModalV2.generatePlaywrightCode]
  cases joinBlocks (stepBlock "      // Step " "\n      " CodeModalV2.generatePlaywrightStepCode) workflow <;> rfl

theorem codeModalV2_playwright_ok_iff (now : String) (workflow : List Step) (script : String) :
    CodeModalV2.generateCode now workflow "playwright" = .ok script ↔
      ∃ frags, Fragments CodeModalV2.generatePlaywrightStepCode workflow frags ∧
        script = CodeModalV2.playwrightScript now (stepSection "      // Step " "\n      " workflow frags) := by
  simp only [CodeModalV2.generateCode, CodeModalV2.generatePlaywrightCode]
  rw [bind_pure_ok_iff]
  simp only [joinBlocks_stepBlock_ok]
  constructor
  · rintro ⟨sec, ⟨frags, hf, hs⟩, h⟩
    exact ⟨frags, hf, by rw [h, hs]⟩
  · rintro ⟨frags, hf, h⟩
    exact ⟨_, ⟨frags, hf, rfl⟩, h⟩

/-! ### Fixed text of the script templates -/

theorem codeModal_puppeteer_runner_try : ∃ p, CodeModal.puppeteerRunner = p ++
    ("    try \x7b\n" ++
     "      await this.initialize();\n" ++
     "      \n") :=
  ⟨String.mk (CodeModal.puppeteerRunner.data.take 750), by decide!⟩

theorem codeModal_puppeteer_footer_handler : ∃ q, CodeModal.puppeteerFooter =
    ("\n" ++
     "      \n" ++
     "      console.log('✅ Automation completed successfully!');\n" ++
     "      \n" ++
     "    \x7d catch (error) \x7b\n" ++
     "      console.error('❌ Automation failed:', error);\n" ++
     "      await this.page.screenshot(\x7b path: 'error-screenshot.png' \x7d);\n" ++
     "    \x7d finally \x7b\n" ++
     "      if (this.browser) \x7b\n" ++
     "        await this.browser.close();\n" ++
     "      \x7d\n" ++
     "    \x7d\n") ++ q :=
  ⟨String.mk (CodeModal.puppeteerFooter.data.drop 308), by decide!⟩

theorem codeModal_puppeteer_header_line : ∃ h, CodeModal.puppeteerHeader = h ++ "\n// Generated on: " :=
  ⟨String.mk (CodeModal.puppeteerHeader.data.take 123), by decide!⟩

theorem codeModal_selenium_runner_try : ∃ p, CodeModal.seleniumRunner = p ++
    ("        try:\n" ++
     "            print(\"🚀 Starting Selenium automation...\")\n" ++
     "            self.setup_driver()\n" ++
     "            \n") :=
  ⟨String.mk (CodeModal.seleniumRunner.data.take 1330), by decide!⟩

theorem codeModal_selenium_footer_handler : ∃ q, CodeModal.seleniumFooter =
    ("\n" ++
     "            \n" ++
     "            print(\"✅ Automation completed!\")\n" ++
     "            \n" ++
     "        except Exception as e:\n" ++
     "            print(f\"❌ Error: \x7be\x7d\")\n" ++
     "            self.driver.save_screenshot('error-screenshot.png')\n" ++
     "        finally:\n" ++
     "            if self.driver:\n" ++
     "                self.driver.quit()\n") ++ q :=
  ⟨String.mk (CodeModal.seleniumFooter.data.drop 282), by decide!⟩

theorem codeModal_selenium_header_line : ∃ h, CodeModal.seleniumHeader = h ++ "\n# Generated on: " :=
  ⟨String.mk (CodeModal.seleniumHeader.data.take 570), by decide!⟩

theorem codeModal_selenium_runner_newline : ∃ r, CodeModal.seleniumRunner = "\n" ++ r :=
  ⟨String.mk (CodeModal.seleniumRunner.data.drop 1), by decide!⟩

theorem codeModal_playwright_runner_try : ∃ p, CodeModal.playwrightRunner = p ++
    ("    try \x7b\n" ++
     "      await this.initialize();\n" ++
     "      \n") :=
  ⟨String.mk (CodeModal.playwrightRunner.data.take 389), by decide!⟩

theorem codeModal_playwright_footer_handler : ∃ q, CodeModal.playwrightFooter =
    ("\n" ++
     "      \n" ++
     "      console.log('✅ Automation completed!');\n" ++
     "      \n" ++
     "    \x7d catch (error) \x7b\n" ++
     "      console.error('❌ Error:', error);\n" ++
     "      await this.page.screenshot(\x7b path: 'error-screenshot.png' \x7d);\n" ++
     "    \x7d finally \x7b\n" ++
     "      if (this.browser) \x7b\n" ++
     "        await this.browser.close();\n" ++
     "      \x7d\n" ++
     "    \x7d\n") ++ q :=
  ⟨String.mk (CodeModal.playwrightFooter.data.drop 283), by decide!⟩

theorem codeModal_playwright_header_line : ∃ h, CodeModal.playwrightHeader = h ++ "\n// Generated on: " :=
  ⟨String.mk (CodeModal.playwrightHeader.data.take 82), by decide!⟩

theorem codeModal_playwright_runner_newline : ∃ r, CodeModal.playwrightRunner = "\n" ++ r :=
  ⟨String.mk (CodeModal.playwrightRunner.data.drop 1), by decide!⟩

theorem codeModalV2_puppeteer_runner_try : ∃ p, CodeModalV2.puppeteerRunner = p ++
    ("    try \x7b\n" ++
     "      await this.initialize();\n" ++
     "\n") :=
  ⟨String.mk (CodeModalV2.puppeteerRunner.data.take 3549), by decide!⟩

theorem codeModalV2_puppeteer_footer_handler : ∃ q, CodeModalV2.puppeteerFooter =
    ("\n" ++
     "\n" ++
     "      console.log('✅ Automation completed successfully!');\n" ++
     "    \x7d catch (error) \x7b\n" ++
     "      console.error('❌ Automation failed:', error);\n" ++
     "      try \x7b await this.page.screenshot(\x7b path: 'error-screenshot.png', fullPage: true \x7d); \x7d catch \x7b\x7d\n" ++
     "    \x7d finally \x7b\n" ++
     "      if (this.browser) await this.browser.close();\n" ++
     "    \x7d\n") ++ q :=
  ⟨String.mk (CodeModalV2.puppeteerFooter.data.drop 310), by decide!⟩

theorem codeModalV2_puppeteer_header_line : ∃ h, CodeModalV2.puppeteerHeader = h ++ "\n// Generated on: " :=
  ⟨String.mk (CodeModalV2.puppeteerHeader.data.take 150), by decide!⟩

theorem codeModalV2_selenium_runner_try : ∃ p, CodeModalV2.seleniumRunner = p ++
    ("        try:\n" ++
     "            print(\"🚀 Starting Selenium automation...\")\n" ++
     "            self.setup_driver()\n" ++
     "\n") :=
  ⟨String.mk (CodeModalV2.seleniumRunner.data.take 1953), by decide!⟩

theorem codeModalV2_selenium_footer_handler : ∃ q, CodeModalV2.seleniumFooter =
    ("\n" ++
     "\n" ++
     "            print(\"✅ Automation completed!\")\n" ++
     "        except Exception as e:\n" ++
     "            print(f\"❌ Error: \x7be\x7d\")\n" ++
     "            try: self.driver.save_screenshot('error-screenshot.png')\n" ++
     "            except: pass\n" ++
     "        finally:\n" ++
     "            if self.driver:\n" ++
     "                self.driver.quit()\n") ++ q :=
  ⟨String.mk (CodeModalV2.seleniumFooter.data.drop 287), by decide!⟩

theorem codeModalV2_selenium_header_line : ∃ h, CodeModalV2.seleniumHeader = h ++ "\n# Generated on: " :=
  ⟨String.mk (CodeModalV2.seleniumHeader.data.take 330), by decide!⟩

theorem codeModalV2_selenium_runner_newline : ∃ r, CodeModalV2.seleniumRunner = "\n" ++ r :=
  ⟨String.mk (CodeModalV2.seleniumRunner.data.drop 1), by decide!⟩

theorem codeModalV2_playwright_runner_try : ∃ p, CodeModalV2.playwrightRunner = p ++
    ("    try \x7b\n" ++
     "      await this.initialize();\n" ++
     "\n") :=
  ⟨String.mk (CodeModalV2.playwrightRunner.data.take 476), by decide!⟩

theorem codeModalV2_playwright_footer_handler : ∃ q, CodeModalV2.playwrightFooter =
    ("\n" ++
     "\n" ++
     "      console.log('✅ Automation completed!');\n" ++
     "    \x7d catch (e) \x7b\n" ++
     "      console.error('❌ Error:', e);\n" ++
     "      try \x7b await this.page.screenshot(\x7b path: 'error-screenshot.png' \x7d); \x7d catch \x7b\x7d\n" ++
     "    \x7d finally \x7b\n" ++
     "      if (this.browser) await this.browser.close();\n" ++
     "    \x7d\n") ++ q :=
  ⟨String.mk (CodeModalV2.playwrightFooter.data.drop 261), by decide!⟩

theorem codeModalV2_playwright_header_line : ∃ h, CodeModalV2.playwrightHeader = h ++ "\n// Generated on: " :=
  ⟨String.mk (CodeModalV2.playwrightHeader.data.take 82), by decide!⟩

/-- C5: for each generator module and each target, `generateCode` returns a
script exactly when every step has a fragment, and the script is then the
target's template around the step section made of the blocks `Step i+1: <name>`
plus fragment of step `i`, in workflow order, joined by one blank line.  For two
steps `s` before `t` of the workflow the fragment of `s` stands before the
fragment of `t` in the step section, and the workflow with `s` and `t` exchanged
has the two fragments exchanged. -/
theorem step_section_in_workflow_order (now : String) (workflow : List Step) (script : String) :
    (CodeModal.generateCode now workflow "puppeteer" = .ok script ↔
      ∃ frags, Fragments CodeModal.generateStepCode workflow frags ∧
        script = CodeModal.puppeteerScript now workflow.length
          (stepSection "      // Step " "\n      " workflow frags)) ∧
    (CodeModal.generateCode now workflow "selenium" = .ok script ↔
      ∃ frags, Fragments CodeModal.generateSeleniumStepCode workflow frags ∧
        script = CodeModal.seleniumScript now
          (stepSection "            # Step " "\n            " workflow frags)) ∧
    (CodeModal.generateCode now workflow "playwright" = .ok script ↔
      ∃ frags, Fragments CodeModal.generatePlaywrightStepCode workflow frags ∧
        script = CodeModal.playwrightScript now
          (stepSection "      // Step " "\n      " workflow frags)) ∧
    (CodeModalV2.generateCode now workflow "puppeteer" = .ok script ↔
      ∃ frags, Fragments CodeModalV2.generatePuppeteerStepCode workflow frags ∧
        script = CodeModalV2.puppeteerScript now workflow.length
          (stepSection "      // Step " "\n      " workflow frags)) ∧
    (CodeModalV2.generateCode now workflow "selenium" = .ok script ↔
      ∃ frags, Fragments CodeModalV2.generateSeleniumStepCode workflow frags ∧
        script = CodeModalV2.seleniumScript now
          (stepSection "            # Step " "\n            " workflow frags)) ∧
    (CodeModalV2.generateCode now workflow "playwright" = .ok script ↔
      ∃ frags, Fragments CodeModalV2.generatePlaywrightStepCode workflow frags ∧
        script = CodeModalV2.playwrightScript now
          (stepSection "      // Step " "\n      " workflow frags)) ∧
    (∀ (marker sep : String) (emit : Step → Except JsError String) (a b c : List Step)
      (s t : Step) (frags : List String),
      workflow = a ++ s :: (b ++ t :: c) → Fragments emit workflow frags →
      ∃ fa fs fb ft fc p q r,
        frags = fa ++ fs :: (fb ++ ft :: fc) ∧ fa.length = a.length ∧ fb.length = b.length ∧
        emit s = .ok fs ∧ emit t = .ok ft ∧
        stepSection marker sep workflow frags = p ++ fs ++ q ++ ft ++ r ∧
        Fragments emit (a ++ t :: (b ++ s :: c)) (fa ++ ft :: (fb ++ fs :: fc))) := by
  refine ⟨?_, ?_, ?_, ?_, ?_, ?_, ?_⟩
  · exact codeModal_puppeteer_ok_iff now workflow script
  · exact codeModal_selenium_ok_iff now workflow script
  · exact codeModal_playwright_ok_iff now workflow script
  · exact codeModalV2_puppeteer_ok_iff now workflow script
  · exact codeModalV2_selenium_ok_iff now workflow script
  · exact codeModalV2_playwright_ok_iff now workflow script
  · intro marker sep emit a b c s t frags hw hf
    subst hw
    exact stepSection_order_swap marker sep emit a b c s t frags hf

/-! ### Failure handler around the step section -/

/-- C8, as amended: for each generator module and each target there are a prefix
and a suffix, fixed by the generation time and the number of steps alone, such
that for every workflow of that many steps `generateCode` returns a script exactly
when every step has a fragment (always for the empty workflow), and every script
it returns is non-empty and is the prefix, the opening of a `try` block, the step
section, the completion log with the handler that logs the error and saves
`error-screenshot.png` and the `finally` clause that closes the browser or quits
the driver, and the suffix. -/
theorem script_wraps_steps_in_failure_handler (now : String) (n : Nat) :
    (∃ pre post : String, ∀ workflow : List Step, workflow.length = n →
      ((∃ script, CodeModal.generateCode now workflow "puppeteer" = .ok script) ↔
        ∀ step ∈ workflow, ∃ frag, CodeModal.generateStepCode step = .ok frag) ∧
      ∀ script, CodeModal.generateCode now workflow "puppeteer" = .ok script →
        script ≠ "" ∧ ∃ frags, Fragments CodeModal.generateStepCode workflow frags ∧
          script = pre ++
            ("    try \x7b\n" ++
             "      await this.initialize();\n" ++
             "      \n") ++
            stepSection "      // Step " "\n      " workflow frags ++
            ("\n" ++
             "      \n" ++
             "      console.log('✅ Automation completed successfully!');\n" ++
             "      \n" ++
             "    \x7d catch (error) \x7b\n" ++
             "      console.error('❌ Automation failed:', error);\n" ++
             "      await this.page.screenshot(\x7b path: 'error-screenshot.png' \x7d);\n" ++
             "    \x7d finally \x7b\n" ++
             "      if (this.browser) \x7b\n" ++
             "        await this.browser.close();\n" ++
             "      \x7d\n" ++
             "    \x7d\n") ++
            post) ∧
    (∃ pre post : String, ∀ workflow : List Step, workflow.length = n →
      ((∃ script, CodeModal.generateCode now workflow "selenium" = .ok script) ↔
        ∀ step ∈ workflow, ∃ frag, CodeModal.generateSeleniumStepCode step = .ok frag) ∧
      ∀ script, CodeModal.generateCode now workflow "selenium" = .ok script →
        script ≠ "" ∧ ∃ frags, Fragments CodeModal.generateSeleniumStepCode workflow frags ∧
          script = pre ++
            ("        try:\n" ++
             "            print(\"🚀 Starting Selenium automation...\")\n" ++
             "            self.setup_driver()\n" ++
             "            \n") ++
            stepSection "            # Step " "\n            " workflow frags ++
            ("\n" ++
             "            \n" ++
             "            print(\"✅ Automation completed!\")\n" ++
             "            \n" ++
             "        except Exception as e:\n" ++
             "            print(f\"❌ Error: \x7be\x7d\")\n" ++
             "            self.driver.save_screenshot('error-screenshot.png')\n" ++
             "        finally:\n" ++
             "            if self.driver:\n" ++
             "                self.driver.quit()\n") ++
            post) ∧
    (∃ pre post : String, ∀ workflow : List Step, workflow.length = n →
      ((∃ script, CodeModal.generateCode now workflow "playwright" = .ok script) ↔
        ∀ step ∈ workflow, ∃ frag, CodeModal.generatePlaywrightStepCode step = .ok frag) ∧
      ∀ script, CodeModal.generateCode now workflow "playwright" = .ok script →
        script ≠ "" ∧ ∃ frags, Fragments CodeModal.generatePlaywrightStepCode workflow frags ∧
          script = pre ++
            ("    try \x7b\n" ++
             "      await this.initialize();\n" ++
             "      \n") ++
            stepSection "      // Step " "\n      " workflow frags ++
            ("\n" ++
             "      \n" ++
             "      console.log('✅ Automation completed!');\n" ++
             "      \n" ++
             "    \x7d catch (error) \x7b\n" ++
             "      console.error('❌ Error:', error);\n" ++
             "      await this.page.screenshot(\x7b path: 'error-screenshot.png' \x7d);\n" ++
             "    \x7d finally \x7b\n" ++
             "      if (this.browser) \x7b\n" ++
             "        await this.browser.close();\n" ++
             "      \x7d\n" ++
             "    \x7d\n") ++
            post) ∧
    (∃ pre post : String, ∀ workflow : List Step, workflow.length = n →
      ((∃ script, CodeModalV2.generateCode now workflow "puppeteer" = .ok script) ↔
        ∀ step ∈ workflow, ∃ frag, CodeModalV2.generatePuppeteerStepCode step = .ok frag) ∧
      ∀ script, CodeModalV2.generateCode now workflow "puppeteer" = .ok script →
        script ≠ "" ∧ ∃ frags, Fragments CodeModalV2.generatePuppeteerStepCode workflow frags ∧
          script = pre ++
            ("    try \x7b\n" ++
             "      await this.initialize();\n" ++
             "\n") ++
            stepSection "      // Step " "\n      " workflow frags ++
            ("\n" ++
             "\n" ++
             "      console.log('✅ Automation completed successfully!');\n" ++
             "    \x7d catch (error) \x7b\n" ++
             "      console.error('❌ Automation failed:', error);\n" ++
             "      try \x7b await this.page.screenshot(\x7b path: 'error-screenshot.png', fullPage: true \x7d); \x7d catch \x7b\x7d\n" ++
             "    \x7d finally \x7b\n" ++
             "      if (this.browser) await this.browser.close();\n" ++
             "    \x7d\n") ++
            post) ∧
    (∃ pre post : String, ∀ workflow : List Step, workflow.length = n →
      ((∃ script, CodeModalV2.generateCode now workflow "selenium" = .ok script) ↔
        ∀ step ∈ workflow, ∃ frag, CodeModalV2.generateSeleniumStepCode step = .ok frag) ∧
      ∀ script, CodeModalV2.generateCode now workflow "selenium" = .ok script →
        script ≠ "" ∧ ∃ frags, Fragments CodeModalV2.generateSeleniumStepCode workflow frags ∧
          script = pre ++
            ("        try:\n" ++
             "            print(\"🚀 Starting Selenium automation...\")\n" ++
             "            self.setup_driver()\n" ++
             "\n") ++
            stepSection "            # Step " "\n            " workflow frags ++
            ("\n" ++
             "\n" ++
             "            print(\"✅ Automation completed!\")\n" ++
             "        except Exception as e:\n" ++
             "            print(f\"❌ Error: \x7be\x7d\")\n" ++
             "            try: self.driver.save_screenshot('error-screenshot.png')\n" ++
             "            except: pass\n" ++
             "        finally:\n" ++
             "            if self.driver:\n" ++
             "                self.driver.quit()\n") ++
            post) ∧
    (∃ pre post : String, ∀ workflow : List Step, workflow.length = n →
      ((∃ script, CodeModalV2.generateCode now workflow "playwright" = .ok script) ↔
        ∀ step ∈ workflow, ∃ frag, CodeModalV2.generatePlaywrightStepCode step = .ok frag) ∧
      ∀ script, CodeModalV2.generateCode now workflow "playwright" = .ok script →
        script ≠ "" ∧ ∃ frags, Fragments CodeModalV2.generatePlaywrightStepCode workflow frags ∧
          script = pre ++
            ("    try \x7b\n" ++
             "      await this.initialize();\n" ++
             "\n") ++
            stepSection "      // Step " "\n      " workflow frags ++
            ("\n" ++
             "\n" ++
             "      console.log('✅ Automation completed!');\n" ++
             "    \x7d catch (e) \x7b\n" ++
             "      console.error('❌ Error:', e);\n" ++
             "      try \x7b await this.page.screenshot(\x7b path: 'error-screenshot.png' \x7d); \x7d catch \x7b\x7d\n" ++
             "    \x7d finally \x7b\n" ++
             "      if (this.browser) await this.browser.close();\n" ++
             "    \x7d\n") ++
            post) := by
  refine ⟨?_, ?_, ?_, ?_, ?_, ?_⟩
  · obtain ⟨p, hp⟩ := codeModal_puppeteer_runner_try
    obtain ⟨q, hq⟩ := codeModal_puppeteer_footer_handler
    refine ⟨CodeModal.puppeteerHeader ++ now ++ "\n" ++ "// Total Steps: " ++ toString n ++ p, q, fun workflow hlen => ?_⟩
    subst hlen
    refine script_shape_of CodeModal.generateStepCode "      // Step " "\n      "
      (CodeModal.generateCode now workflow "puppeteer") (fun sec => CodeModal.puppeteerScript now workflow.length sec) _ _ _ _ workflow
      (codeModal_puppeteer_ok_iff now workflow) (fun sec => ?_) (by decide)
    simp only [CodeModal.puppeteerScript, hp, hq, String.append_assoc]
  · obtain ⟨p, hp⟩ := codeModal_selenium_runner_try
    obtain ⟨q, hq⟩ := codeModal_selenium_footer_handler
    refine ⟨CodeModal.seleniumHeader ++ now ++ p, q, fun workflow hlen => ?_⟩
    subst hlen
    refine script_shape_of CodeModal.generateSeleniumStepCode "            # Step " "\n            "
      (CodeModal.generateCode now workflow "selenium") (fun sec => CodeModal.seleniumScript now sec) _ _ _ _ workflow
      (codeModal_selenium_ok_iff now workflow) (fun sec => ?_) (by decide)
    simp only [CodeModal.seleniumScript, hp, hq, String.append_assoc]
  · obtain ⟨p, hp⟩ := codeModal_playwright_runner_try
    obtain ⟨q, hq⟩ := codeModal_playwright_footer_handler
    refine ⟨CodeModal.playwrightHeader ++ now ++ p, q, fun workflow hlen => ?_⟩
    subst hlen
    refine script_shape_of CodeModal.generatePlaywrightStepCode "      // Step " "\n      "
      (CodeModal.generateCode now workflow "playwright") (fun sec => CodeModal.playwrightScript now sec) _ _ _ _ workflow
      (codeModal_playwright_ok_iff now workflow) (fun sec => ?_) (by decide)
    simp only [CodeModal.playwrightScript, hp, hq, String.append_assoc]
  · obtain ⟨p, hp⟩ := codeModalV2_puppeteer_runner_try
    obtain ⟨q, hq⟩ := codeModalV2_puppeteer_footer_handler
    refine ⟨CodeModalV2.puppeteerHeader ++ now ++ "\n" ++ "// Total Steps: " ++ toString n ++ "\n" ++ "\n" ++ CodeModalV2.jsDateHelper ++ p, q, fun workflow hlen => ?_⟩
    subst hlen
    refine script_shape_of CodeModalV2.generatePuppeteerStepCode "      // Step " "\n      "
      (CodeModalV2.generateCode now workflow "puppeteer") (fun sec => CodeModalV2.puppeteerScript now workflow.length sec) _ _ _ _ workflow
      (codeModalV2_puppeteer_ok_iff now workflow) (fun sec => ?_) (by decide)
    simp only [CodeModalV2.puppeteerScript, hp, hq, String.append_assoc]
  · obtain ⟨p, hp⟩ := codeModalV2_selenium_runner_try
    obtain ⟨q, hq⟩ := codeModalV2_selenium_footer_handler
    refine ⟨CodeModalV2.seleniumHeader ++ now ++ p, q, fun workflow hlen => ?_⟩
    subst hlen
    refine script_shape_of CodeModalV2.generateSeleniumStepCode "            # Step " "\n            "
      (CodeModalV2.generateCode now workflow "selenium") (fun sec => CodeModalV2.seleniumScript now sec) _ _ _ _ workflow
      (codeModalV2_selenium_ok_iff now workflow) (fun sec => ?_) (by decide)
    simp only [CodeModalV2.seleniumScript, hp, hq, String.append_assoc]
  · obtain ⟨p, hp⟩ := codeModalV2_playwright_runner_try
    obtain ⟨q, hq⟩ := codeModalV2_playwright_footer_handler
    refine ⟨CodeModalV2.playwrightHeader ++ now ++ "\n" ++ "\n" ++ CodeModalV2.jsDateHelper ++ p, q, fun workflow hlen => ?_⟩
    subst hlen
    refine script_shape_of CodeModalV2.generatePlaywrightStepCode "      // Step " "\n      "
      (CodeModalV2.generateCode now workflow "playwright") (fun sec => CodeModalV2.playwrightScript now sec) _ _ _ _ workflow
      (codeModalV2_playwright_ok_iff now workflow) (fun sec => ?_) (by decide)
    simp only [CodeModalV2.playwrightScript, hp, hq, String.append_assoc]


/-- C8, counterexample: `generateCode` returns no script for the workflow made of
the one step `addStep('press-key')` creates (Puppeteer target of
`CodeModal_V2.jsx`), nor for a `wait-download` step with the empty configuration
(Puppeteer target of `CodeModal.jsx`): the emitter throws and the error leaves
`generateCode`. -/
theorem generate_code_throws_with_emitter :
    (defaultStep "press-key").map
        (fun s => CodeModalV2.generateCode "2025-06-01T12:00:00.000Z" [s] "puppeteer") =
      some (.error (.typeError "split is not a function")) ∧
    CodeModal.generateCode "2025-06-01T12:00:00.000Z"
        [mkStep "wait-download" "Wait for Download" (.obj []) true] "puppeteer" =
      .error (.typeError "Cannot read properties of undefined (reading 'replace')") := by
  refine ⟨?_, ?_⟩ <;> decide!
/-! ### The generation time -/

/-- C9: for each generator module and each target the result of `generateCode`
depends on the generation time only through the header line `Generated on: <time>`:
there are a text `h` and a result `rest`, fixed by the workflow, such that at every
time `now` the generator throws what `rest` throws or returns `h`, the comment line
`Generated on: now` and the text of `rest`.  Two calls at one time are equal, and two
scripts generated at different times differ in that line only. -/
theorem timestamp_only_in_header_line (workflow : List Step) :
    (∃ (h : String) (rest : Except JsError String), ∀ now : String,
      CodeModal.generateCode now workflow "puppeteer" =
        rest.map fun r => h ++ "\n// Generated on: " ++ now ++ "\n" ++ r) ∧
    (∃ (h : String) (rest : Except JsError String), ∀ now : String,
      CodeModal.generateCode now workflow "selenium" =
        rest.map fun r => h ++ "\n# Generated on: " ++ now ++ "\n" ++ r) ∧
    (∃ (h : String) (rest : Except JsError String), ∀ now : String,
      CodeModal.generateCode now workflow "playwright" =
        rest.map fun r => h ++ "\n// Generated on: " ++ now ++ "\n" ++ r) ∧
    (∃ (h : String) (rest : Except JsError String), ∀ now : String,
      CodeModalV2.generateCode now workflow "puppeteer" =
        rest.map fun r => h ++ "\n// Generated on: " ++ now ++ "\n" ++ r) ∧
    (∃ (h : String) (rest : Except JsError String), ∀ now : String,
      CodeModalV2.generateCode now workflow "selenium" =
        rest.map fun r => h ++ "\n# Generated on: " ++ now ++ "\n" ++ r) ∧
    (∃ (h : String) (rest : Except JsError String), ∀ now : String,
      CodeModalV2.generateCode now workflow "playwright" =
        rest.map fun r => h ++ "\n// Generated on: " ++ now ++ "\n" ++ r) := by
  refine ⟨?_, ?_, ?_, ?_, ?_, ?_⟩
  · obtain ⟨h, hh⟩ := codeModal_puppeteer_header_line
    refine ⟨h, (joinBlocks (stepBlock "      // Step " "\n      " CodeModal.generateStepCode) workflow).map
      (fun sec => "// Total Steps: " ++ toString workflow.length ++ CodeModal.puppeteerRunner ++ sec ++ CodeModal.puppeteerFooter), fun now => ?_⟩
    rw [codeModal_puppeteer_eq]
    cases joinBlocks (stepBlock "      // Step " "\n      " CodeModal.generateStepCode) workflow with
    | error e => simp only [Except.map]
    | ok sec => simp only [Except.map, CodeModal.puppeteerScript, hh, String.append_assoc]
  · obtain ⟨h, hh⟩ := codeModal_selenium_header_line
    obtain ⟨r0, hr0⟩ := codeModal_selenium_runner_newline
    refine ⟨h, (joinBlocks (stepBlock "            # Step " "\n            " CodeModal.generateSeleniumStepCode) workflow).map
      (fun sec => r0 ++ sec ++ CodeModal.seleniumFooter), fun now => ?_⟩
    rw [codeModal_selenium_eq]
    cases joinBlocks (stepBlock "            # Step " "\n            " CodeModal.generateSeleniumStepCode) workflow with
    | error e => simp only [Except.map]
    | ok sec => simp only [Except.map, CodeModal.seleniumScript, hh, hr0, String.append_assoc]
  · obtain ⟨h, hh⟩ := codeModal_playwright_header_line
    obtain ⟨r0, hr0⟩ := codeModal_playwright_runner_newline
    refine ⟨h, (joinBlocks (stepBlock "      // Step " "\n      " CodeModal.generatePlaywrightStepCode) workflow).map
      (fun sec => r0 ++ sec ++ CodeModal.playwrightFooter), fun now => ?_⟩
    rw [codeModal_playwright_eq]
    cases joinBlocks (stepBlock "      // Step " "\n      " CodeModal.generatePlaywrightStepCode) workflow with
    | error e => simp only [Except.map]
    | ok sec => simp only [Except.map, CodeModal.playwrightScript, hh, hr0, String.append_assoc]
  · obtain ⟨h, hh⟩ := codeModalV2_puppeteer_header_line
    refine ⟨h, (joinBlocks (stepBlock "      // Step " "\n      " CodeModalV2.generatePuppeteerStepCode) workflow).map
      (fun sec => "// Total Steps: " ++ toString workflow.length ++ "\n" ++ "\n" ++ CodeModalV2.jsDateHelper ++ CodeModalV2.puppeteerRunner ++ sec ++ CodeModalV2.puppeteerFooter), fun now => ?_⟩
    rw [codeModalV2_puppeteer_eq]
    cases joinBlocks (stepBlock "      // Step " "\n      " CodeModalV2.generatePuppeteerStepCode) workflow with
    | error e => simp only [Except.map]
    | ok sec => simp only [Except.map, CodeModalV2.puppeteerScript, hh, String.append_assoc]
  · obtain ⟨h, hh⟩ := codeModalV2_selenium_header_line
    obtain ⟨r0, hr0⟩ := codeModalV2_selenium_runner_newline
    refine ⟨h, (joinBlocks (stepBlock "            # Step " "\n            " CodeModalV2.generateSeleniumStepCode) workflow).map
      (fun sec => r0 ++ sec ++ CodeModalV2.seleniumFooter), fun now => ?_⟩
    rw [codeModalV2_selenium_eq]
    cases joinBlocks (stepBlock "            # Step " "\n            " CodeModalV2.generateSeleniumStepCode) workflow with
    | error e => simp only [Except.map]
    | ok sec => simp only [Except.map, CodeModalV2.seleniumScript, hh, hr0, String.append_assoc]
  · obtain ⟨h, hh⟩ := codeModalV2_playwright_header_line
    refine ⟨h, (joinBlocks (stepBlock "      // Step " "\n      " CodeModalV2.generatePlaywrightStepCode) workflow).map
      (fun sec => "\n" ++ CodeModalV2.jsDateHelper ++ CodeModalV2.playwrightRunner ++ sec ++ CodeModalV2.playwrightFooter), fun now => ?_⟩
    rw [codeModalV2_playwright_eq]
    cases joinBlocks (stepBlock "      // Step " "\n      " CodeModalV2.generatePlaywrightStepCode) workflow with
    | error e => simp only [Except.map]
    | ok sec => simp only [Except.map, CodeModalV2.playwrightScript, hh, String.append_assoc]


/-! ## The fallback branch of the emitters of `CodeModal_V2.jsx` -/

/-- Escaping a selector that is a string or falsy succeeds. -/
theorem selector_escape_ok (config : JsVal) (c : Char) (r : String) (h : selectorIsText config = true) :
    jsReplaceAll (JsVal.or ((JsVal.or config (.obj [])).field "selector") (.str "")) c r =
      .ok (strReplaceAll (selectorText config) c r) := by
  unfold selectorIsText at h
  unfold selectorText
  generalize (JsVal.or config (.obj [])).field "selector" = v at h ⊢
  cases v with
  | str s =>
    by_cases hs : s = ""
    · simp [JsVal.or, JsVal.truthy, hs, jsReplaceAll]
    · simp [JsVal.or, JsVal.truthy, hs, jsReplaceAll]
  | undefined => simp [JsVal.or, JsVal.truthy, jsReplaceAll]
  | null => simp [JsVal.or, JsVal.truthy, jsReplaceAll]
  | nan => simp [JsVal.or, JsVal.truthy, jsReplaceAll]
  | bool b =>
    cases b
    · simp [JsVal.or, JsVal.truthy, jsReplaceAll]
    · simp [JsVal.truthy] at h
  | num n =>
    have hn : n = 0 := by simpa [JsVal.truthy] using h
    simp [JsVal.or, JsVal.truthy, hn, jsReplaceAll]
  | arr _ => simp [JsVal.truthy] at h
  | obj _ => simp [JsVal.truthy] at h

/-- Escaping a truthy selector that is not a string raises. -/
theorem selector_escape_throws (config : JsVal) (c : Char) (r : String) (h : selectorIsText config = false) :
    jsReplaceAll (JsVal.or ((JsVal.or config (.obj [])).field "selector") (.str "")) c r =
      .error (.typeError "replace is not a function") := by
  unfold selectorIsText at h
  generalize (JsVal.or config (.obj [])).field "selector" = v at h ⊢
  cases v with
  | str s => simp at h
  | undefined => simp [JsVal.truthy] at h
  | null => simp [JsVal.truthy] at h
  | nan => simp [JsVal.truthy] at h
  | bool b =>
    cases b
    · simp [JsVal.truthy] at h
    · simp [JsVal.or, JsVal.truthy, jsReplaceAll]
  | num n =>
    have hn : n ≠ 0 := by simpa [JsVal.truthy] using h
    simp [JsVal.or, JsVal.truthy, hn, jsReplaceAll]
  | arr _ => simp [JsVal.or, JsVal.truthy, jsReplaceAll]
  | obj _ => simp [JsVal.or, JsVal.truthy, jsReplaceAll]

/-- The Playwright emitter raises on a selector it cannot escape. -/
theorem playwright_selector_throws (step : Step) (hsel : selectorIsText step.config = false) :
    CodeModalV2.generatePlaywrightStepCode step = .error (.typeError "replace is not a function") := by
  unfold CodeModalV2.generatePlaywrightStepCode
  simp only [selector_escape_throws step.config _ _ hsel, bind, Except.bind]

/-- Default branch of the Puppeteer emitter. -/
theorem puppeteer_default_branch (step : Step) (hsel : selectorIsText step.config = true) (ht : step.type ∉ puppeteerCaseLabels) :
    CodeModalV2.generatePuppeteerStepCode step = .ok ("console.log('⚠️ Unsupported step type \"" ++ step.type ++ "\" - no-op');") := by
  unfold CodeModalV2.generatePuppeteerStepCode
  simp only [selector_escape_ok step.config _ _ hsel, bind, Except.bind]
  split
  all_goals first | (rename_i h; exact absurd (by rw [h]; decide) ht) | rfl

/-- Default branch of the Selenium emitter. -/
theorem selenium_default_branch (step : Step) (hsel : selectorIsText step.config = true) (ht : step.type ∉ seleniumCaseLabels) :
    CodeModalV2.generateSeleniumStepCode step = .ok ("print(\"⚠️ Unsupported step type: " ++ step.type ++ "\")") := by
  unfold CodeModalV2.generateSeleniumStepCode
  simp only [selector_escape_ok step.config _ _ hsel, bind, Except.bind]
  split
  all_goals first | (rename_i h; exact absurd (by rw [h]; decide) ht) | rfl

/-- Default branch of the Playwright emitter. -/
theorem playwright_default_branch (step : Step) (hsel : selectorIsText step.config = true) (ht : step.type ∉ playwrightCaseLabels) :
    CodeModalV2.generatePlaywrightStepCode step = .ok ("console.log('⚠️ Unsupported step type \"" ++ step.type ++ "\"');") := by
  unfold CodeModalV2.generatePlaywrightStepCode
  simp only [selector_escape_ok step.config _ _ hsel, bind, Except.bind]
  split
  all_goals first | (rename_i h; exact absurd (by rw [h]; decide) ht) | rfl

/-- C6, counterexample: for a step of unknown type whose `selector` is the number
5, each of the three emitters of `CodeModal_V2.jsx` raises a `TypeError` instead
of returning the diagnostic statement. -/
theorem unknown_type_with_numeric_selector_throws :
    CodeModalV2.generatePuppeteerStepCode unknownTypeStep
        = .error (.typeError "replace is not a function") ∧
      CodeModalV2.generateSeleniumStepCode unknownTypeStep
        = .error (.typeError "replace is not a function") ∧
      CodeModalV2.generatePlaywrightStepCode unknownTypeStep
        = .error (.typeError "replace is not a function") := by
  refine ⟨?_, ?_, ?_⟩ <;> decide!

/-- C6, amended: when the `selector` entry of the configuration is a string or
falsy (in particular when the configuration or the entry is absent), each
emitter of `CodeModal_V2.jsx` returns, for a step whose type is none of its case
labels, exactly one diagnostic log statement holding the type string. -/
theorem unknown_type_falls_back (step : Step) (hsel : selectorIsText step.config = true) :
    (step.type ∉ puppeteerCaseLabels →
      CodeModalV2.generatePuppeteerStepCode step =
        .ok ("console.log('⚠️ Unsupported step type \"" ++ step.type ++ "\" - no-op');")) ∧
    (step.type ∉ seleniumCaseLabels →
      CodeModalV2.generateSeleniumStepCode step =
        .ok ("print(\"⚠️ Unsupported step type: " ++ step.type ++ "\")")) ∧
    (step.type ∉ playwrightCaseLabels →
      CodeModalV2.generatePlaywrightStepCode step =
        .ok ("console.log('⚠️ Unsupported step type \"" ++ step.type ++ "\"');")) :=
  ⟨puppeteer_default_branch step hsel, selenium_default_branch step hsel,
    playwright_default_branch step hsel⟩

/-- C6, witness: a step of type `teleport` without configuration. -/
theorem unknown_type_falls_back_witness :
    selectorIsText (mkStep "teleport" "Teleport" .undefined true).config = true ∧
      CodeModalV2.generateSeleniumStepCode (mkStep "teleport" "Teleport" .undefined true) =
        .ok "print(\"⚠️ Unsupported step type: teleport\")" :=
  ⟨by decide, (unknown_type_falls_back (mkStep "teleport" "Teleport" .undefined true)
    (by decide)).2.1 (by decide)⟩

/-! ### The example workflow: navigate, then wait -/

/-- Step section of the Puppeteer script of `CodeModal.jsx` for the example workflow. -/
theorem example_puppeteer_section :
    joinBlocks (stepBlock "      // Step " "\n      " CodeModal.generateStepCode) exampleWorkflow =
      .ok ("      // Step 1: Navigate to URL\n" ++
           "      console.log('🌐 Navigating to: https://example.com');\n" ++
           "      await this.page.goto('https://example.com', \x7b waitUntil: 'networkidle2' \x7d);\n" ++
           "\n" ++
           "      // Step 2: Wait Fixed Time\n" ++
           "      console.log('⏰ Waiting 2000ms');\n" ++
           "      await new Promise(r => setTimeout(r, 2000));") := by
  decide!

/-- Step section of the Selenium script of `CodeModal.jsx` for the example workflow. -/
theorem example_selenium_section :
    joinBlocks (stepBlock "            # Step " "\n            " CodeModal.generateSeleniumStepCode)
        exampleWorkflow =
      .ok ("            # Step 1: Navigate to URL\n" ++
           "            print(\"🌐 Navigating to: https://example.com\")\n" ++
           "            self.driver.get(\"https://example.com\")\n" ++
           "\n" ++
           "            # Step 2: Wait Fixed Time\n" ++
           "            print(\"⏰ Waiting 2000ms\")\n" ++
           "            time.sleep(2)") := by
  decide!

/-- Step section of the Playwright script of `CodeModal.jsx` for the example workflow. -/
theorem example_playwright_section :
    joinBlocks (stepBlock "      // Step " "\n      " CodeModal.generatePlaywrightStepCode)
        exampleWorkflow =
      .ok ("      // Step 1: Navigate to URL\n" ++
           "      console.log('🌐 Navigating to: https://example.com');\n" ++
           "      await this.page.goto('https://example.com');\n" ++
           "\n" ++
           "      // Step 2: Wait Fixed Time\n" ++
           "      console.log('⚠️ Step wait-time - implement as needed');") := by
  decide!

/-- C7, counterexample: the Playwright script `generateCode` of `CodeModal.jsx`
returns for the example workflow contains the navigation call, but neither the
number 2000 nor any `waitForTimeout`, `setTimeout` or `sleep` call. -/
theorem example_playwright_has_no_delay :
    (CodeModal.generateCode "2025-06-01T12:00:00.000Z" exampleWorkflow "playwright").map
        (fun s => (containsText "goto('https://example.com')" s, containsText "2000" s,
          containsText "waitForTimeout" s, containsText "setTimeout" s, containsText "sleep" s)) =
      .ok (true, false, false, false, false) := by
  decide!

/-- C7, as amended: for the example workflow `generateCode` of `CodeModal.jsx`
returns, at every generation time, the target's boilerplate around a step section
that is, for Puppeteer, the `goto` call with the URL followed by a `setTimeout` of
2000 milliseconds; for Selenium, the `driver.get` call with the URL followed by
`time.sleep(2)`; and for Playwright, the `goto` call with the URL followed only by
a log statement saying that the `wait-time` step is to be implemented. -/
theorem example_workflow_scripts (now : String) :
    CodeModal.generateCode now exampleWorkflow "puppeteer" =
      .ok (CodeModal.puppeteerScript now 2
        ("      // Step 1: Navigate to URL\n" ++
         "      console.log('🌐 Navigating to: https://example.com');\n" ++
         "      await this.page.goto('https://example.com', \x7b waitUntil: 'networkidle2' \x7d);\n" ++
         "\n" ++
         "      // Step 2: Wait Fixed Time\n" ++
         "      console.log('⏰ Waiting 2000ms');\n" ++
         "      await new Promise(r => setTimeout(r, 2000));")) ∧
    CodeModal.generateCode now exampleWorkflow "selenium" =
      .ok (CodeModal.seleniumScript now
        ("            # Step 1: Navigate to URL\n" ++
         "            print(\"🌐 Navigating to: https://example.com\")\n" ++
         "            self.driver.get(\"https://example.com\")\n" ++
         "\n" ++
         "            # Step 2: Wait Fixed Time\n" ++
         "            print(\"⏰ Waiting 2000ms\")\n" ++
         "            time.sleep(2)")) ∧
    CodeModal.generateCode now exampleWorkflow "playwright" =
      .ok (CodeModal.playwrightScript now
        ("      // Step 1: Navigate to URL\n" ++
         "      console.log('🌐 Navigating to: https://example.com');\n" ++
         "      await this.page.goto('https://example.com');\n" ++
         "\n" ++
         "      // Step 2: Wait Fixed Time\n" ++
         "      console.log('⚠️ Step wait-time - implement as needed');")) := by
  refine ⟨?_, ?_, ?_⟩
  · rw [codeModal_puppeteer_eq, example_puppeteer_section]; rfl
  · rw [codeModal_selenium_eq, example_selenium_section]; rfl
  · rw [codeModal_playwright_eq, example_playwright_section]; rfl

/-! ## The run-time resolver: lemmas on the scan -/

theorem afterPrefix_append (p s : List Char) : afterPrefix p (p ++ s) = some s := by
  induction p with
  | nil => cases s <;> rfl
  | cons a p ih => simp [afterPrefix, ih]

theorem afterPrefix_eq_some (p s r : List Char) (h : afterPrefix p s = some r) : s = p ++ r := by
  induction p generalizing s with
  | nil => cases s <;> simp_all [afterPrefix]
  | cons a p ih =>
    cases s with
    | nil => simp [afterPrefix] at h
    | cons c cs =>
      simp only [afterPrefix] at h
      split at h
      · rename_i hac
        rw [ih cs h, hac]; rfl
      · cases h

theorem replaceScan_skip (m : List Char → Option (List Char × Nat)) (k : Nat) (l : List Char) :
    replaceScan m k l = replaceScan m 0 (l.drop k) := by
  induction l generalizing k with
  | nil => cases k <;> simp [replaceScan]
  | cons c cs ih =>
    cases k with
    | zero => rfl
    | succ k => simp only [replaceScan, List.drop_succ_cons]; exact ih k

theorem replaceScan_nil (m : List Char → Option (List Char × Nat)) (k : Nat) :
    replaceScan m k [] = [] := by
  cases k <;> rfl

theorem replaceScan_no_match (m : List Char → Option (List Char × Nat)) (l : List Char)
    (h : hasMatch m l = false) : replaceScan m 0 l = l := by
  induction l with
  | nil => rfl
  | cons c cs ih =>
    simp only [hasMatch, List.tails, List.any_cons, Bool.or_eq_false_iff] at h
    have h1 : m (c :: cs) = none := by
      cases hm : m (c :: cs) with
      | none => rfl
      | some x => rw [hm] at h; simp at h
    simp only [replaceScan, h1]
    rw [ih h.2]

theorem hasMatch_false_of_forall (m : List Char → Option (List Char × Nat)) (l : List Char)
    (h : ∀ t, (∀ c ∈ t, c ∈ l) → m t = none) : hasMatch m l = false := by
  induction l with
  | nil => simp [hasMatch, h [] (by simp)]
  | cons c cs ih =>
    simp only [hasMatch, List.tails, List.any_cons, Bool.or_eq_false_iff]
    refine ⟨by rw [h (c :: cs) (fun _ hx => hx)]; rfl, ?_⟩
    exact ih fun t ht => h t fun x hx => List.mem_cons_of_mem _ (ht x hx)

theorem braceRun_append (k rest : List Char) (hk : k ≠ []) (h : rbrace ∉ k) :
    braceRun (k ++ rbrace :: rest) = some k := by
  have htw : (k ++ rbrace :: rest).takeWhile (fun c => c != rbrace) = k := by
    rw [List.takeWhile_append_of_pos]
    · simp [List.takeWhile]
    · intro c hc
      have : c ≠ rbrace := fun e => h (e ▸ hc)
      simpa using this
  unfold braceRun
  simp only [htw]
  cases k with
  | nil => exact absurd rfl hk
  | cons a k => simp

theorem braceRun_mem (s k : List Char) (h : braceRun s = some k) : rbrace ∈ s := by
  unfold braceRun at h
  simp only at h
  split at h
  · cases h
  · split at h
    · rename_i h2
      have := List.mem_of_mem_head? h2
      exact List.mem_of_mem_drop this
    · cases h

theorem varMatch_none_of_no_rbrace (vars : List (String × JsVal)) (t : List Char)
    (h : rbrace ∉ t) : varMatch vars t = none := by
  unfold varMatch
  cases hp : afterPrefix "\x7bvar:".data t with
  | none => rfl
  | some rest =>
    cases hb : braceRun rest with
    | none => simp only [hb]
    | some k =>
      exfalso
      have h1 := braceRun_mem _ _ hb
      rw [afterPrefix_eq_some _ _ _ hp] at h
      exact h (List.mem_append_right _ h1)

theorem dateMatch_none_of_no_rbrace (d : Clock) (t : List Char)
    (h : rbrace ∉ t) : dateMatch d t = none := by
  unfold dateMatch
  cases hp : afterPrefix "\x7bdate".data t with
  | none => rfl
  | some rest =>
    rw [afterPrefix_eq_some _ _ _ hp] at h
    cases rest with
    | nil => rfl
    | cons c r =>
      simp only
      split
      · cases hb : braceRun r with
        | none => simp only [hb]
        | some k =>
          exfalso
          have h1 := braceRun_mem _ _ hb
          exact h (List.mem_append_right _ (List.mem_cons_of_mem _ h1))
      · split
        · rename_i hc
          exact absurd (List.mem_append_right _ (hc ▸ List.mem_cons_self _ _)) h
        · rfl

theorem timestampMatch_none_of_no_rbrace (d : Clock) (t : List Char)
    (h : rbrace ∉ t) : timestampMatch d t = none := by
  unfold timestampMatch
  cases hp : afterPrefix "\x7btimestamp\x7d".data t with
  | none => rfl
  | some rest =>
    exfalso
    rw [afterPrefix_eq_some _ _ _ hp] at h
    exact h (List.mem_append_left _ (by decide))


theorem afterPrefix_of_append (p q t : List Char) :
    afterPrefix (p ++ q) t = (afterPrefix p t).bind (afterPrefix q) := by
  induction p generalizing t with
  | nil => cases t <;> simp [afterPrefix]
  | cons a p ih =>
    cases t with
    | nil => simp [afterPrefix]
    | cons c cs =>
      simp only [List.cons_append, afterPrefix]
      split
      · exact ih cs
      · rfl

theorem replaceScan_match (m : List Char → Option (List Char × Nat)) (p rest rep : List Char)
    (hp : p ≠ []) (h : m (p ++ rest) = some (rep, p.length)) :
    replaceScan m 0 (p ++ rest) = rep ++ replaceScan m 0 rest := by
  cases p with
  | nil => exact absurd rfl hp
  | cons c p =>
    simp only [List.cons_append] at h ⊢
    simp only [replaceScan, h, List.length_cons, Nat.add_sub_cancel]
    rw [replaceScan_skip, List.drop_left]

theorem varMatch_placeholder (vars : List (String × JsVal)) (k rest : List Char)
    (hk : k ≠ []) (hb : rbrace ∉ k) :
    varMatch vars ("\x7bvar:".data ++ k ++ [rbrace] ++ rest) =
      some ((varText vars (String.mk k)).data, ("\x7bvar:".data ++ k ++ [rbrace]).length) := by
  unfold varMatch
  rw [List.append_assoc, List.append_assoc, afterPrefix_append]
  simp only [List.singleton_append, braceRun_append k rest hk hb, List.length_append]
  congr 2

theorem pyVarMatch_placeholder (vars : List (String × PyVal)) (k rest : List Char)
    (hk : k ≠ []) (hb : rbrace ∉ k) :
    pyVarMatch vars ("\x7bvar:".data ++ k ++ [rbrace] ++ rest) =
      some ((((pyLookup vars (String.mk k)).map PyVal.toStr).getD "").data,
        ("\x7bvar:".data ++ k ++ [rbrace]).length) := by
  unfold pyVarMatch
  rw [List.append_assoc, List.append_assoc, afterPrefix_append]
  simp only [List.singleton_append, braceRun_append k rest hk hb, List.length_append]
  congr 2

theorem dateMatch_format (d : Clock) (f rest : List Char) (hf : f ≠ []) (hb : rbrace ∉ f) :
    dateMatch d ("\x7bdate:".data ++ f ++ [rbrace] ++ rest) =
      some ((formatDate d (String.mk f)).data, ("\x7bdate:".data ++ f ++ [rbrace]).length) := by
  have h0 : "\x7bdate:".data = "\x7bdate".data ++ [':'] := by decide
  unfold dateMatch
  rw [h0, List.append_assoc, List.append_assoc, List.append_assoc, afterPrefix_append]
  simp only [List.singleton_append, braceRun_append f rest hf hb, List.length_append,
    List.cons_append, if_true]
  simp only [List.nil_append, braceRun_append f rest hf hb, List.length_cons, List.length_append,
    List.length_singleton, List.length_nil]
  congr 2
  omega


theorem varMatch_isSome (vars vars2 : List (String × JsVal)) (t : List Char) :
    (varMatch vars t).isSome = (varMatch vars2 t).isSome := by
  unfold varMatch
  cases afterPrefix "\x7bvar:".data t with
  | none => rfl
  | some r => (cases hb : braceRun r; all_goals simp only [hb]; all_goals rfl)

theorem hasMatch_congr (m m2 : List Char → Option (List Char × Nat)) (l : List Char)
    (h : ∀ t, (m t).isSome = (m2 t).isSome) : hasMatch m l = hasMatch m2 l := by
  unfold hasMatch
  congr 1
  funext t
  exact h t

theorem hasMatch_false_of_tails (m : List Char → Option (List Char × Nat)) (l : List Char)
    (h : ∀ t ∈ l.tails, m t = none) : hasMatch m l = false := by
  unfold hasMatch
  rw [List.any_eq_false]
  intro t ht
  rw [h t ht]
  simp

theorem placeholderAt_false (t : List Char) (h : placeholderAt t = false)
    (d : Clock) (vars : List (String × JsVal)) (pvars : List (String × PyVal)) :
    varMatch vars t = none ∧ dateMatch d t = none ∧ timestampMatch d t = none ∧
      pyVarMatch pvars t = none ∧ pyDateMatch d t = none ∧
      (afterPrefix "\x7btimestamp\x7d".data t).isSome = false := by
  unfold placeholderAt at h
  rw [Bool.or_eq_false_iff, Bool.or_eq_false_iff, Bool.or_eq_false_iff] at h
  obtain ⟨⟨⟨h1, h2⟩, h3⟩, h4⟩ := h
  have e1 : "\x7bdate\x7d".data = "\x7bdate".data ++ [rbrace] := by decide
  have e2 : "\x7bdate:".data = "\x7bdate".data ++ [':'] := by decide
  rw [e1, afterPrefix_of_append] at h2
  rw [e2, afterPrefix_of_append] at h3
  have hv : ∀ r, afterPrefix "\x7bvar:".data t = some r → braceRun r = none := by
    intro r hp
    rw [hp] at h1
    cases hb : braceRun r with
    | none => rfl
    | some k => simp [hb] at h1
  have hd : ∀ c r, afterPrefix "\x7bdate".data t = some (c :: r) →
      c ≠ rbrace ∧ (c = ':' → braceRun r = none) := by
    intro c r hp
    rw [hp] at h2 h3
    simp only [Option.some_bind, afterPrefix] at h2 h3
    refine ⟨?_, ?_⟩
    · intro e
      rw [e] at h2
      cases r <;> simp [afterPrefix] at h2
    · intro e
      rw [e] at h3
      cases hb : braceRun r with
      | none => rfl
      | some k =>
        cases r with
        | nil => simp [braceRun] at hb
        | cons x r => simp [afterPrefix, hb] at h3
  refine ⟨?_, ?_, ?_, ?_, ?_, h4⟩
  · unfold varMatch
    cases hp : afterPrefix "\x7bvar:".data t with
    | none => rfl
    | some r => simp only [hv r hp]
  · unfold dateMatch
    cases hp : afterPrefix "\x7bdate".data t with
    | none => rfl
    | some r =>
      cases r with
      | nil => rfl
      | cons c r =>
        simp only
        split
        · rename_i hc
          simp only [(hd c r hp).2 hc]
        · rw [if_neg (hd c r hp).1]
  · unfold timestampMatch
    rw [h4]
    rfl
  · unfold pyVarMatch
    cases hp : afterPrefix "\x7bvar:".data t with
    | none => rfl
    | some r => simp only [hv r hp]
  · unfold pyDateMatch
    cases hp : afterPrefix "\x7bdate".data t with
    | none => rfl
    | some r =>
      cases r with
      | nil => rfl
      | cons c r =>
        simp only
        split
        · rename_i hc
          simp only [(hd c r hp).2 hc]
        · rw [if_neg (hd c r hp).1]


theorem hasPlaceholder_tails (l : List Char) (h : hasPlaceholder (String.mk l) = false) :
    ∀ t ∈ l.tails, placeholderAt t = false := by
  unfold hasPlaceholder at h
  rw [List.any_eq_false] at h
  intro t ht
  simpa using h t ht

theorem passes_id_of_no_placeholder (d : Clock) (l : List Char)
    (h : hasPlaceholder (String.mk l) = false) :
    replaceScan (timestampMatch d) 0 (replaceScan (dateMatch d) 0 l) = l := by
  have ht := hasPlaceholder_tails l h
  rw [replaceScan_no_match (dateMatch d) l
    (hasMatch_false_of_tails _ _ fun t m => (placeholderAt_false t (ht t m) d [] []).2.1)]
  exact replaceScan_no_match (timestampMatch d) l
    (hasMatch_false_of_tails _ _ fun t m => (placeholderAt_false t (ht t m) d [] []).2.2.1)

theorem py_passes_id_of_no_placeholder (d : Clock) (l : List Char)
    (h : hasPlaceholder (String.mk l) = false) :
    pyReplace (replaceScan (pyDateMatch d) 0 l) "\x7btimestamp\x7d".data (toString d.nowMs).data = l := by
  have ht := hasPlaceholder_tails l h
  rw [replaceScan_no_match (pyDateMatch d) l
    (hasMatch_false_of_tails _ _ fun t m => (placeholderAt_false t (ht t m) d [] []).2.2.2.2.1)]
  unfold pyReplace
  apply replaceScan_no_match
  apply hasMatch_false_of_tails
  intro t m
  rw [(placeholderAt_false t (ht t m) d [] []).2.2.2.2.2]
  rfl

theorem placeholder_text_data (k : String) :
    ("\x7bvar:" ++ k ++ "\x7d").data = "\x7bvar:".data ++ k.data ++ [rbrace] ++ [] := by
  simp only [String.data_append, List.append_nil]
  rfl

theorem placeholder_text_ne (k : String) : "\x7bvar:" ++ k ++ "\x7d" ≠ "" := by
  intro h
  have := congrArg String.length h
  simp only [String.length_append] at this
  have h2 : ("\x7bvar:" : String).length = 5 := by decide
  have h3 : ("\x7d" : String).length = 1 := by decide
  have h4 : ("" : String).length = 0 := by decide
  omega

/-- The variable pass on a single variable reference. -/
theorem varPass_placeholder (vars : List (String × JsVal)) (k : String) (hk : k ≠ "")
    (hb : rbrace ∉ k.data) :
    replaceScan (varMatch vars) 0 ("\x7bvar:" ++ k ++ "\x7d").data = (varText vars k).data := by
  have hk2 : k.data ≠ [] := fun e => hk (String.ext e)
  rw [placeholder_text_data, replaceScan_match _ _ _ _ (by simp) (varMatch_placeholder vars k.data [] hk2 hb)]
  simp [replaceScan]

theorem pyVarPass_placeholder (vars : List (String × PyVal)) (k : String) (hk : k ≠ "")
    (hb : rbrace ∉ k.data) :
    replaceScan (pyVarMatch vars) 0 ("\x7bvar:" ++ k ++ "\x7d").data =
      (((pyLookup vars k).map PyVal.toStr).getD "").data := by
  have hk2 : k.data ≠ [] := fun e => hk (String.ext e)
  rw [placeholder_text_data, replaceScan_match _ _ _ _ (by simp) (pyVarMatch_placeholder vars k.data [] hk2 hb)]
  simp [replaceScan]


theorem digitChar_isDigit : ∀ k, k < 10 → (Nat.digitChar k).isDigit = true := by decide

theorem toDigitsCore_isDigit (fuel : Nat) : ∀ (n : Nat) (ds : List Char),
    (∀ c ∈ ds, c.isDigit = true) → ∀ c ∈ Nat.toDigitsCore 10 fuel n ds, c.isDigit = true := by
  induction fuel with
  | zero => intro n ds h; simpa [Nat.toDigitsCore] using h
  | succ f ih =>
    intro n ds h
    have hcons : ∀ c ∈ Nat.digitChar (n % 10) :: ds, c.isDigit = true := by
      intro c hc
      rcases List.mem_cons.1 hc with rfl | hc
      · exact digitChar_isDigit _ (Nat.mod_lt _ (by decide))
      · exact h c hc
    simp only [Nat.toDigitsCore]
    split
    · exact hcons
    · exact ih _ _ hcons

theorem toString_isDigit (n : Nat) : ∀ c ∈ (toString n).data, c.isDigit = true := by
  show ∀ c ∈ (Nat.repr n).data, c.isDigit = true
  unfold Nat.repr Nat.toDigits
  simp only [List.asString]
  exact toDigitsCore_isDigit _ _ _ (by simp)

theorem toString_length_one (n : Nat) (h : n < 10) : (toString n).length = 1 := by
  show (Nat.repr n).length = 1
  unfold Nat.repr Nat.toDigits
  simp only [List.asString, Nat.toDigitsCore, String.length]
  rw [if_pos (by omega)]
  rfl

theorem toString_length_two (n : Nat) (h1 : 10 ≤ n) (h2 : n < 100) : (toString n).length = 2 := by
  show (Nat.repr n).length = 2
  unfold Nat.repr Nat.toDigits
  obtain ⟨f, rfl⟩ : ∃ f, n = f + 1 := ⟨n - 1, by omega⟩
  simp only [List.asString, Nat.toDigitsCore, String.length]
  rw [if_neg (by omega), if_pos (by omega)]
  rfl

theorem toString_length_four (n : Nat) (h1 : 1000 ≤ n) (h2 : n ≤ 9999) :
    (toString n).length = 4 := by
  show (Nat.repr n).length = 4
  unfold Nat.repr Nat.toDigits
  obtain ⟨f, rfl⟩ : ∃ f, n = f + 3 := ⟨n - 3, by omega⟩
  simp only [List.asString, Nat.toDigitsCore, String.length]
  rw [if_neg (by omega), if_neg (by omega), if_neg (by omega), if_pos (by omega)]
  rfl

theorem pad_isDigits (n : Nat) (h : n < 100) : isDigits 2 (pad n) := by
  unfold pad isDigits
  split
  · rename_i h1
    refine ⟨by rw [String.length_append, toString_length_one n h1]; rfl, ?_⟩
    intro c hc
    rw [String.data_append, List.mem_append] at hc
    rcases hc with hc | hc
    · have : c = '0' := by simpa using hc
      rw [this]; rfl
    · exact toString_isDigit n c hc
  · exact ⟨toString_length_two n (by omega) h, toString_isDigit n⟩


/-! ### Variable references -/

/-- C10, as amended: for every non-empty variable name `k` without a closing
brace, `resolveTemplate('{var:' + k + '}', vars)` is the stored value of `k` when
that value is a string without a recognised placeholder, and the empty string when
`vars` has no property `k` and `Object.prototype` has none either; the Python
helper `resolve_template` gives the stored string, and the empty string when the
dictionary has no key `k`. -/
theorem var_placeholder_resolves (d : Clock) (k : String) (hk : k ≠ "") (hb : rbrace ∉ k.data) :
    (∀ (vars : List (String × JsVal)) (v : String), JsVal.lookup vars k = some (.str v) →
        hasPlaceholder v = false → resolveTemplate d ("\x7bvar:" ++ k ++ "\x7d") vars = v) ∧
    (∀ vars : List (String × JsVal), JsVal.lookup vars k = none → inheritedText k = none →
        resolveTemplate d ("\x7bvar:" ++ k ++ "\x7d") vars = "") ∧
    (∀ (pvars : List (String × PyVal)) (v : String), pyLookup pvars k = some (.str v) →
        hasPlaceholder v = false → resolve_template d ("\x7bvar:" ++ k ++ "\x7d") pvars = v) ∧
    (∀ pvars : List (String × PyVal), pyLookup pvars k = none →
        resolve_template d ("\x7bvar:" ++ k ++ "\x7d") pvars = "") := by
  refine ⟨?_, ?_, ?_, ?_⟩
  · intro vars v hl hv
    unfold resolveTemplate
    rw [if_neg (placeholder_text_ne k)]
    simp only [varPass_placeholder vars k hk hb]
    have : varText vars k = v := by simp [varText, hl, JsVal.nullish, JsVal.isNullish, JsVal.toStr]
    rw [this, passes_id_of_no_placeholder d v.data hv]
  · intro vars hl hi
    unfold resolveTemplate
    rw [if_neg (placeholder_text_ne k)]
    simp only [varPass_placeholder vars k hk hb]
    have : varText vars k = "" := by simp [varText, hl, hi]
    rw [this]
    rfl
  · intro pvars v hl hv
    unfold resolve_template
    rw [if_neg (placeholder_text_ne k)]
    simp only [pyVarPass_placeholder pvars k hk hb, hl, Option.map_some', Option.getD_some, PyVal.toStr]
    rw [py_passes_id_of_no_placeholder d v.data hv]
  · intro pvars hl
    unfold resolve_template
    rw [if_neg (placeholder_text_ne k)]
    simp only [pyVarPass_placeholder pvars k hk hb, hl, Option.map_none', Option.getD_none]
    rfl

/-- C10, witness: the name `x` with the store `{x: '5'}` and with the empty store. -/
theorem var_placeholder_resolves_witness :
    "x" ≠ "" ∧ rbrace ∉ "x".data ∧
      resolveTemplate sampleClock "\x7bvar:x\x7d" [("x", .str "5")] = "5" ∧
      resolveTemplate sampleClock "\x7bvar:x\x7d" [] = "" :=
  ⟨by decide, by decide,
    (var_placeholder_resolves sampleClock "x" (by decide) (by decide)).1 [("x", .str "5")] "5"
      rfl (by decide),
    (var_placeholder_resolves sampleClock "x" (by decide) (by decide)).2.1 [] rfl (by decide)⟩

/-- C10, counterexample: for the empty name, which has no closing brace, the
text `{var:}` comes back unchanged from both helpers instead of the empty string,
and for the absent name `constructor` the JavaScript helper returns the text of
the function inherited from `Object.prototype`. -/
theorem var_placeholder_empty_or_inherited_name :
    resolveTemplate sampleClock "\x7bvar:\x7d" [] = "\x7bvar:\x7d" ∧
      resolve_template sampleClock "\x7bvar:\x7d" [] = "\x7bvar:\x7d" ∧
      resolveTemplate sampleClock "\x7bvar:constructor\x7d" [] =
        "function Object() \x7b [native code] \x7d" := by
  refine ⟨?_, ?_, ?_⟩ <;> decide


/-! ### Nested and unclosed references -/


theorem resolve_no_rbrace (d : Clock) (s : String) (vars : List (String × JsVal))
    (h : rbrace ∉ s.data) : resolveTemplate d s vars = s := by
  unfold resolveTemplate
  split
  · rename_i e; exact e.symm
  · have h1 : replaceScan (varMatch vars) 0 s.data = s.data :=
      replaceScan_no_match _ _ (hasMatch_false_of_forall _ _ fun t ht =>
        varMatch_none_of_no_rbrace vars t fun hm => h (ht _ hm))
    have h2 : replaceScan (dateMatch d) 0 s.data = s.data :=
      replaceScan_no_match _ _ (hasMatch_false_of_forall _ _ fun t ht =>
        dateMatch_none_of_no_rbrace d t fun hm => h (ht _ hm))
    have h3 : replaceScan (timestampMatch d) 0 s.data = s.data :=
      replaceScan_no_match _ _ (hasMatch_false_of_forall _ _ fun t ht =>
        timestampMatch_none_of_no_rbrace d t fun hm => h (ht _ hm))
    simp only [h1, h2, h3]

/-- C11, counterexample: for the nested reference `{var:{var:x}}` and the store
`{x: '5'}` the result of `resolveTemplate` is the single closing brace, not the
input. -/
theorem nested_placeholder_not_verbatim :
    resolveTemplate sampleClock "\x7bvar:\x7bvar:x\x7d\x7d" [("x", .str "5")] = "\x7d" := by
  decide

/-- C11, as amended: `resolveTemplate` returns unchanged every text without a
closing brace, such as `{var:x`; for the nested reference `{var:{var:x}}` it
replaces the text up to the first closing brace by the value stored under the name
`{var:x` and keeps the last brace, so that the result is `}` when the store has
no such name. -/
theorem unclosed_placeholder_verbatim (d : Clock) (vars : List (String × JsVal)) :
    (∀ s : String, rbrace ∉ s.data → resolveTemplate d s vars = s) ∧
      resolveTemplate d "\x7bvar:x" vars = "\x7bvar:x" ∧
      (JsVal.lookup vars "\x7bvar:x" = none →
        resolveTemplate d "\x7bvar:\x7bvar:x\x7d\x7d" vars = "\x7d") := by
  refine ⟨fun s h => resolve_no_rbrace d s vars h, resolve_no_rbrace d _ vars (by decide), ?_⟩
  intro hl
  have e : ("\x7bvar:\x7bvar:x\x7d\x7d" : String).data =
      "\x7bvar:".data ++ "\x7bvar:x".data ++ [rbrace] ++ [rbrace] := by decide
  have hm := varMatch_placeholder vars "\x7bvar:x".data [rbrace] (by decide) (by decide)
  have hv : varText vars (String.mk "\x7bvar:x".data) = "" := by
    have : (String.mk "\x7bvar:x".data) = "\x7bvar:x" := rfl
    rw [this]
    unfold varText
    rw [hl]
    decide
  unfold resolveTemplate
  rw [if_neg (by decide), e, replaceScan_match _ _ _ _ (by decide) hm, hv]
  have h1 : replaceScan (varMatch vars) 0 [rbrace] = [rbrace] :=
    replaceScan_no_match _ _ (by
      apply hasMatch_false_of_tails
      intro t ht
      have : t = [rbrace] ∨ t = [] := by simpa [List.tails] using ht
      rcases this with rfl | rfl <;> rfl)
  have h2 : replaceScan (dateMatch d) 0 [rbrace] = [rbrace] :=
    replaceScan_no_match _ _ (by
      apply hasMatch_false_of_tails
      intro t ht
      have : t = [rbrace] ∨ t = [] := by simpa [List.tails] using ht
      rcases this with rfl | rfl <;> rfl)
  have h3 : replaceScan (timestampMatch d) 0 [rbrace] = [rbrace] :=
    replaceScan_no_match _ _ (by
      apply hasMatch_false_of_tails
      intro t ht
      have : t = [rbrace] ∨ t = [] := by simpa [List.tails] using ht
      rcases this with rfl | rfl <;> rfl)
  simp only [h1]
  have e2 : ("" : String).data ++ [rbrace] = [rbrace] := rfl
  rw [e2]
  simp only [h2, h3]
  rfl


/-! ### Text without placeholders -/

/-- C12: a string in which no recognised placeholder occurs (no variable
reference with a non-empty name, no plain or formatted date reference, no
timestamp reference) is returned unchanged by `resolveTemplate` and by the Python
helper `resolve_template`, for every variable store and every clock. -/
theorem resolver_identity_without_placeholder (d : Clock) (s : String)
    (vars : List (String × JsVal)) (pvars : List (String × PyVal))
    (h : hasPlaceholder s = false) :
    resolveTemplate d s vars = s ∧ resolve_template d s pvars = s := by
  have ht := hasPlaceholder_tails s.data h
  have hv : replaceScan (varMatch vars) 0 s.data = s.data :=
    replaceScan_no_match _ _
      (hasMatch_false_of_tails _ _ fun t m => (placeholderAt_false t (ht t m) d vars pvars).1)
  have hpv : replaceScan (pyVarMatch pvars) 0 s.data = s.data :=
    replaceScan_no_match _ _
      (hasMatch_false_of_tails _ _ fun t m => (placeholderAt_false t (ht t m) d vars pvars).2.2.2.1)
  constructor
  · unfold resolveTemplate
    split
    · rename_i e; exact e.symm
    · simp only [hv, passes_id_of_no_placeholder d s.data h]
  · unfold resolve_template
    split
    · rename_i e; exact e.symm
    · simp only [hpv, py_passes_id_of_no_placeholder d s.data h]

/-- C12, witness: a text with the brace groups `{foo}`, `{dates}` and `{var:}`. -/
theorem resolver_identity_without_placeholder_witness :
    hasPlaceholder "\x7bfoo\x7d and \x7bdates\x7d, \x7bvar:\x7d" = false ∧
      resolveTemplate sampleClock "\x7bfoo\x7d and \x7bdates\x7d, \x7bvar:\x7d" [("foo", .str "1")] =
        "\x7bfoo\x7d and \x7bdates\x7d, \x7bvar:\x7d" ∧
      resolve_template sampleClock "\x7bfoo\x7d and \x7bdates\x7d, \x7bvar:\x7d" [("foo", .str "1")] =
        "\x7bfoo\x7d and \x7bdates\x7d, \x7bvar:\x7d" :=
  ⟨by decide, resolver_identity_without_placeholder sampleClock _ _ _ (by decide)⟩


/-! ### Order of the passes -/

/-- C13, counterexample: with the store `{a: '{date}'}` the text `{var:a}`
resolves to the date when the variable pass runs first, as in `resolveTemplate`,
and to the text `{date}` when the date pass runs before the variable pass. -/
theorem pass_order_matters :
    resolveTemplate sampleClock "\x7bvar:a\x7d" [("a", .str "\x7bdate\x7d")] = "2024-03-07" ∧
      String.mk (timestampPass sampleClock (datePass sampleClock
        (varPass [("a", .str "\x7bdate\x7d")] "\x7bvar:a\x7d".data))) = "2024-03-07" ∧
      String.mk (timestampPass sampleClock (varPass [("a", .str "\x7bdate\x7d")]
        (datePass sampleClock "\x7bvar:a\x7d".data))) = "\x7bdate\x7d" := by
  refine ⟨?_, ?_, ?_⟩ <;> decide

theorem afterPrefix_head (a : Char) (p t r : List Char) (h : afterPrefix (a :: p) t = some r) :
    ∃ t2, t = a :: t2 ∧ afterPrefix p t2 = some r := by
  cases t with
  | nil => simp [afterPrefix] at h
  | cons c cs =>
    simp only [afterPrefix] at h
    split at h
    · rename_i e; exact ⟨cs, by rw [e], h⟩
    · cases h

theorem varMatch_starts (vars : List (String × JsVal)) (t : List Char)
    (h : (varMatch vars t).isSome = true) : ∃ r, t = '\x7b' :: 'v' :: r := by
  unfold varMatch at h
  cases hp : afterPrefix "\x7bvar:".data t with
  | none => rw [hp] at h; cases h
  | some r =>
    obtain ⟨t2, e2, h2⟩ := afterPrefix_head _ _ _ _ hp
    obtain ⟨t3, e3, _⟩ := afterPrefix_head _ _ _ _ h2
    exact ⟨t3, by rw [e2, e3]⟩

theorem dateMatch_starts (d : Clock) (t : List Char)
    (h : (dateMatch d t).isSome = true) : ∃ r, t = '\x7b' :: 'd' :: r := by
  unfold dateMatch at h
  cases hp : afterPrefix "\x7bdate".data t with
  | none => rw [hp] at h; cases h
  | some r =>
    obtain ⟨t2, e2, h2⟩ := afterPrefix_head _ _ _ _ hp
    obtain ⟨t3, e3, _⟩ := afterPrefix_head _ _ _ _ h2
    exact ⟨t3, by rw [e2, e3]⟩

theorem timestampMatch_starts (d : Clock) (t : List Char)
    (h : (timestampMatch d t).isSome = true) : ∃ r, t = '\x7b' :: 't' :: r := by
  unfold timestampMatch at h
  cases hp : afterPrefix "\x7btimestamp\x7d".data t with
  | none => rw [hp] at h; cases h
  | some r =>
    obtain ⟨t2, e2, h2⟩ := afterPrefix_head _ _ _ _ hp
    obtain ⟨t3, e3, _⟩ := afterPrefix_head _ _ _ _ h2
    exact ⟨t3, by rw [e2, e3]⟩

/-- C13, as amended: `resolveTemplate` is the variable pass, then the date pass,
then the timestamp pass, and at no position of any text do two of the three
patterns match; the order of the passes is nevertheless part of the result, since
a later pass scans the text an earlier pass has inserted. -/
theorem passes_in_order_with_disjoint_patterns (d : Clock) (vars : List (String × JsVal)) :
    (∀ s : String, resolveTemplate d s vars =
      String.mk (timestampPass d (datePass d (varPass vars s.data)))) ∧
    (∀ t : List Char,
      ¬ ((varMatch vars t).isSome = true ∧ (dateMatch d t).isSome = true) ∧
      ¬ ((varMatch vars t).isSome = true ∧ (timestampMatch d t).isSome = true) ∧
      ¬ ((dateMatch d t).isSome = true ∧ (timestampMatch d t).isSome = true)) := by
  constructor
  · intro s
    unfold resolveTemplate timestampPass datePass varPass
    split
    · rename_i e; rw [e]; rfl
    · rfl
  · intro t
    refine ⟨?_, ?_, ?_⟩
    · rintro ⟨h1, h2⟩
      obtain ⟨r1, e1⟩ := varMatch_starts vars t h1
      obtain ⟨r2, e2⟩ := dateMatch_starts d t h2
      rw [e1] at e2
      simp at e2
    · rintro ⟨h1, h2⟩
      obtain ⟨r1, e1⟩ := varMatch_starts vars t h1
      obtain ⟨r2, e2⟩ := timestampMatch_starts d t h2
      rw [e1] at e2
      simp at e2
    · rintro ⟨h1, h2⟩
      obtain ⟨r1, e1⟩ := dateMatch_starts d t h1
      obtain ⟨r2, e2⟩ := timestampMatch_starts d t h2
      rw [e1] at e2
      simp at e2


/-! ### Date formats -/

theorem formatDate_token (d : Clock) (tok rep r : List Char) (htok : tok ≠ [])
    (h : dateTokenMatch d (tok ++ r) = some (rep, tok.length)) :
    formatDate d (String.mk (tok ++ r)) = String.mk rep ++ formatDate d (String.mk r) := by
  unfold formatDate
  simp only [replaceScan_match _ _ _ _ htok h]
  rfl

theorem formatDate_char (d : Clock) (c : Char) (r : List Char) (h : noTokenAt (c :: r)) :
    formatDate d (String.mk (c :: r)) = String.singleton c ++ formatDate d (String.mk r) := by
  obtain ⟨h1, h2, h3, h4, h5, h6⟩ := h
  have hm : dateTokenMatch d (c :: r) = none := by
    unfold dateTokenMatch
    simp only [h1, h2, h3, h4, h5, h6]
    rfl
  unfold formatDate
  simp only [replaceScan, hm]
  rfl

theorem resolve_date_year (d : Clock) (vars : List (String × JsVal)) :
    resolveTemplate d "\x7bdate:YYYY\x7d" vars = toString d.year := by
  have hv : replaceScan (varMatch vars) 0 "\x7bdate:YYYY\x7d".data = "\x7bdate:YYYY\x7d".data :=
    replaceScan_no_match _ _ (by
      rw [hasMatch_congr _ (varMatch []) _ (varMatch_isSome vars [])]
      decide)
  have e : ("\x7bdate:YYYY\x7d" : String).data = "\x7bdate:".data ++ "YYYY".data ++ [rbrace] ++ [] := by
    decide
  have hm := dateMatch_format d "YYYY".data [] (by decide) (by decide)
  have hf : formatDate d (String.mk "YYYY".data) = toString d.year := by
    have h0 : dateTokenMatch d ("YYYY".data ++ []) = some ((toString d.year).data, "YYYY".data.length) := by
      unfold dateTokenMatch
      rw [afterPrefix_append]
      rfl
    have := formatDate_token d "YYYY".data _ [] (by decide) h0
    rw [List.append_nil] at this
    rw [this]
    show _ ++ formatDate d "" = _
    have : formatDate d "" = "" := rfl
    rw [this, String.append_empty]
  unfold resolveTemplate
  rw [if_neg (by decide)]
  show String.mk (replaceScan (timestampMatch d) 0 (replaceScan (dateMatch d) 0
    (replaceScan (varMatch vars) 0 "\x7bdate:YYYY\x7d".data))) = _
  rw [hv, e, replaceScan_match _ _ _ _ (by decide) hm, hf]
  have h3 : replaceScan (dateMatch d) 0 [] = [] := rfl
  rw [h3, List.append_nil]
  rw [replaceScan_no_match (timestampMatch d) _ (hasMatch_false_of_forall _ _ fun t ht =>
    timestampMatch_none_of_no_rbrace d t fun hm2 => by
      have := toString_isDigit d.year _ (ht _ hm2)
      revert this
      decide)]

/-- C14: for a clock whose readings are those of a date with a four-digit
year, `formatDate` scans its argument from left to right: the empty format gives
the empty text; a format that starts with `YYYY`, `MM`, `DD`, `hh`, `mm` or `ss`
gives the year, month, day, hour, minute or second followed by the result for
the rest of the format; any other first character is kept and followed by the
result for the rest.  The year is four decimal digits, the other five readings
two, and `resolveTemplate('{date:YYYY}', vars)` is the year. -/
theorem formatDate_replaces_tokens (d : Clock) (hd : d.fourDigitYear) :
    formatDate d "" = "" ∧
    (∀ r, formatDate d (String.mk ("YYYY".data ++ r)) = toString d.year ++ formatDate d (String.mk r)) ∧
    (∀ r, formatDate d (String.mk ("MM".data ++ r)) = pad d.month ++ formatDate d (String.mk r)) ∧
    (∀ r, formatDate d (String.mk ("DD".data ++ r)) = pad d.day ++ formatDate d (String.mk r)) ∧
    (∀ r, formatDate d (String.mk ("hh".data ++ r)) = pad d.hours ++ formatDate d (String.mk r)) ∧
    (∀ r, formatDate d (String.mk ("mm".data ++ r)) = pad d.minutes ++ formatDate d (String.mk r)) ∧
    (∀ r, formatDate d (String.mk ("ss".data ++ r)) = pad d.seconds ++ formatDate d (String.mk r)) ∧
    (∀ c r, noTokenAt (c :: r) →
      formatDate d (String.mk (c :: r)) = String.singleton c ++ formatDate d (String.mk r)) ∧
    isDigits 4 (toString d.year) ∧ isDigits 2 (pad d.month) ∧ isDigits 2 (pad d.day) ∧
    isDigits 2 (pad d.hours) ∧ isDigits 2 (pad d.minutes) ∧ isDigits 2 (pad d.seconds) ∧
    (∀ vars, resolveTemplate d "\x7bdate:YYYY\x7d" vars = toString d.year) := by
  obtain ⟨y1, y2, m1, m2, d1, d2, hh, hm, hs⟩ := hd
  refine ⟨rfl, ?_, ?_, ?_, ?_, ?_, ?_, formatDate_char d, ?_, ?_, ?_, ?_, ?_, ?_, resolve_date_year d⟩
  · intro r
    exact formatDate_token d "YYYY".data _ r (by decide) (by
      unfold dateTokenMatch; rw [afterPrefix_append]; rfl)
  · intro r
    exact formatDate_token d "MM".data _ r (by decide) (by
      unfold dateTokenMatch; rw [afterPrefix_append]; rfl)
  · intro r
    exact formatDate_token d "DD".data _ r (by decide) (by
      unfold dateTokenMatch; rw [afterPrefix_append]; rfl)
  · intro r
    exact formatDate_token d "hh".data _ r (by decide) (by
      unfold dateTokenMatch; rw [afterPrefix_append]; rfl)
  · intro r
    exact formatDate_token d "mm".data _ r (by decide) (by
      unfold dateTokenMatch; rw [afterPrefix_append]; rfl)
  · intro r
    exact formatDate_token d "ss".data _ r (by decide) (by
      unfold dateTokenMatch; rw [afterPrefix_append]; rfl)
  · exact ⟨toString_length_four _ y1 y2, toString_isDigit _⟩
  · exact pad_isDigits _ (by omega)
  · exact pad_isDigits _ (by omega)
  · exact pad_isDigits _ (by omega)
  · exact pad_isDigits _ (by omega)
  · exact pad_isDigits _ (by omega)

/-- C14, witness: the clock reading 7 March 2024, 09:05:02. -/
theorem formatDate_replaces_tokens_witness :
    sampleClock.fourDigitYear ∧ isDigits 4 (toString sampleClock.year) ∧
      resolveTemplate sampleClock "\x7bdate:YYYY\x7d" [] = toString sampleClock.year :=
  ⟨by unfold Clock.fourDigitYear; decide,
    (formatDate_replaces_tokens sampleClock (by unfold Clock.fourDigitYear; decide)).2.2.2.2.2.2.2.2.1,
    (formatDate_replaces_tokens sampleClock (by unfold Clock.fourDigitYear; decide)).2.2.2.2.2.2.2.2.2.2.2.2.2.2 []⟩


/-! ## The workflow store: evaluations -/

/-- C15, evaluated: after `addStep('navigate')`, `addStep('click')` and the
removal of the first step, the remaining step is at index 0 with `order` 1;
duplicating it then gives two steps which both have `order` 1. -/
theorem remove_step_leaves_order_gap :
    (Store.empty.afterAll [.addStep "a" "t0" "t0" "navigate", .addStep "b" "t1" "t1" "click",
        .removeStep "a"]).map (fun st => st.workflow.map fun s => (s.id, s.order)) =
      some [("b", 1)] ∧
    (Store.empty.afterAll [.addStep "a" "t0" "t0" "navigate", .addStep "b" "t1" "t1" "click",
        .removeStep "a", .duplicateStep "b" "c" "t2" "t2"]).map
        (fun st => st.workflow.map fun s => (s.id, s.order)) =
      some [("b", 1), ("c", 1)] := by
  refine ⟨?_, ?_⟩ <;> decide

/-- C16, evaluated: `importWorkflow` accepts a step whose configuration is
`null` (a call of `validateWorkflow` on the imported workflow then throws), and a
step of type `constructor` whose configuration is a list; a step of
unrecognised type before a well-formed one gives `imported = 1, skipped = 1`. -/
theorem import_accepts_null_config :
    (importWorkflow sampleIds "2025-06-01T12:00:00.000Z" nullConfigDocument Store.empty).map
        (fun r => (r.1, r.2.workflow.map fun s => (s.type, s.name.toStr, s.config.isNullish))) =
      .ok (.success 1 0, [("navigate", "Go", true)]) ∧
    (importWorkflow sampleIds "2025-06-01T12:00:00.000Z" nullConfigDocument Store.empty).bind
        (fun r => validateWorkflow r.2) =
      .error (.typeError "Cannot read properties of null (reading 'url')") ∧
    (importWorkflow sampleIds "2025-06-01T12:00:00.000Z" inheritedTypeDocument Store.empty).map
        (fun r => (r.1, r.2.workflow.map fun s => (s.type, s.name.toStr, s.config.isArray))) =
      .ok (.success 1 0, [("constructor", "X", true)]) ∧
    (importWorkflow sampleIds "2025-06-01T12:00:00.000Z" skippedFirstDocument Store.empty).map
        (fun r => r.1) = .ok (.success 1 1) := by
  refine ⟨?_, ?_, ?_, ?_⟩ <;> decide

/-- C17, evaluated: when a step of unrecognised type that has a name and a
configuration precedes a well-formed click step, the imported click step is at
index 0 and has `order` 1 (and the second id of the supply). -/
theorem import_numbers_before_type_filter :
    (importWorkflow sampleIds "2025-06-01T12:00:00.000Z" skippedFirstDocument Store.empty).map
        (fun r => (r.1, r.2.workflow.map fun s => (s.id, s.type, s.order))) =
      .ok (.success 1 1, [("id1", "click", 1)]) := by
  decide

/-- C19, counterexample: for a valid enabled navigate step followed by a
disabled navigate step with the empty url, `validateWorkflow` reports the url
error of the disabled step, and `isValid` is false. -/
theorem disabled_step_is_validated :
    validateWorkflow (storeOf [navigateStep "https://example.com" true, navigateStep "" false]) =
      .ok { errors := ["Step 2: Navigation URL is required"],
            warnings := ["Step 2: \"Navigate to URL\" is disabled"],
            isValid := false, totalSteps := some 2, enabledSteps := some 1 } := by
  decide

/-- C21, evaluated: a navigate step with the url `httpfoo`, which starts with
neither `http://` nor `https://`, is valid; the empty url and the url
`ftp://example.com` give the two errors of the claim. -/
theorem navigate_url_prefix_is_http :
    validateWorkflow (storeOf [navigateStep "httpfoo" true]) =
      .ok { errors := [], warnings := [], isValid := true,
            totalSteps := some 1, enabledSteps := some 1 } ∧
    (validateWorkflow (storeOf [navigateStep "" true])).map
        (fun v => v.errors) = .ok ["Step 1: Navigation URL is required"] ∧
    (validateWorkflow (storeOf [navigateStep "ftp://example.com" true])).map (fun v => v.errors) =
      .ok ["Step 1: URL must start with http:// or https://"] := by
  refine ⟨?_, ?_, ?_⟩ <;> decide

/-- C22, evaluated: `addStep('constructor')` does not throw: it appends and
selects a step of type `constructor` with the name `Object`, the empty
configuration and `enabled = true`; `addStep('unknown-action')` throws the error
of the claim. -/
theorem add_step_accepts_inherited_name :
    (addStep "a" "t0" "t0" "constructor" Store.empty).map
        (fun r => (r.1.type, jsonText r.1.name, jsonText r.1.config, r.1.enabled)) =
      .ok ("constructor", some "\"Object\"", some "\x7b\x7d", true) ∧
    (addStep "a" "t0" "t0" "constructor" Store.empty).map
        (fun r => (r.2.workflow.map fun s => s.type, r.2.selectedStep)) =
      .ok (["constructor"], some "a") ∧
    (addStep "a" "t0" "t0" "unknown-action" Store.empty).map (fun r => r.2.workflow.length) =
      .error (.thrown "Unknown action type: unknown-action") := by
  refine ⟨?_, ?_, ?_⟩ <;> decide

/-- C25, counterexample: after `addStep('navigate')` and
`updateStep(id, {config: {url: 'https://example.com'}})` the configuration of the
step is the mapping with the one key `url`; `timeout` is gone. -/
theorem update_step_drops_other_keys :
    (Store.empty.afterAll [.addStep "a" "t0" "t0" "navigate",
        .updateStep "a" (StepUpdates.ofConfig (.obj [("url", .str "https://example.com")])) "t1"]).map
        (fun st => st.workflow.map fun s => (jsonText s.config, (s.config.field "timeout").isNullish)) =
      some [(some "\x7b\"url\":\"https://example.com\"\x7d", true)] := by
  decide

/-- C29, counterexample: for the document `{steps: 0}`, whose `steps` is not a
list, `importWorkflow` returns success with nothing imported and replaces the
one-step workflow by the empty one, with no step selected. -/
theorem import_with_falsy_steps_succeeds :
    (importWorkflow sampleIds "2025-06-01T12:00:00.000Z" (.obj [("steps", .num 0)]) oneStepStore).map
        (fun r => (r.1, r.2.workflow.length, r.2.selectedStep)) =
      .ok (.success 0 0, 0, none) := by
  decide


/-! ## Validation -/

theorem bind_pair_fst_congr {ε α β : Type} (x x2 y y2 : Except ε (List α × List β))
    (hx : x.map (fun r => r.1) = x2.map (fun r => r.1))
    (hy : y.map (fun r => r.1) = y2.map (fun r => r.1)) :
    (do let (e, w) ← x; let (es, ws) ← y; pure (e ++ es, w ++ ws) : Except ε _).map (fun r => r.1) =
      (do let (e, w) ← x2; let (es, ws) ← y2; pure (e ++ es, w ++ ws) : Except ε _).map
        (fun r => r.1) := by
  rcases x with e | ⟨a, b⟩ <;> rcases x2 with e2 | ⟨a2, b2⟩ <;> rcases y with e3 | ⟨a3, b3⟩ <;>
    rcases y2 with e4 | ⟨a4, b4⟩ <;>
    simp_all [Except.map, bind, Except.bind, pure, Except.pure]

theorem validateStep_errors_enabled (i : Nat) (s : Step) :
    (validateStep i { s with enabled := true }).map (fun r => r.1) =
      (validateStep i s).map (fun r => r.1) := by
  unfold validateStep
  simp only [bind, Except.bind]
  cases validateConfig (i + 1) s.type s.config <;> rfl

theorem validateSteps_errors_enabled (i : Nat) (workflow : List Step) :
    (validateSteps i (allEnabled workflow)).map (fun r => r.1) =
      (validateSteps i workflow).map (fun r => r.1) := by
  induction workflow generalizing i with
  | nil => rfl
  | cons s rest ih =>
    exact bind_pair_fst_congr _ _ _ _ (validateStep_errors_enabled i s) (ih (i + 1))

/-- C19, as amended: `validateWorkflow` checks disabled steps like enabled ones:
its errors and `isValid` are those of the same workflow with every step enabled. -/
theorem validation_ignores_enabled_flag (st : Store) :
    (validateWorkflow { workflow := allEnabled st.workflow, selectedStep := st.selectedStep }).map
        (fun v => (v.errors, v.isValid)) =
      (validateWorkflow st).map (fun v => (v.errors, v.isValid)) := by
  unfold validateWorkflow
  have hl : (allEnabled st.workflow).length = st.workflow.length := by simp [allEnabled]
  simp only [hl]
  split
  · rfl
  · have h := validateSteps_errors_enabled 0 st.workflow
    simp only [bind, Except.bind]
    rcases h2 : validateSteps 0 st.workflow with e | ⟨a, b⟩ <;>
      rcases h3 : validateSteps 0 (allEnabled st.workflow) with e2 | ⟨a2, b2⟩ <;>
      rw [h2, h3] at h <;>
      simp_all [Except.map, pure, Except.pure]


theorem validateSteps_ok_iff (i : Nat) (workflow : List Step) :
    (∃ r, validateSteps i workflow = .ok r) ↔
      ∀ (j : Nat) (s : Step), workflow.get? j = some s →
        ∃ r, validateConfig (i + j + 1) s.type s.config = .ok r := by
  induction workflow generalizing i with
  | nil => exact ⟨fun _ j s h => by simp at h, fun _ => ⟨_, rfl⟩⟩
  | cons s rest ih =>
    have ih2 := ih (i + 1)
    constructor
    · rintro ⟨r, hr⟩ j t hj
      simp only [validateSteps, validateStep, bind, Except.bind] at hr
      cases j with
      | zero =>
        simp only [List.get?_cons_zero, Option.some.injEq] at hj
        subst hj
        cases h1 : validateConfig (i + 1) s.type s.config with
        | error e => rw [h1] at hr; cases hr
        | ok r1 => exact ⟨r1, rfl⟩
      | succ j =>
        simp only [List.get?_cons_succ] at hj
        have : ∃ r, validateSteps (i + 1) rest = .ok r := by
          cases h1 : validateConfig (i + 1) s.type s.config with
          | error e => rw [h1] at hr; cases hr
          | ok r1 =>
            rw [h1] at hr
            cases h2 : validateSteps (i + 1) rest with
            | error e => rw [h2] at hr; cases hr
            | ok r2 => exact ⟨r2, rfl⟩
        have h3 := ih2.1 this j t hj
        have e : i + (j + 1) + 1 = i + 1 + j + 1 := by omega
        rw [e]
        exact h3
    · intro h
      obtain ⟨r1, h1⟩ := h 0 s rfl
      have : ∃ r, validateSteps (i + 1) rest = .ok r := ih2.2 fun j t hj => by
        have := h (j + 1) t (by simpa using hj)
        have e : i + (j + 1) + 1 = i + 1 + j + 1 := by omega
        rw [e] at this
        exact this
      obtain ⟨r2, h2⟩ := this
      simp only [Nat.add_zero] at h1
      simp only [validateSteps, validateStep, bind, Except.bind, h1, h2]
      exact ⟨_, rfl⟩

theorem validateSteps_disabled_warning (i : Nat) (workflow : List Step) (r : List String × List String)
    (h : validateSteps i workflow = .ok r) (j : Nat) (s : Step) (hj : workflow.get? j = some s)
    (hs : s.enabled = false) :
    ("Step " ++ toString (i + j + 1) ++ ": \"" ++ s.name.toStr ++ "\" is disabled") ∈ r.2 := by
  induction workflow generalizing i j r with
  | nil => simp at hj
  | cons t rest ih =>
    simp only [validateSteps, validateStep, bind, Except.bind] at h
    cases h1 : validateConfig (i + 1) t.type t.config with
    | error e => rw [h1] at h; cases h
    | ok r1 =>
      rw [h1] at h
      cases h2 : validateSteps (i + 1) rest with
      | error e => rw [h2] at h; cases h
      | ok r2 =>
        rw [h2] at h
        simp only [pure, Except.pure, Except.ok.injEq] at h
        subst h
        cases j with
        | zero =>
          simp only [List.get?_cons_zero, Option.some.injEq] at hj
          subst hj
          simp [disabledWarning, hs]
        | succ j =>
          simp only [List.get?_cons_succ] at hj
          have := ih (i + 1) r2 h2 j hj
          have e : i + (j + 1) + 1 = i + 1 + j + 1 := by omega
          rw [e]
          exact List.mem_append_right _ this

/-- C20: in every result of `validateWorkflow`, `isValid` is true exactly when
the error list is empty, and the warning `Step i+1: "<name>" is disabled` is
listed for each disabled step at index `i`; the empty workflow gives the one error
`Workflow is empty` and `isValid = false`; disabling a step adds that one warning
in front of the step's warnings and leaves its errors; and `validateWorkflow`
returns a result exactly when the check of every step does. -/
theorem validation_errors_and_warnings (st : Store) :
    (∀ v, validateWorkflow st = .ok v →
      (v.isValid = true ↔ v.errors = []) ∧
      ∀ (i : Nat) (s : Step), st.workflow.get? i = some s → s.enabled = false →
        ("Step " ++ toString (i + 1) ++ ": \"" ++ s.name.toStr ++ "\" is disabled") ∈ v.warnings) ∧
    validateWorkflow (storeOf []) =
      .ok { errors := ["Workflow is empty"], warnings := [], isValid := false,
            totalSteps := none, enabledSteps := none } ∧
    (∀ (i : Nat) (s : Step) (e w : List String),
      validateStep i { s with enabled := true } = .ok (e, w) →
      validateStep i { s with enabled := false } =
        .ok (e, ("Step " ++ toString (i + 1) ++ ": \"" ++ s.name.toStr ++ "\" is disabled") :: w)) ∧
    ((∃ v, validateWorkflow st = .ok v) ↔
      ∀ (i : Nat) (s : Step), st.workflow.get? i = some s →
        ∃ r, validateConfig (i + 1) s.type s.config = .ok r) := by
  refine ⟨?_, rfl, ?_, ?_⟩
  · intro v hv
    unfold validateWorkflow at hv
    split at hv
    · rename_i h0
      simp only [pure, Except.pure, Except.ok.injEq] at hv
      subst hv
      refine ⟨by simp, ?_⟩
      intro i s hi
      have : st.workflow = [] := List.length_eq_zero.1 h0
      rw [this] at hi
      simp at hi
    · simp only [bind, Except.bind] at hv
      cases h2 : validateSteps 0 st.workflow with
      | error e => rw [h2] at hv; cases hv
      | ok r =>
        rw [h2] at hv
        simp only [pure, Except.pure, Except.ok.injEq] at hv
        subst hv
        refine ⟨by simp, ?_⟩
        intro i s hi hs
        have := validateSteps_disabled_warning 0 st.workflow r h2 i s hi hs
        simpa using this
  · intro i s e w h
    simp only [validateStep, bind, Except.bind] at h ⊢
    cases h1 : validateConfig (i + 1) s.type s.config with
    | error e => rw [h1] at h; cases h
    | ok r1 =>
      rw [h1] at h
      simp only [pure, Except.pure, Except.ok.injEq, Prod.mk.injEq] at h
      obtain ⟨h3, h4⟩ := h
      simp [pure, Except.pure, disabledWarning, ← h3, ← h4]
  · have h := validateSteps_ok_iff 0 st.workflow
    simp only [Nat.zero_add] at h
    rw [← h]
    unfold validateWorkflow
    split
    · rename_i h0
      have : st.workflow = [] := List.length_eq_zero.1 h0
      rw [this]
      exact ⟨fun _ => ⟨_, rfl⟩, fun _ => ⟨_, rfl⟩⟩
    · simp only [bind, Except.bind]
      cases h2 : validateSteps 0 st.workflow with
      | error e => exact ⟨fun ⟨v, hv⟩ => (by cases hv), fun ⟨v, hv⟩ => (by cases hv)⟩
      | ok r => exact ⟨fun _ => ⟨_, rfl⟩, fun _ => ⟨_, rfl⟩⟩


/-! ## Operations of the store -/

/-- C24: after `removeStep(id)` the workflow holds exactly the steps of the
previous workflow whose id differs from `id`, unchanged and in their previous
order; `selectedStep` becomes `null` if it was `id` and is otherwise unchanged;
and when no step has that id, a state in which `selectedStep` is `null` or the
id of a step is left as it is. -/
theorem remove_step_filters (stepId : String) (st : Store) :
    (∀ s, s ∈ (removeStep stepId st).workflow ↔ s ∈ st.workflow ∧ s.id ≠ stepId) ∧
    List.Sublist (removeStep stepId st).workflow st.workflow ∧
    (st.selectedStep = some stepId → (removeStep stepId st).selectedStep = none) ∧
    (st.selectedStep ≠ some stepId → (removeStep stepId st).selectedStep = st.selectedStep) ∧
    ((∀ s ∈ st.workflow, s.id ≠ stepId) → selectionInvariant st → removeStep stepId st = st) := by
  refine ⟨?_, ?_, ?_, ?_, ?_⟩
  · intro s
    simp [removeStep]
  · exact List.filter_sublist _
  · intro h
    simp [removeStep, h]
  · intro h
    simp [removeStep, h]
  · intro h hsel
    have hw : st.workflow.filter (fun step => decide (step.id ≠ stepId)) = st.workflow := by
      rw [List.filter_eq_self]
      intro s hs
      simpa using h s hs
    have hs : st.selectedStep ≠ some stepId := by
      intro e
      unfold selectionInvariant at hsel
      rw [e] at hsel
      obtain ⟨s, hs, hid⟩ := hsel
      exact h s hs hid
    cases st with
    | mk wf sel =>
      simp only [removeStep, Store.mk.injEq] at hw hs ⊢
      exact ⟨hw, by simp [hs]⟩

/-- C25, as amended: `updateStep(id, {config: p})` replaces the configuration of
every step with that id by `p` as a whole and sets its `updatedAt`; the other
steps, `selectedStep`, and the id, type, name, enabled flag and order of every
step are unchanged. -/
theorem update_step_replaces_config (stepId : String) (p : JsVal) (now : String) (st : Store) :
    (updateStep stepId (StepUpdates.ofConfig p) now st).workflow =
      st.workflow.map (fun s =>
        if s.id = stepId then { s with config := p, updatedAt := now } else s) ∧
    (updateStep stepId (StepUpdates.ofConfig p) now st).selectedStep = st.selectedStep ∧
    (updateStep stepId (StepUpdates.ofConfig p) now st).workflow.map
        (fun s => (s.id, s.type, s.name, s.enabled, s.order)) =
      st.workflow.map (fun s => (s.id, s.type, s.name, s.enabled, s.order)) := by
  refine ⟨rfl, rfl, ?_⟩
  simp only [updateStep, List.map_map]
  apply List.map_congr_left
  intro s _
  simp only [Function.comp]
  split <;> rfl

/-- C27, evaluated for every workflow: the document of `exportWorkflow` has the
name, version, steps and counts of the claim, but its `metadata.generator` is
`Web Automation Studio Pro`, not `IQBA Web Automation Studio Pro`. -/
theorem export_document_fields (now : String) (st : Store) :
    (exportWorkflow now st).name = "Automation Workflow" ∧
    (exportWorkflow now st).version = "1.0.0" ∧
    (exportWorkflow now st).steps = st.workflow ∧
    (exportWorkflow now st).metadata.totalSteps = st.workflow.length ∧
    (exportWorkflow now st).metadata.enabledSteps =
      (st.workflow.filter fun s => s.enabled).length ∧
    (exportWorkflow now st).metadata.disabledSteps =
      (exportWorkflow now st).metadata.totalSteps - (exportWorkflow now st).metadata.enabledSteps ∧
    (exportWorkflow now st).metadata.generator = "Web Automation Studio Pro" ∧
    (exportWorkflow now st).metadata.generator ≠ "IQBA Web Automation Studio Pro" := by
  refine ⟨rfl, rfl, rfl, rfl, rfl, ?_, rfl, (by show "Web Automation Studio Pro" ≠ _; decide)⟩
  simp only [exportWorkflow]
  have := List.length_eq_length_filter_add (l := st.workflow) (fun s => s.enabled)
  omega

theorem get_nullish (v : JsVal) (key : String) (h : v.isNullish = true) :
    ∃ message, v.get key = .error (.typeError message) := by
  unfold JsVal.get
  rw [if_pos h]
  exact ⟨_, rfl⟩

theorem get_not_nullish (v : JsVal) (key : String) (h : v.isNullish = false) :
    v.get key = .ok (v.field key) := by
  unfold JsVal.get
  simp [h]

theorem importCandidate_ok (step : JsVal) (h : step.isNullish = false) :
    ∃ b, importCandidate step = .ok b := by
  unfold importCandidate
  simp only [get_not_nullish step _ h, bind, Except.bind]
  split
  · exact ⟨_, rfl⟩
  · split <;> exact ⟨_, rfl⟩

theorem filterCandidates_nullish (items : List JsVal) (h : ∃ item ∈ items, item.isNullish = true) :
    ∃ message, filterCandidates items = .error (.typeError message) := by
  induction items with
  | nil => simp at h
  | cons x rest ih =>
    unfold filterCandidates
    cases hx : x.isNullish with
    | true =>
      obtain ⟨m, hm⟩ := get_nullish x "type" hx
      refine ⟨m, ?_⟩
      simp only [importCandidate, hm, bind, Except.bind]
    | false =>
      obtain ⟨b, hb⟩ := importCandidate_ok x hx
      have : ∃ item ∈ rest, item.isNullish = true := by
        obtain ⟨item, hi, hn⟩ := h
        rcases List.mem_cons.1 hi with rfl | hi
        · rw [hx] at hn; cases hn
        · exact ⟨item, hi, hn⟩
      obtain ⟨m, hm⟩ := ih this
      exact ⟨m, by simp only [hb, hm, bind, Except.bind]⟩

/-- C29, as amended: whenever `importWorkflow` returns a failure result, the
state is the one before the call; it returns a failure result, without throwing,
when the document is `null` or `undefined`, when its `steps` property is truthy
and not a list, and when the list contains an entry that is `null` or
`undefined`. -/
theorem import_failure_is_atomic (ids : Nat → String) (now : String) (st : Store) :
    (∀ workflowData message st2,
      importWorkflow ids now workflowData st = .ok (.failure message, st2) → st2 = st) ∧
    (∀ workflowData, workflowData.isNullish = true →
      ∃ message, importWorkflow ids now workflowData st = .ok (.failure message, st)) ∧
    (∀ fields steps, JsVal.lookup fields "steps" = some steps → steps.truthy = true →
      steps.isArray = false →
      importWorkflow ids now (.obj fields) st = .ok (.failure "steps.filter is not a function", st)) ∧
    (∀ fields items, JsVal.lookup fields "steps" = some (.arr items) →
      (∃ item ∈ items, item.isNullish = true) →
      ∃ message, importWorkflow ids now (.obj fields) st = .ok (.failure message, st)) := by
  refine ⟨?_, ?_, ?_, ?_⟩
  · intro workflowData message st2 h
    unfold importWorkflow at h
    split at h
    · simp only [pure, Except.pure, Except.ok.injEq, Prod.mk.injEq] at h
      exact h.2.symm
    · cases h
    · simp only [bind, Except.bind] at h
      split at h
      · cases h
      · simp [pure, Except.pure] at h
  · intro workflowData hn
    obtain ⟨m, hm⟩ := get_nullish workflowData "steps" hn
    refine ⟨m, ?_⟩
    simp only [importWorkflow, importCandidates, hm, bind, Except.bind]
    rfl
  · intro fields steps hl ht ha
    have hg : (JsVal.obj fields).get "steps" = .ok steps := by
      rw [get_not_nullish (.obj fields) "steps" rfl]
      simp [JsVal.field, hl]
    simp only [importWorkflow, importCandidates, hg, bind, Except.bind, JsVal.or, ht, if_true]
    cases steps <;> first | rfl | (simp [JsVal.isArray] at ha)
  · intro fields items hl hi
    have hg : (JsVal.obj fields).get "steps" = .ok (.arr items) := by
      rw [get_not_nullish (.obj fields) "steps" rfl]
      simp [JsVal.field, hl]
    obtain ⟨m, hm⟩ := filterCandidates_nullish items hi
    refine ⟨m, ?_⟩
    simp only [importWorkflow, importCandidates, hg, bind, Except.bind, JsVal.or, JsVal.truthy,
      if_true, hm]
    rfl


/-! ## Reordering -/


theorem renumber_content (now : String) (i : Nat) (l : List Step) :
    (renumber now i l).map Step.content = l.map Step.content := by
  induction l generalizing i with
  | nil => rfl
  | cons s rest ih => simp only [renumber, List.map_cons, ih]; rfl

theorem renumber_orders (now : String) (i : Nat) (l : List Step) :
    ordersFrom i (renumber now i l) := by
  induction l generalizing i with
  | nil => trivial
  | cons s rest ih => exact ⟨rfl, ih (i + 1)⟩

theorem renumber_length (now : String) (i : Nat) (l : List Step) :
    (renumber now i l).length = l.length := by
  induction l generalizing i with
  | nil => rfl
  | cons s rest ih => simp only [renumber, List.length_cons, ih]

theorem splice_get {α : Type} (w : List α) (x : α) (n : Nat) (h : n ≤ w.length) :
    (w.take n ++ x :: w.drop n).get? n = some x := by
  have hl : (w.take n).length = n := by simp [List.length_take, h]
  rw [List.get?_eq_getElem?, List.getElem?_append_right (by omega), hl, Nat.sub_self]
  exact List.getElem?_cons_zero

theorem splice_erase {α : Type} (w : List α) (x : α) (n : Nat) (h : n ≤ w.length) :
    (w.take n ++ x :: w.drop n).eraseIdx n = w := by
  have hl : (w.take n).length = n := by simp [List.length_take, h]
  rw [List.eraseIdx_append_of_length_le (by omega), hl, Nat.sub_self]
  simp

theorem splice_perm {α : Type} (w : List α) (x : α) (n : Nat) :
    List.Perm (w.take n ++ x :: w.drop n) (x :: w) := by
  have := @List.perm_middle α x (w.take n) (w.drop n)
  rwa [List.take_append_drop] at this

theorem cons_eraseIdx_perm {α : Type} (l : List α) (x : α) (n : Nat) (h : l.get? n = some x) :
    List.Perm (x :: l.eraseIdx n) l := by
  induction l generalizing n with
  | nil => simp at h
  | cons a rest ih =>
    cases n with
    | zero =>
      simp only [List.get?_cons_zero, Option.some.injEq] at h
      rw [h]
      exact List.Perm.refl _
    | succ n =>
      simp only [List.get?_cons_succ] at h
      simp only [List.eraseIdx_cons_succ]
      exact (List.Perm.swap a x _).trans ((ih n h).cons a)

theorem eraseIdx_map_comm {α β : Type} (f : α → β) (l : List α) (n : Nat) :
    (l.eraseIdx n).map f = (l.map f).eraseIdx n := by
  induction l generalizing n with
  | nil => rfl
  | cons a rest ih =>
    cases n with
    | zero => rfl
    | succ n => simp only [List.eraseIdx_cons_succ, List.map_cons, ih]

theorem reorderSteps_valid (oldIndex newIndex : Nat) (now : String) (st : Store) (moved : Step)
    (hold : st.workflow.get? oldIndex = some moved) (hnew : newIndex < st.workflow.length) :
    reorderSteps oldIndex newIndex now st =
      { workflow := renumber now 0 ((st.workflow.eraseIdx oldIndex).take newIndex ++
          moved :: (st.workflow.eraseIdx oldIndex).drop newIndex),
        selectedStep := st.selectedStep } := by
  have h1 : oldIndex < st.workflow.length := by
    rcases Nat.lt_or_ge oldIndex st.workflow.length with h | h
    · exact h
    · rw [List.get?_eq_none.2 h] at hold; cases hold
  unfold reorderSteps
  rw [if_neg (by omega)]
  simp only [Int.toNat_ofNat, hold]

/-- A move between two valid indices. -/
theorem reorder_valid_index (oldIndex newIndex : Nat) (now : String) (st : Store)
    (hold : oldIndex < st.workflow.length) (hnew : newIndex < st.workflow.length) :
    (reorderSteps oldIndex newIndex now st).selectedStep = st.selectedStep ∧
    (reorderSteps oldIndex newIndex now st).workflow.length = st.workflow.length ∧
    orderInvariant (reorderSteps oldIndex newIndex now st) ∧
    ((reorderSteps oldIndex newIndex now st).workflow.map Step.content).get? newIndex =
      (st.workflow.map Step.content).get? oldIndex ∧
    ((reorderSteps oldIndex newIndex now st).workflow.map Step.content).eraseIdx newIndex =
      (st.workflow.map Step.content).eraseIdx oldIndex ∧
    List.Perm ((reorderSteps oldIndex newIndex now st).workflow.map Step.content)
      (st.workflow.map Step.content) := by
  obtain ⟨moved, hm⟩ : ∃ moved, st.workflow.get? oldIndex = some moved :=
    ⟨_, List.get?_eq_get hold⟩
  rw [reorderSteps_valid oldIndex newIndex now st moved hm hnew]
  have hlen : (st.workflow.eraseIdx oldIndex).length = st.workflow.length - 1 :=
    List.length_eraseIdx_of_lt hold
  have hle : newIndex ≤ ((st.workflow.eraseIdx oldIndex).map Step.content).length := by
    rw [List.length_map]; omega
  have hc : (renumber now 0 ((st.workflow.eraseIdx oldIndex).take newIndex ++
      moved :: (st.workflow.eraseIdx oldIndex).drop newIndex)).map Step.content =
      ((st.workflow.eraseIdx oldIndex).map Step.content).take newIndex ++
        moved.content :: ((st.workflow.eraseIdx oldIndex).map Step.content).drop newIndex := by
    rw [renumber_content]
    simp only [List.map_append, List.map_cons, List.map_take, List.map_drop]
  have hm2 : (st.workflow.map Step.content).get? oldIndex = some moved.content := by
    rw [List.get?_eq_getElem?, List.getElem?_map, ← List.get?_eq_getElem?, hm]; rfl
  refine ⟨rfl, ?_, renumber_orders now 0 _, ?_, ?_, ?_⟩
  · simp only [renumber_length, List.length_append, List.length_cons, List.length_take,
      List.length_drop]
    omega
  · show List.get? (List.map Step.content (renumber _ _ _)) _ = _
    rw [hc, splice_get _ _ _ hle, hm2]
  · show List.eraseIdx (List.map Step.content (renumber _ _ _)) _ = _
    rw [hc, splice_erase _ _ _ hle, eraseIdx_map_comm]
  · show List.Perm (List.map Step.content (renumber _ _ _)) _
    rw [hc]
    refine (splice_perm _ _ _).trans ?_
    rw [eraseIdx_map_comm]
    exact cons_eraseIdx_perm _ _ _ hm2

/-- A call with an index out of range. -/
theorem reorder_invalid_index (oldIndex newIndex : Int) (now : String) (st : Store)
    (h : oldIndex < 0 ∨ newIndex < 0 ∨ oldIndex ≥ st.workflow.length ∨
      newIndex ≥ st.workflow.length) :
    reorderSteps oldIndex newIndex now st = st := by
  unfold reorderSteps
  rw [if_pos h]


/-- C23: `reorderSteps(oldIndex, newIndex)` on whole-number indices.  When both
are indices of the workflow, the new workflow has the same length, every step's
`order` is its index, the step at `newIndex` is the step that was at `oldIndex`,
the other steps keep their relative order (removing the moved step from either
list gives the same list), the new list is a permutation of the old one, all up
to `order` and `updatedAt`, and `selectedStep` is unchanged.  When an index is
negative or not below the length, the state is unchanged. -/
theorem reorder_moves_one_step (now : String) (st : Store) :
    (∀ oldIndex newIndex : Nat, oldIndex < st.workflow.length → newIndex < st.workflow.length →
      (reorderSteps oldIndex newIndex now st).selectedStep = st.selectedStep ∧
      (reorderSteps oldIndex newIndex now st).workflow.length = st.workflow.length ∧
      orderInvariant (reorderSteps oldIndex newIndex now st) ∧
      ((reorderSteps oldIndex newIndex now st).workflow.map Step.content).get? newIndex =
        (st.workflow.map Step.content).get? oldIndex ∧
      ((reorderSteps oldIndex newIndex now st).workflow.map Step.content).eraseIdx newIndex =
        (st.workflow.map Step.content).eraseIdx oldIndex ∧
      List.Perm ((reorderSteps oldIndex newIndex now st).workflow.map Step.content)
        (st.workflow.map Step.content)) ∧
    (∀ oldIndex newIndex : Int,
      oldIndex < 0 ∨ newIndex < 0 ∨ oldIndex ≥ st.workflow.length ∨
        newIndex ≥ st.workflow.length →
      reorderSteps oldIndex newIndex now st = st) :=
  ⟨fun oldIndex newIndex hold hnew => reorder_valid_index oldIndex newIndex now st hold hnew,
    fun oldIndex newIndex h => reorder_invalid_index oldIndex newIndex now st h⟩

/-! ## The selection invariant -/

theorem importWorkflow_state (ids : Nat → String) (now : String) (workflowData : JsVal)
    (st st2 : Store) (r : ImportResult)
    (h : importWorkflow ids now workflowData st = .ok (r, st2)) :
    st2 = st ∨ ∃ steps : List Step,
      st2 = { workflow := steps, selectedStep := steps.head?.map fun s => s.id } := by
  unfold importWorkflow at h
  split at h
  · simp only [pure, Except.pure, Except.ok.injEq, Prod.mk.injEq] at h
    exact Or.inl h.2.symm
  · cases h
  · simp only [bind, Except.bind] at h
    split at h
    · cases h
    · rename_i steps _
      simp only [pure, Except.pure, Except.ok.injEq, Prod.mk.injEq] at h
      exact Or.inr ⟨steps, h.2.symm⟩

theorem selection_of_head (steps : List Step) :
    selectionInvariant { workflow := steps, selectedStep := steps.head?.map fun s => s.id } := by
  cases steps with
  | nil => trivial
  | cons s rest => exact ⟨s, List.mem_cons_self _ _, rfl⟩

theorem selection_of_map (f : Step → Step) (hf : ∀ s, (f s).id = s.id) (st : Store)
    (h : selectionInvariant st) :
    selectionInvariant { workflow := st.workflow.map f, selectedStep := st.selectedStep } := by
  unfold selectionInvariant at h ⊢
  cases hs : st.selectedStep with
  | none => trivial
  | some id =>
    rw [hs] at h
    obtain ⟨s, hm, hid⟩ := h
    exact ⟨f s, List.mem_map_of_mem _ hm, by rw [hf, hid]⟩

theorem selection_of_ids (st st2 : Store) (hsel : st2.selectedStep = st.selectedStep)
    (hperm : List.Perm (st2.workflow.map Step.content) (st.workflow.map Step.content))
    (h : selectionInvariant st) : selectionInvariant st2 := by
  unfold selectionInvariant at h ⊢
  rw [hsel]
  cases hs : st.selectedStep with
  | none => trivial
  | some id =>
    rw [hs] at h
    obtain ⟨s, hm, hid⟩ := h
    have : s.content ∈ st2.workflow.map Step.content :=
      hperm.symm.subset (List.mem_map_of_mem _ hm)
    obtain ⟨t, ht, hc⟩ := List.mem_map.1 this
    refine ⟨t, ht, ?_⟩
    have : t.content.1 = s.content.1 := by rw [hc]
    exact this.trans hid

theorem selection_reorderSteps (oldIndex newIndex : Int) (now : String) (st : Store)
    (h : selectionInvariant st) : selectionInvariant (reorderSteps oldIndex newIndex now st) := by
  by_cases hv : oldIndex < 0 ∨ newIndex < 0 ∨ oldIndex ≥ st.workflow.length ∨
      newIndex ≥ st.workflow.length
  · rw [reorder_invalid_index _ _ _ _ hv]; exact h
  · have h1 : 0 ≤ oldIndex := by omega
    have h2 : 0 ≤ newIndex := by omega
    obtain ⟨o, rfl⟩ := Int.eq_ofNat_of_zero_le h1
    obtain ⟨n, rfl⟩ := Int.eq_ofNat_of_zero_le h2
    have ho : o < st.workflow.length := by omega
    have hn : n < st.workflow.length := by omega
    have := reorder_valid_index o n now st ho hn
    exact selection_of_ids st _ this.1 this.2.2.2.2.2 h

theorem selection_after (st st2 : Store) (op : Op) (hop : keepsId op)
    (hafter : st.after op = some st2) (h : selectionInvariant st) : selectionInvariant st2 := by
  cases op with
  | addStep id created updated actionType =>
    simp only [Store.after] at hafter
    split at hafter
    · rename_i s st3 heq
      cases hafter
      unfold addStep at heq
      split at heq
      · cases heq
      · simp only [Except.ok.injEq, Prod.mk.injEq] at heq
        rw [← heq.2]
        exact ⟨_, List.mem_append_right _ (List.mem_singleton_self _), rfl⟩
    · cases hafter; exact h
  | updateStep stepId updates now =>
    cases hafter
    refine selection_of_map _ ?_ st h
    intro s
    split
    · simp only [Step.merge]
      have : updates.id = none := hop
      rw [this]; rfl
    · rfl
  | removeStep stepId =>
    cases hafter
    unfold selectionInvariant at h ⊢
    simp only [removeStep]
    cases hs : st.selectedStep with
    | none => simp
    | some id =>
      rw [hs] at h
      by_cases e : id = stepId
      · simp [e]
      · have : (some id = some stepId) = False := by simp [e]
        simp only [this, if_false]
        obtain ⟨s, hm, hid⟩ := h
        exact ⟨s, by simp [hm, hid, e], hid⟩
  | selectStep stepId =>
    cases hafter
    unfold selectionInvariant
    simp only [selectStep]
    split
    · trivial
    · rename_i id heq
      split at heq
      · rename_i hany
        cases heq
        obtain ⟨s, hm, hid⟩ := List.any_eq_true.1 hany
        exact ⟨s, hm, by simpa using hid⟩
      · cases heq
  | reorderSteps oldIndex newIndex now =>
    cases hafter
    exact selection_reorderSteps oldIndex newIndex now st h
  | toggleStep stepId now =>
    cases hafter
    refine selection_of_map _ ?_ st h
    intro s
    split <;> rfl
  | duplicateStep stepId id created updated =>
    cases hafter
    unfold duplicateStep
    split
    · exact h
    · exact ⟨_, List.mem_append_right _ (List.mem_singleton_self _), rfl⟩
  | clearWorkflow => cases hafter; trivial
  | enableAllSteps now =>
    cases hafter
    exact selection_of_map (fun step => { step with enabled := true, updatedAt := now })
      (fun _ => rfl) st h
  | disableAllSteps now =>
    cases hafter
    exact selection_of_map (fun step => { step with enabled := false, updatedAt := now })
      (fun _ => rfl) st h
  | importWorkflow ids now workflowData =>
    simp only [Store.after] at hafter
    split at hafter
    · rename_i r st3 heq
      cases hafter
      rcases importWorkflow_state ids now workflowData st _ r heq with e | ⟨steps, e⟩
      · rw [e]; exact h
      · rw [e]; exact selection_of_head steps
    · cases hafter

/-- C28: in every state the store reaches from its initial state by calls of its
operations, `updateStep` never with a new `id`, `selectedStep` is `null` or the id
of a step of the workflow; and in such a state `selectStep` with an id that no
step has sets `selectedStep` to `null`. -/
theorem selection_invariant_reachable (st : Store) (h : Reachable keepsId st) :
    selectionInvariant st ∧
      ∀ stepId, (∀ s ∈ st.workflow, s.id ≠ stepId) → (selectStep stepId st).selectedStep = none := by
  constructor
  · induction h with
    | initial => trivial
    | call st st2 op _ hop hafter ih => exact selection_after st st2 op hop hafter ih
  · intro stepId hno
    simp only [selectStep]
    rw [if_neg]
    intro hany
    obtain ⟨s, hm, hid⟩ := List.any_eq_true.1 hany
    exact hno s hm (by simpa using hid)

/-- C28, witness: the state after `clearWorkflow()` and `selectStep('absent')`. -/
theorem selection_invariant_reachable_witness :
    Reachable keepsId (selectStep "absent" (clearWorkflow Store.empty)) ∧
      selectionInvariant (selectStep "absent" (clearWorkflow Store.empty)) :=
  ⟨Reachable.call _ _ (.selectStep "absent")
      (Reachable.call _ _ .clearWorkflow Reachable.initial trivial rfl) trivial rfl,
    (selection_invariant_reachable _ (Reachable.call _ _ (.selectStep "absent")
      (Reachable.call _ _ .clearWorkflow Reachable.initial trivial rfl) trivial rfl)).1⟩


/-! ## Export and import -/

theorem reachable_afterAll (allowed : Op → Prop) (ops : List Op) (st st2 : Store)
    (hops : ∀ op ∈ ops, allowed op) (h : st.afterAll ops = some st2)
    (hr : Reachable allowed st) : Reachable allowed st2 := by
  induction ops generalizing st with
  | nil =>
    simp only [Store.afterAll, Option.some.injEq] at h
    rw [← h]; exact hr
  | cons op rest ih =>
    simp only [Store.afterAll] at h
    cases h1 : st.after op with
    | none => rw [h1] at h; cases h
    | some st1 =>
      rw [h1] at h
      exact ih st1 (fun o ho => hops o (List.mem_cons_of_mem _ ho)) h
        (Reachable.call st st1 op hr (hops op (List.mem_cons_self _ _)) h1)

theorem builtStore_after : Store.empty.afterAll builtOps = some builtStore := rfl

theorem builtStore_reachable : Reachable buildsWorkflow builtStore ∧ Reachable keepsId builtStore := by
  constructor
  · refine reachable_afterAll _ builtOps _ _ ?_ builtStore_after Reachable.initial
    intro op hop
    simp only [builtOps, List.mem_cons, List.mem_singleton, List.not_mem_nil, or_false] at hop
    rcases hop with rfl | rfl | rfl <;> first | trivial | (show _ ≠ _; decide)
  · refine reachable_afterAll _ builtOps _ _ ?_ builtStore_after Reachable.initial
    intro op hop
    simp only [builtOps, List.mem_cons, List.mem_singleton, List.not_mem_nil, or_false] at hop
    rcases hop with rfl | rfl | rfl <;> trivial


theorem template_names_nonempty : ∀ p ∈ actionTemplates, p.2.name ≠ "" := by decide

theorem lookup_mem {α : Type} (l : List (String × α)) (k : String) (v : α)
    (h : l.lookup k = some v) : (k, v) ∈ l := by
  induction l with
  | nil => simp [List.lookup] at h
  | cons p rest ih =>
    obtain ⟨a, b⟩ := p
    simp only [List.lookup] at h
    split at h
    · rename_i heq
      simp only [Option.some.injEq] at h
      have : k = a := by simpa using heq
      rw [this, h]
      exact List.mem_cons_self _ _
    · exact List.mem_cons_of_mem _ (ih h)

theorem templateFields_empty : (templateFields "").isSome = false := by decide

theorem templateFields_name (actionType : String) (name icon config : JsVal)
    (h : templateFields actionType = some (name, icon, config)) (hp : actionType ≠ "__proto__") :
    name.truthy = true := by
  unfold templateFields at h
  cases hl : actionTemplates.lookup actionType with
  | some t =>
    rw [hl] at h
    simp only [Option.some.injEq, Prod.mk.injEq] at h
    rw [← h.1]
    have := template_names_nonempty _ (lookup_mem _ _ _ hl)
    simpa [JsVal.truthy] using this
  | none =>
    rw [hl] at h
    simp only at h
    by_cases c1 : actionType = "constructor"
    · rw [if_pos c1] at h
      simp only [Option.some.injEq, Prod.mk.injEq] at h
      rw [← h.1]; rfl
    · rw [if_neg c1, if_neg hp] at h
      by_cases c3 : actionType ∈ objectPrototypeMethods
      · rw [if_pos c3] at h
        simp only [Option.some.injEq, Prod.mk.injEq] at h
        rw [← h.1]
        have : actionType ≠ "" := by
          intro e
          rw [e] at c3
          revert c3
          decide
        simpa [JsVal.truthy] using this
      · rw [if_neg c3] at h
        cases h

theorem spreadConfig_object (v : JsVal) : typeofIsObject (spreadConfig v) = true := by
  cases v <;> rfl

theorem importable_addStep (id created updated actionType : String) (st : Store) (s : Step)
    (st2 : Store) (hp : actionType ≠ "__proto__")
    (h : addStep id created updated actionType st = .ok (s, st2)) :
    importable s ∧ st2.workflow = st.workflow ++ [s] := by
  unfold addStep at h
  split at h
  · cases h
  · rename_i name icon config hf
    simp only [Except.ok.injEq, Prod.mk.injEq] at h
    obtain ⟨h1, h2⟩ := h
    subst h1
    refine ⟨⟨?_, templateFields_name _ _ _ _ hf hp, spreadConfig_object _⟩, by rw [← h2]⟩
    show (templateFields actionType).isSome = true
    rw [hf]; rfl

theorem importable_of_content (s t : Step) (h : s.content = t.content) (ht : importable t) :
    importable s := by
  simp only [Step.content, Prod.mk.injEq] at h
  obtain ⟨_, h2, h3, _, h5, _, _⟩ := h
  unfold importable at ht ⊢
  rw [h2, h3, h5]
  exact ht

theorem importable_after (st st2 : Store) (op : Op) (hop : buildsWorkflow op)
    (hafter : st.after op = some st2) (h : ∀ s ∈ st.workflow, importable s) :
    ∀ s ∈ st2.workflow, importable s := by
  cases op with
  | addStep id created updated actionType =>
    simp only [Store.after] at hafter
    split at hafter
    · rename_i s st3 heq
      cases hafter
      obtain ⟨hi, hw⟩ := importable_addStep _ _ _ _ _ _ _ hop heq
      rw [hw]
      intro t ht
      rcases List.mem_append.1 ht with ht | ht
      · exact h t ht
      · rw [List.mem_singleton.1 ht]; exact hi
    · cases hafter; exact h
  | updateStep stepId updates now =>
    cases hafter
    obtain ⟨fields, rfl⟩ := hop
    intro t ht
    simp only [updateStep, List.mem_map] at ht
    obtain ⟨s, hs, rfl⟩ := ht
    split
    · exact ⟨(h s hs).1, (h s hs).2.1, rfl⟩
    · exact h s hs
  | removeStep stepId =>
    cases hafter
    intro t ht
    exact h t (List.mem_of_mem_filter ht)
  | selectStep stepId => exact absurd hop id
  | reorderSteps oldIndex newIndex now =>
    cases hafter
    by_cases hv : oldIndex < 0 ∨ newIndex < 0 ∨ oldIndex ≥ st.workflow.length ∨
        newIndex ≥ st.workflow.length
    · rw [reorder_invalid_index _ _ _ _ hv]; exact h
    · have h1 : 0 ≤ oldIndex := by omega
      have h2 : 0 ≤ newIndex := by omega
      obtain ⟨o, rfl⟩ := Int.eq_ofNat_of_zero_le h1
      obtain ⟨n, rfl⟩ := Int.eq_ofNat_of_zero_le h2
      have ho : o < st.workflow.length := by omega
      have hn : n < st.workflow.length := by omega
      have hp := (reorder_valid_index o n now st ho hn).2.2.2.2.2
      intro t ht
      have : t.content ∈ st.workflow.map Step.content :=
        hp.subset (List.mem_map_of_mem _ ht)
      obtain ⟨s, hs, hc⟩ := List.mem_map.1 this
      exact importable_of_content t s hc.symm (h s hs)
  | toggleStep stepId now =>
    cases hafter
    intro t ht
    simp only [toggleStep, List.mem_map] at ht
    obtain ⟨s, hs, rfl⟩ := ht
    split
    · exact h s hs
    · exact h s hs
  | duplicateStep stepId id created updated =>
    cases hafter
    unfold duplicateStep
    split
    · exact h
    · rename_i step hfind
      intro t ht
      rcases List.mem_append.1 ht with ht | ht
      · exact h t ht
      · rw [List.mem_singleton.1 ht]
        have hm := h step (List.mem_of_find?_eq_some hfind)
        refine ⟨hm.1, ?_, hm.2.2⟩
        have hne : step.name.toStr ++ " (Copy)" ≠ "" := by
          intro e
          have := congrArg String.length e
          simp only [String.length_append] at this
          have h7 : (" (Copy)" : String).length = 7 := by decide
          have h0 : ("" : String).length = 0 := by decide
          omega
        simpa [JsVal.truthy] using hne
  | clearWorkflow => exact absurd hop id
  | enableAllSteps now => exact absurd hop id
  | disableAllSteps now => exact absurd hop id
  | importWorkflow ids now workflowData => exact absurd hop id

theorem importable_reachable (st : Store) (h : Reachable buildsWorkflow st) :
    ∀ s ∈ st.workflow, importable s := by
  induction h with
  | initial => intro s hs; cases hs
  | call st st2 op _ hop hafter ih => exact importable_after st st2 op hop hafter ih


theorem importCandidate_toJs (s : Step) (h : importable s) : importCandidate s.toJs = .ok true := by
  obtain ⟨h1, h2, h3⟩ := h
  have ht : s.type ≠ "" := by
    intro e
    rw [e, templateFields_empty] at h1
    cases h1
  have f1 : s.toJs.get "type" = .ok (.str s.type) := rfl
  have f2 : s.toJs.field "name" = s.name := rfl
  have f3 : s.toJs.field "config" = s.config := rfl
  unfold importCandidate
  have t1 : (JsVal.str s.type).truthy = true := by simp [JsVal.truthy, ht]
  simp only [f1, f2, f3, bind, Except.bind, t1, h2, h3, pure, Except.pure]
  rfl

theorem filterCandidates_toJs (workflow : List Step) (h : ∀ s ∈ workflow, importable s) :
    filterCandidates (workflow.map Step.toJs) = .ok (workflow.map Step.toJs) := by
  induction workflow with
  | nil => rfl
  | cons s rest ih =>
    have h1 := importCandidate_toJs s (h s (List.mem_cons_self _ _))
    have h2 := ih fun t ht => h t (List.mem_cons_of_mem _ ht)
    simp only [List.map_cons, filterCandidates, h1, h2, bind, Except.bind, pure, Except.pure,
      if_true]

theorem importedStep_toJs (id now : String) (index : Nat) (s : Step) :
    importedStep id now index s.toJs =
      .ok { id := id, type := s.type, name := s.name, icon := s.icon, config := s.config,
            enabled := s.enabled, order := index,
            createdAt := if s.createdAt = "" then now else s.createdAt, updatedAt := now } := rfl

theorem importSteps_toJs (ids : Nat → String) (now : String) (index : Nat) (workflow : List Step)
    (h : ∀ s ∈ workflow, importable s) :
    importSteps ids now index (workflow.map Step.toJs) = .ok (reimported ids now index workflow) := by
  induction workflow generalizing index with
  | nil => rfl
  | cons s rest ih =>
    have hk : knownType (s.toJs.field "type") = true := (h s (List.mem_cons_self _ _)).1
    have h2 := ih (index + 1) fun t ht => h t (List.mem_cons_of_mem _ ht)
    simp only [List.map_cons, importSteps, hk, if_true, importedStep_toJs, h2, bind, Except.bind,
      pure, Except.pure, reimported]

theorem reimported_fields (ids : Nat → String) (now : String) (index : Nat) (workflow : List Step) :
    (reimported ids now index workflow).map (fun s => (s.type, s.config, s.enabled)) =
      workflow.map (fun s => (s.type, s.config, s.enabled)) ∧
    (reimported ids now index workflow).length = workflow.length := by
  induction workflow generalizing index with
  | nil => exact ⟨rfl, rfl⟩
  | cons s rest ih =>
    simp only [reimported, List.map_cons, List.length_cons, (ih (index + 1)).1, (ih (index + 1)).2]
    trivial

theorem import_of_export (ids : Nat → String) (now exportedAt : String) (st st2 : Store)
    (h : ∀ s ∈ st.workflow, importable s) :
    importWorkflow ids now (exportWorkflow exportedAt st).toJs st2 =
      .ok (.success st.workflow.length 0,
        { workflow := reimported ids now 0 st.workflow,
          selectedStep := (reimported ids now 0 st.workflow).head?.map fun s => s.id }) := by
  have hc : importCandidates (exportWorkflow exportedAt st).toJs =
      .ok (st.workflow.length, st.workflow.map Step.toJs) := by
    have hg : (exportWorkflow exportedAt st).toJs.get "steps" =
        .ok (.arr (st.workflow.map Step.toJs)) := rfl
    unfold importCandidates
    simp only [hg, bind, Except.bind, JsVal.or, JsVal.truthy, if_true,
      filterCandidates_toJs st.workflow h, pure, Except.pure, List.length_map]
  unfold importWorkflow
  simp only [hc, importSteps_toJs ids now 0 st.workflow h, bind, Except.bind, pure, Except.pure,
    (reimported_fields ids now 0 st.workflow).2, Nat.sub_self]

/-- The round trip for a workflow of named steps. -/
theorem round_trip_of_named_steps (st : Store) (h : Reachable buildsWorkflow st)
    (ids : Nat → String) (now exportedAt : String) (st2 : Store) :
    ∃ st3, importWorkflow ids now (exportWorkflow exportedAt st).toJs st2 =
        .ok (.success ((st.workflow.filter fun s => s.enabled).length +
          (st.workflow.filter fun s => !s.enabled).length) 0, st3) ∧
      st3.workflow.length = (st.workflow.filter fun s => s.enabled).length +
        (st.workflow.filter fun s => !s.enabled).length ∧
      st3.workflow.map (fun s => (s.type, s.config, s.enabled)) =
        st.workflow.map (fun s => (s.type, s.config, s.enabled)) := by
  have hcount : (st.workflow.filter fun s => s.enabled).length +
      (st.workflow.filter fun s => !s.enabled).length = st.workflow.length :=
    (List.length_eq_length_filter_add (l := st.workflow) (fun s => s.enabled)).symm
  rw [hcount]
  exact ⟨_, import_of_export ids now exportedAt st st2 (importable_reachable st h),
    (reimported_fields ids now 0 st.workflow).2, (reimported_fields ids now 0 st.workflow).1⟩

/-- The state after `addStep('__proto__')`: one step without a name. -/
theorem inherited_step_has_no_name :
    (Store.empty.afterAll [.addStep "a" "t0" "t0" "__proto__"]).map
        (fun st => st.workflow.map fun s => (s.type, jsonText s.name, jsonText s.config)) =
      some [("__proto__", none, some "\x7b\x7d")] := by
  decide

/-- The round trip after `addStep('__proto__')`. -/
theorem inherited_step_round_trip :
    (Store.empty.afterAll [.addStep "a" "t0" "t0" "__proto__"]).map
        (fun st => (importWorkflow sampleIds "t1" (exportWorkflow "t1" st).toJs st).map
          fun r => (r.1, r.2.workflow.length, r.2.selectedStep)) =
      some (.ok (.success 0 1, 0, none)) ∧
    (Store.empty.afterAll [.addStep "a" "t0" "t0" "navigate",
        .addStep "b" "t1" "t1" "__proto__"]).map
        (fun st => (importWorkflow sampleIds "t2" (exportWorkflow "t2" st).toJs st).map
          fun r => (r.1, r.2.workflow.map fun s => s.type)) =
      some (.ok (.success 1 1, ["navigate"])) := by
  refine ⟨?_, ?_⟩ <;> decide

/-- C18, evaluated: `addStep('__proto__')` appends a step whose name is
`undefined`, and `importWorkflow(exportWorkflow())` then returns `imported = 0,
skipped = 1` and the empty workflow; after `addStep('navigate')` and
`addStep('__proto__')` it returns `imported = 1, skipped = 1`.  For every workflow
built by `addStep` with a type other than `__proto__`, `updateStep` with a mapping
as new configuration, `toggleStep`, `duplicateStep`, `reorderSteps` and
`removeStep`, the round trip returns success with `imported` the number of enabled
plus the number of disabled steps and `skipped = 0`, and the imported workflow has
the type, configuration and enabled flag of the original, position by position. -/
theorem round_trip_drops_step_without_name :
    ((Store.empty.afterAll [.addStep "a" "t0" "t0" "__proto__"]).map
        (fun st => st.workflow.map fun s => (s.type, jsonText s.name, jsonText s.config)) =
      some [("__proto__", none, some "\x7b\x7d")]) ∧
    ((Store.empty.afterAll [.addStep "a" "t0" "t0" "__proto__"]).map
        (fun st => (importWorkflow sampleIds "t1" (exportWorkflow "t1" st).toJs st).map
          fun r => (r.1, r.2.workflow.length, r.2.selectedStep)) =
      some (.ok (.success 0 1, 0, none))) ∧
    ((Store.empty.afterAll [.addStep "a" "t0" "t0" "navigate",
        .addStep "b" "t1" "t1" "__proto__"]).map
        (fun st => (importWorkflow sampleIds "t2" (exportWorkflow "t2" st).toJs st).map
          fun r => (r.1, r.2.workflow.map fun s => s.type)) =
      some (.ok (.success 1 1, ["navigate"]))) ∧
    (∀ (st : Store), Reachable buildsWorkflow st →
      ∀ (ids : Nat → String) (now exportedAt : String) (st2 : Store),
        ∃ st3, importWorkflow ids now (exportWorkflow exportedAt st).toJs st2 =
            .ok (.success ((st.workflow.filter fun s => s.enabled).length +
              (st.workflow.filter fun s => !s.enabled).length) 0, st3) ∧
          st3.workflow.length = (st.workflow.filter fun s => s.enabled).length +
            (st.workflow.filter fun s => !s.enabled).length ∧
          st3.workflow.map (fun s => (s.type, s.config, s.enabled)) =
            st.workflow.map (fun s => (s.type, s.config, s.enabled))) :=
  ⟨inherited_step_has_no_name, inherited_step_round_trip.1, inherited_step_round_trip.2,
    round_trip_of_named_steps⟩

/-! ## Emitters on a missing configuration -/

theorem puppeteer_reads_type_and_config (s : Step) :
    CodeModalV2.generatePuppeteerStepCode s =
      CodeModalV2.generatePuppeteerStepCode (stepOf s.type s.config) := rfl

theorem selenium_reads_type_and_config (s : Step) :
    CodeModalV2.generateSeleniumStepCode s =
      CodeModalV2.generateSeleniumStepCode (stepOf s.type s.config) := rfl

theorem playwright_reads_type_and_config (s : Step) :
    CodeModalV2.generatePlaywrightStepCode s =
      CodeModalV2.generatePlaywrightStepCode (stepOf s.type s.config) := rfl

theorem puppeteer_labels_without_config : ∀ ty ∈ puppeteerCaseLabels,
    returnsText (CodeModalV2.generatePuppeteerStepCode (stepOf ty .undefined)) = true ∧
    returnsText (CodeModalV2.generatePuppeteerStepCode (stepOf ty (.obj []))) = true := by
  decide!

theorem selenium_labels_without_config : ∀ ty ∈ seleniumCaseLabels,
    returnsText (CodeModalV2.generateSeleniumStepCode (stepOf ty .undefined)) = true ∧
    returnsText (CodeModalV2.generateSeleniumStepCode (stepOf ty (.obj []))) = true := by
  decide!

theorem playwright_labels_without_config : ∀ ty ∈ playwrightCaseLabels,
    returnsText (CodeModalV2.generatePlaywrightStepCode (stepOf ty .undefined)) = true ∧
    returnsText (CodeModalV2.generatePlaywrightStepCode (stepOf ty (.obj []))) = true := by
  decide!

theorem returnsText_ok (frag : String) (h : frag ≠ "") : returnsText (.ok frag) = true := by
  simp [returnsText, h]

theorem returnsText_elim (r : Except JsError String) (h : returnsText r = true) :
    ∃ frag, r = .ok frag ∧ frag ≠ "" := by
  cases r with
  | error e => cases h
  | ok s => exact ⟨s, rfl, by simpa [returnsText] using h⟩

theorem literal_append_ne (a b c : String) (h : a ≠ "") : a ++ b ++ c ≠ "" :=
  append_ne_empty_left _ _ (append_ne_empty_left _ _ h)

theorem emitters_without_config (step : Step)
    (h : step.config = .undefined ∨ step.config = .obj []) :
    returnsText (CodeModalV2.generatePuppeteerStepCode step) = true ∧
    returnsText (CodeModalV2.generateSeleniumStepCode step) = true ∧
    returnsText (CodeModalV2.generatePlaywrightStepCode step) = true := by
  have hsel : selectorIsText step.config = true := by
    rcases h with h | h <;> rw [h] <;> rfl
  refine ⟨?_, ?_, ?_⟩
  · by_cases hm : step.type ∈ puppeteerCaseLabels
    · rw [puppeteer_reads_type_and_config]
      rcases h with h | h <;> rw [h]
      · exact (puppeteer_labels_without_config _ hm).1
      · exact (puppeteer_labels_without_config _ hm).2
    · rw [puppeteer_default_branch step hsel hm]
      exact returnsText_ok _ (literal_append_ne _ _ _ (by decide))
  · by_cases hm : step.type ∈ seleniumCaseLabels
    · rw [selenium_reads_type_and_config]
      rcases h with h | h <;> rw [h]
      · exact (selenium_labels_without_config _ hm).1
      · exact (selenium_labels_without_config _ hm).2
    · rw [selenium_default_branch step hsel hm]
      exact returnsText_ok _ (literal_append_ne _ _ _ (by decide))
  · by_cases hm : step.type ∈ playwrightCaseLabels
    · rw [playwright_reads_type_and_config]
      rcases h with h | h <;> rw [h]
      · exact (playwright_labels_without_config _ hm).1
      · exact (playwright_labels_without_config _ hm).2
    · rw [playwright_default_branch step hsel hm]
      exact returnsText_ok _ (literal_append_ne _ _ _ (by decide))

/-- C30: when the configuration of a step is absent or the empty mapping, each
of the three emitters of `CodeModal_V2.jsx` returns a non-empty text and does not
raise, whatever the type string of the step is. -/
theorem emitters_total_without_config (step : Step)
    (h : step.config = .undefined ∨ step.config = .obj []) :
    (∃ frag, CodeModalV2.generatePuppeteerStepCode step = .ok frag ∧ frag ≠ "") ∧
    (∃ frag, CodeModalV2.generateSeleniumStepCode step = .ok frag ∧ frag ≠ "") ∧
    (∃ frag, CodeModalV2.generatePlaywrightStepCode step = .ok frag ∧ frag ≠ "") :=
  ⟨returnsText_elim _ (emitters_without_config step h).1,
    returnsText_elim _ (emitters_without_config step h).2.1,
    returnsText_elim _ (emitters_without_config step h).2.2⟩

/-- C30, witness: a `press-key` step with the empty mapping as configuration. -/
theorem emitters_total_without_config_witness :
    ((stepOf "press-key" (.obj [])).config = .undefined ∨
        (stepOf "press-key" (.obj [])).config = .obj []) ∧
      ∃ frag, CodeModalV2.generatePuppeteerStepCode (stepOf "press-key" (.obj [])) = .ok frag ∧
        frag ≠ "" :=
  ⟨Or.inr rfl, (emitters_total_without_config (stepOf "press-key" (.obj [])) (Or.inr rfl)).1⟩


/-! ## Fallback values of the emitters -/

/-- The delay a `wait-time` fragment holds after its log statement, for the default
configuration of the template and for that configuration without `duration`. -/
theorem wait_time_delay_with_and_without_duration :
    ((CodeModalV2.generatePuppeteerStepCode
          (stepOf "wait-time" (.obj (templateConfig "wait-time")))).map afterLog =
        .ok ";\n      await new Promise(r => setTimeout(r, 2000));" ∧
      (CodeModalV2.generatePuppeteerStepCode
          (stepOf "wait-time" (.obj (withoutKey "duration" (templateConfig "wait-time"))))).map
          afterLog =
        .ok ";\n      await new Promise(r => setTimeout(r, 1000));") ∧
    ((CodeModalV2.generateSeleniumStepCode
          (stepOf "wait-time" (.obj (templateConfig "wait-time")))).map afterLog =
        .ok "\n            time.sleep(2000 / 1000.0)" ∧
      (CodeModalV2.generateSeleniumStepCode
          (stepOf "wait-time" (.obj (withoutKey "duration" (templateConfig "wait-time"))))).map
          afterLog =
        .ok "\n            time.sleep(1000 / 1000.0)") ∧
    ((CodeModalV2.generatePlaywrightStepCode
          (stepOf "wait-time" (.obj (templateConfig "wait-time")))).map afterLog =
        .ok "; await this.page.waitForTimeout(2000);" ∧
      (CodeModalV2.generatePlaywrightStepCode
          (stepOf "wait-time" (.obj (withoutKey "duration" (templateConfig "wait-time"))))).map
          afterLog =
        .ok "; await this.page.waitForTimeout(1000);") := by
  refine ⟨⟨?_, ?_⟩, ⟨?_, ?_⟩, ⟨?_, ?_⟩⟩ <;> decide!

/-- A `scroll` fragment for the default configuration without `amount` is the
fragment for the amount 300 and not the one for the default configuration. -/
theorem scroll_amount_with_and_without_amount :
    (returnsText (CodeModalV2.generatePuppeteerStepCode
          (stepOf "scroll" (.obj (withoutKey "amount" (templateConfig "scroll"))))) = true ∧
      (CodeModalV2.generatePuppeteerStepCode
          (stepOf "scroll" (.obj (withoutKey "amount" (templateConfig "scroll"))))).map afterLog =
        (CodeModalV2.generatePuppeteerStepCode
          (stepOf "scroll" (.obj (withValue "amount" (.num 300) (templateConfig "scroll"))))).map
          afterLog ∧
      CodeModalV2.generatePuppeteerStepCode
          (stepOf "scroll" (.obj (withoutKey "amount" (templateConfig "scroll")))) ≠
        CodeModalV2.generatePuppeteerStepCode (stepOf "scroll" (.obj (templateConfig "scroll")))) ∧
    (returnsText (CodeModalV2.generateSeleniumStepCode
          (stepOf "scroll" (.obj (withoutKey "amount" (templateConfig "scroll"))))) = true ∧
      (CodeModalV2.generateSeleniumStepCode
          (stepOf "scroll" (.obj (withoutKey "amount" (templateConfig "scroll"))))).map afterLog =
        (CodeModalV2.generateSeleniumStepCode
          (stepOf "scroll" (.obj (withValue "amount" (.num 300) (templateConfig "scroll"))))).map
          afterLog ∧
      CodeModalV2.generateSeleniumStepCode
          (stepOf "scroll" (.obj (withoutKey "amount" (templateConfig "scroll")))) ≠
        CodeModalV2.generateSeleniumStepCode (stepOf "scroll" (.obj (templateConfig "scroll")))) ∧
    (returnsText (CodeModalV2.generatePlaywrightStepCode
          (stepOf "scroll" (.obj (withoutKey "amount" (templateConfig "scroll"))))) = true ∧
      (CodeModalV2.generatePlaywrightStepCode
          (stepOf "scroll" (.obj (withoutKey "amount" (templateConfig "scroll"))))).map afterLog =
        (CodeModalV2.generatePlaywrightStepCode
          (stepOf "scroll" (.obj (withValue "amount" (.num 300) (templateConfig "scroll"))))).map
          afterLog ∧
      CodeModalV2.generatePlaywrightStepCode
          (stepOf "scroll" (.obj (withoutKey "amount" (templateConfig "scroll")))) ≠
        CodeModalV2.generatePlaywrightStepCode (stepOf "scroll" (.obj (templateConfig "scroll")))) := by
  refine ⟨⟨?_, ?_, ?_⟩, ⟨?_, ?_, ?_⟩, ⟨?_, ?_, ?_⟩⟩ <;> decide!

/-- C26, evaluated: the templates of `wait-time` and `scroll` have the defaults
`duration: 2000` and `amount: 500`, but for each target of `CodeModal_V2.jsx` a
`wait-time` step whose configuration is the template default without `duration`
emits a delay of 1000 milliseconds where the default configuration emits 2000, and
a `scroll` step whose configuration is the template default without `amount`
emits the fragment of the amount 300, which is not the fragment of the default
configuration. -/
theorem fallback_differs_from_template_default :
    (JsVal.lookup (templateConfig "wait-time") "duration").map JsVal.toStr = some "2000" ∧
    (JsVal.lookup (templateConfig "scroll") "amount").map JsVal.toStr = some "500" ∧
    ((CodeModalV2.generatePuppeteerStepCode
          (stepOf "wait-time" (.obj (templateConfig "wait-time")))).map afterLog =
        .ok ";\n      await new Promise(r => setTimeout(r, 2000));" ∧
      (CodeModalV2.generatePuppeteerStepCode
          (stepOf "wait-time" (.obj (withoutKey "duration" (templateConfig "wait-time"))))).map
          afterLog =
        .ok ";\n      await new Promise(r => setTimeout(r, 1000));") ∧
    ((CodeModalV2.generateSeleniumStepCode
          (stepOf "wait-time" (.obj (templateConfig "wait-time")))).map afterLog =
        .ok "\n            time.sleep(2000 / 1000.0)" ∧
      (CodeModalV2.generateSeleniumStepCode
          (stepOf "wait-time" (.obj (withoutKey "duration" (templateConfig "wait-time"))))).map
          afterLog =
        .ok "\n            time.sleep(1000 / 1000.0)") ∧
    ((CodeModalV2.generatePlaywrightStepCode
          (stepOf "wait-time" (.obj (templateConfig "wait-time")))).map afterLog =
        .ok "; await this.page.waitForTimeout(2000);" ∧
      (CodeModalV2.generatePlaywrightStepCode
          (stepOf "wait-time" (.obj (withoutKey "duration" (templateConfig "wait-time"))))).map
          afterLog =
        .ok "; await this.page.waitForTimeout(1000);") ∧
    (CodeModalV2.generatePuppeteerStepCode
          (stepOf "scroll" (.obj (withoutKey "amount" (templateConfig "scroll")))) ≠
        CodeModalV2.generatePuppeteerStepCode (stepOf "scroll" (.obj (templateConfig "scroll"))) ∧
      (CodeModalV2.generatePuppeteerStepCode
          (stepOf "scroll" (.obj (withoutKey "amount" (templateConfig "scroll"))))).map afterLog =
        (CodeModalV2.generatePuppeteerStepCode
          (stepOf "scroll" (.obj (withValue "amount" (.num 300) (templateConfig "scroll"))))).map
          afterLog) ∧
    (CodeModalV2.generateSeleniumStepCode
          (stepOf "scroll" (.obj (withoutKey "amount" (templateConfig "scroll")))) ≠
        CodeModalV2.generateSeleniumStepCode (stepOf "scroll" (.obj (templateConfig "scroll"))) ∧
      (CodeModalV2.generateSeleniumStepCode
          (stepOf "scroll" (.obj (withoutKey "amount" (templateConfig "scroll"))))).map afterLog =
        (CodeModalV2.generateSeleniumStepCode
          (stepOf "scroll" (.obj (withValue "amount" (.num 300) (templateConfig "scroll"))))).map
          afterLog) ∧
    (CodeModalV2.generatePlaywrightStepCode
          (stepOf "scroll" (.obj (withoutKey "amount" (templateConfig "scroll")))) ≠
        CodeModalV2.generatePlaywrightStepCode (stepOf "scroll" (.obj (templateConfig "scroll"))) ∧
      (CodeModalV2.generatePlaywrightStepCode
          (stepOf "scroll" (.obj (withoutKey "amount" (templateConfig "scroll"))))).map afterLog =
        (CodeModalV2.generatePlaywrightStepCode
          (stepOf "scroll" (.obj (withValue "amount" (.num 300) (templateConfig "scroll"))))).map
          afterLog) :=
  ⟨by decide, by decide, wait_time_delay_with_and_without_duration.1,
    wait_time_delay_with_and_without_duration.2.1, wait_time_delay_with_and_without_duration.2.2,
    ⟨scroll_amount_with_and_without_amount.1.2.2, scroll_amount_with_and_without_amount.1.2.1⟩,
    ⟨scroll_amount_with_and_without_amount.2.1.2.2, scroll_amount_with_and_without_amount.2.1.2.1⟩,
    ⟨scroll_amount_with_and_without_amount.2.2.2.2, scroll_amount_with_and_without_amount.2.2.2.1⟩⟩
end WebAutomationStudio
